import Mathlib

/-!
# Verification of the Karl-the-Star-Vanguard simulation engine

Shallow embedding of the game engine in `src/src/App.tsx`: the per-frame
`update` function of the animation loop, the spawners, the collision
resolution and the persistence accesses, together with proofs about the
claims of the specification.

Modelling conventions:
* JavaScript numbers are modelled as exact rationals (`ℚ`); the integer-valued
  counters (score, lives, hits, levels, timers, coins) as `ℤ`.
* `Math.random()` draws are supplied by an explicit stream
  `rand : ℕ → ℚ`; the state carries the next index `ri`.  Every call site of
  `Math.random()` in the source consumes one value of the stream, in source
  evaluation order (including short-circuited draws).
* `Math.sqrt(dx*dx+dy*dy) < t` is modelled as `dx*dx+dy*dy < t*t`, which is
  equivalent for the positive thresholds used at every call site.
* `Array.prototype.forEach` combined with `splice(i, 1)` inside the callback
  is modelled faithfully: the loops below keep the already-visited prefix
  (`done`), the current element together with a `present` flag (the element
  may have been spliced out, in which case a further `splice(i, 1)` removes
  the element that shifted into slot `i`, i.e. the head of `rest`), and the
  not-yet-visited suffix.  After an iteration whose current element was
  removed, the element that shifted into the current slot is skipped, exactly
  as in JavaScript (where `forEach` visits ascending indices of the live
  array).
* React functional state updates (`setX(f)`) are queued and executed in
  order; within one tick this is sequential state threading.  The plain
  variables `score` and `level` read inside the effect closure are the values
  captured at effect mount, i.e. the values at the start of the tick; the
  model passes those explicitly where the source reads them.
* `setTimeout` callbacks (boss-explosion after-shocks, level-up banner
  clearing) run outside the tick and are not part of the tick's output.
-/

namespace KarlSV

/-- Canvas width (App.tsx line 26). -/
def CANVAS_WIDTH : ℚ := 800

/-- Canvas height (App.tsx line 27). -/
def CANVAS_HEIGHT : ℚ := 600

/-- The session state machine states (App.tsx line 29). -/
inductive GState
  | START
  | PLAYING
  | PAUSED
  | GAMEOVER
  | UPGRADE
  | GUARDIAN_RESULT
deriving DecidableEq

/-- Enemy kinds (App.tsx line 62). -/
inductive EnemyType
  | BASIC
  | FAST
  | HEAVY
  | ELITE
  | BOSS
deriving DecidableEq

/-- Power-up kinds (App.tsx line 77). -/
inductive PowerUpType
  | TRIPLE_SHOT
  | SHIELD
  | COIN
deriving DecidableEq

/-- Stored particle kinds (App.tsx line 46).  `BOSS_EXPLOSION` is only an
argument mode of `createExplosion`; the particles it stores immediately are
sparks, so stored particles are always `SPARK` or `SHOCKWAVE`. -/
inductive ParticleType
  | SPARK
  | SHOCKWAVE
deriving DecidableEq

/-- `createExplosion`'s `type` parameter (App.tsx line 376). -/
inductive ExplosionKind
  | SPARK
  | SHOCKWAVE
  | BOSS_EXPLOSION
deriving DecidableEq

/-- The player object of the engine ref (App.tsx lines 203-212). -/
structure Player where
  x : ℚ
  y : ℚ
  width : ℚ
  height : ℚ
  speed : ℚ
  invulnerable : ℤ
  shield : Bool
  tripleShot : ℤ
deriving DecidableEq

/-- Bullets, both player-owned and enemy-owned (App.tsx lines 49-56). -/
structure Bullet where
  x : ℚ
  y : ℚ
  vx : ℚ
  vy : ℚ
  power : ℚ
  isEnemy : Bool := false
deriving DecidableEq

/-- Enemies (App.tsx lines 58-72).  `lastShot`, `phase` and `moveDir` are
optional in the source; unset is modelled as `0` (`moveDir` is only read
through `(e.moveDir || 1)`, which maps `0` to `1`, see `orOne`). -/
structure Enemy where
  id : ℚ
  x : ℚ
  y : ℚ
  type : EnemyType
  hp : ℚ
  maxHp : ℚ
  speed : ℚ
  score : ℤ
  width : ℚ
  height : ℚ
  lastShot : ℚ := 0
  phase : ℤ := 0
  moveDir : ℚ := 0
deriving DecidableEq

/-- Power-ups (App.tsx lines 74-81). -/
structure PowerUp where
  x : ℚ
  y : ℚ
  type : PowerUpType
  width : ℚ
  height : ℚ
  value : ℤ := 0
deriving DecidableEq

/-- Particles (App.tsx lines 38-47). -/
structure Particle where
  x : ℚ
  y : ℚ
  vx : ℚ
  vy : ℚ
  life : ℚ
  color : String
  size : ℚ
  type : ParticleType
deriving DecidableEq

/-- Background stars (App.tsx line 218). -/
structure Star where
  x : ℚ
  y : ℚ
  size : ℚ
  speed : ℚ
deriving DecidableEq

/-- Persistent upgrades (App.tsx lines 83-90). -/
structure Upgrades where
  maxLives : ℤ
  tripleShotLevel : ℤ
  fireRate : ℚ
  moveSpeed : ℚ
  bulletPower : ℚ
  armorStrength : ℤ
deriving DecidableEq

/-- Achievement identifiers (App.tsx lines 188-198). -/
inductive AchId
  | first_blood
  | survivor
  | ace_pilot
  | shield_master
  | power_hungry
  | rich_man
  | untouchable
  | boss_slayer
  | guardian_hero
deriving DecidableEq

/-- The `unlocked` flags of the nine achievements (App.tsx lines 188-198). -/
structure Achievements where
  first_blood : Bool
  survivor : Bool
  ace_pilot : Bool
  shield_master : Bool
  power_hungry : Bool
  rich_man : Bool
  untouchable : Bool
  boss_slayer : Bool
  guardian_hero : Bool
deriving DecidableEq

/-- `unlockAchievement` (App.tsx lines 362-374): flips the flag of the given
achievement to `true` (idempotently). -/
def Achievements.unlock (a : Achievements) : AchId → Achievements
  | .first_blood => { a with first_blood := true }
  | .survivor => { a with survivor := true }
  | .ace_pilot => { a with ace_pilot := true }
  | .shield_master => { a with shield_master := true }
  | .power_hungry => { a with power_hungry := true }
  | .rich_man => { a with rich_man := true }
  | .untouchable => { a with untouchable := true }
  | .boss_slayer => { a with boss_slayer := true }
  | .guardian_hero => { a with guardian_hero := true }

/-- The input-key state read by one tick (App.tsx lines 502-505, 513); the
arrow keys and the WASD keys are merged into one boolean per direction, as
the source reads them only disjunctively. -/
structure Keys where
  left : Bool
  right : Bool
  up : Bool
  down : Bool
  space : Bool
deriving DecidableEq

/-- Session-constant configuration: the persistent upgrades record and the
guardian-mode flag, both fixed for the duration of a session. -/
structure Cfg where
  up : Upgrades
  guardian : Bool
deriving DecidableEq

/-- The per-tick environment: key state, the two `Date.now()` reads of the
tick (line 512 and line 748), and the `Math.random()` stream. -/
structure TickInput where
  keys : Keys
  now : ℚ
  now2 : ℚ
  rand : ℕ → ℚ

/-- The whole mutable world: the engine ref (App.tsx lines 202-232) merged
with the React session state (lines 180-199) that the tick reads or writes.
`ri` is the read position in the random stream. -/
structure St where
  player : Player
  bullets : List Bullet
  enemyBullets : List Bullet
  enemies : List Enemy
  powerUps : List PowerUp
  particles : List Particle
  stars : List Star
  lastShot : ℚ
  enemySpawnTimer : ℤ
  powerUpSpawnTimer : ℤ
  frameCount : ℤ
  startTime : ℚ
  enemiesKilled : ℤ
  shieldsPicked : ℤ
  tripleShotsPicked : ℤ
  levelUpPending : Bool
  warningTimer : ℤ
  lostLifeThisRun : Bool
  bossActive : Bool
  gameState : GState
  escapedEnemies : ℤ
  score : ℤ
  sessionCoins : ℤ
  lives : ℤ
  playerHits : ℤ
  level : ℤ
  achievements : Achievements
  totalCoins : ℤ
  ri : ℕ
deriving DecidableEq

/-- Draw the next value of the random stream (one `Math.random()` call). -/
def nextRand (inp : TickInput) (s : St) : ℚ × St :=
  (inp.rand s.ri, { s with ri := s.ri + 1 })

/-- `randomRange(min, max)` (App.tsx line 154) applied to a drawn roll `r`:
`Math.random() * (max - min) + min`. -/
def randomRange (r lo hi : ℚ) : ℚ :=
  r * (hi - lo) + lo

/-- JavaScript `(q || 1)` on a number: `0` is falsy. -/
def orOne (q : ℚ) : ℚ :=
  if q = 0 then 1 else q

/-- Circular distance test `Math.sqrt(dx*dx + dy*dy) < t`, in the squared
form `dx*dx + dy*dy < t*t`, equivalent for the positive thresholds used at
every call site (player width 40, enemy widths 30-150, power-up width 30). -/
def distLt (dx dy t : ℚ) : Prop :=
  dx * dx + dy * dy < t * t

instance (dx dy t : ℚ) : Decidable (distLt dx dy t) :=
  inferInstanceAs (Decidable (_ < _))

/-- Flip achievement `i` to unlocked in the state. -/
def unlockIn (s : St) (i : AchId) : St :=
  { s with achievements := s.achievements.unlock i }

/-- The spark particles pushed by the loop of `createExplosion` (App.tsx
lines 388-399): spark `j` of `n` consumes the three stream values at indices
`i + 3*j`, `i + 3*j + 1`, `i + 3*j + 2` (velocity x, velocity y, size). -/
def sparkList (inp : TickInput) (x y : ℚ) (color : String) : ℕ → ℕ → List Particle
  | 0, _ => []
  | n + 1, i =>
    { x := x, y := y, vx := randomRange (inp.rand i) (-5) 5,
      vy := randomRange (inp.rand (i + 1)) (-5) 5, life := 1, color := color,
      size := randomRange (inp.rand (i + 2)) 2 6, type := .SPARK } ::
    sparkList inp x y color n (i + 3)

/-- `createExplosion` (App.tsx lines 376-401).  A `SHOCKWAVE` call first
pushes one shockwave particle; a `BOSS_EXPLOSION` call schedules five delayed
shockwaves via `setTimeout` (outside the tick, so not part of the tick's
output); then `count` sparks are pushed, consuming `3 * count` random
draws. -/
def createExplosion (inp : TickInput) (x y : ℚ) (color : String) (count : ℕ)
    (kind : ExplosionKind) (s : St) : St :=
  let wave : List Particle :=
    if kind = .SHOCKWAVE then
      [{ x := x, y := y, vx := 0, vy := 0, life := 1, color := color,
         size := 10, type := .SHOCKWAVE }]
    else []
  { s with particles := s.particles ++ wave ++ sparkList inp x y color count s.ri,
           ri := s.ri + 3 * count }

/-- `spawnPowerUp(x, y, forceType)` with all arguments supplied (App.tsx
lines 473-483), used for coin drops: no random draw is consumed. -/
def spawnPowerUpAt (x y : ℚ) (ty : PowerUpType) (s : St) : St :=
  { s with powerUps := s.powerUps ++
      [{ x := x, y := y, type := ty, width := 30, height := 30,
         value := if ty = .COIN then 10 else 0 }] }

/-- `spawnPowerUp()` with no arguments (App.tsx lines 473-483), used by the
power-up timer: one draw decides the kind (`> 0.5` means triple shot), one
draw places it horizontally in `[30, 770]`; it starts at `y = -30`. -/
def spawnPowerUpRandom (inp : TickInput) (s : St) : St :=
  let (r1, s) := nextRand inp s
  let ty : PowerUpType := if r1 > 1/2 then .TRIPLE_SHOT else .SHIELD
  let (r2, s) := nextRand inp s
  spawnPowerUpAt (randomRange r2 30 (CANVAS_WIDTH - 30)) (-30) ty s

/-- The stat block chosen by the normal-enemy type roll (App.tsx lines
427-456): `(type, hp, speed, score, width, height)`.  The branches are the
source's `if`/`else if` chain over the single uniform roll, first match
winning; the final branch is the `BASIC` default initialisation. -/
def rollStats (level : ℤ) (roll : ℚ) : EnemyType × ℚ × ℚ × ℤ × ℚ × ℚ :=
  if 3 ≤ level ∧ roll > 9/10 then
    (.ELITE, 2, 5/2 + (level : ℚ) * (2/10), 500, 45, 45)
  else if roll > 3/4 then
    (.HEAVY, 3, 1 + (level : ℚ) * (1/10), 300, 60, 50)
  else if roll > 11/20 then
    (.FAST, 1, 4 + (level : ℚ) * (3/10), 200, 30, 30)
  else
    (.BASIC, 1, 2 + (level : ℚ) * (2/10), 100, 40, 40)

/-- The enemy kind selected by the normal-spawn type roll. -/
def selectKind (level : ℤ) (roll : ℚ) : EnemyType :=
  (rollStats level roll).1

/-- `spawnEnemy` (App.tsx lines 403-471).  An early return if a boss is
active; a boss spawn (setting `bossActive`) when the level is a multiple of
10 and no enemies are alive; otherwise a normal spawn: one roll for the kind,
one for the id jitter, one for the horizontal position (source evaluation
order of the pushed object literal). -/
def spawnEnemy (inp : TickInput) (level : ℤ) (s : St) : St :=
  if s.bossActive then s
  else if level % 10 = 0 ∧ s.enemies.length = 0 ∧ s.bossActive = false then
    { s with
      bossActive := true,
      enemies := s.enemies ++
        [{ id := inp.now, x := CANVAS_WIDTH / 2, y := -100, type := .BOSS,
           hp := 50 + (level : ℚ) * 10, maxHp := 50 + (level : ℚ) * 10,
           speed := 1, score := 5000, width := 150, height := 100,
           lastShot := 0, phase := 1, moveDir := 1 }] }
  else
    let (typeRoll, s) := nextRand inp s
    let stats := rollStats level typeRoll
    let (rid, s) := nextRand inp s
    let (rx, s) := nextRand inp s
    { s with enemies := s.enemies ++
        [{ id := inp.now + rid,
           x := randomRange rx stats.2.2.2.2.1 (CANVAS_WIDTH - stats.2.2.2.2.1),
           y := -stats.2.2.2.2.2, type := stats.1, hp := stats.2.1,
           maxHp := stats.2.1, speed := stats.2.2.1, score := stats.2.2.2.1,
           width := stats.2.2.2.2.1, height := stats.2.2.2.2.2,
           lastShot := 0, phase := 0, moveDir := 0 }] }

/-- The `setLives` updater used by both life-loss sites (App.tsx lines
552-555 and 619-622): `setLives(l => { if (l <= 1) setGameState('GAMEOVER');
return l - 1; })`. -/
def loseLife (s : St) : St :=
  { s with
    gameState := if s.lives ≤ 1 then .GAMEOVER else s.gameState,
    lives := s.lives - 1 }

/-- Resolution of an enemy bullet that overlaps the player (App.tsx lines
545-563), without the bullet splice and the final `invulnerable = 60`
(handled by the caller): shield consumption, or (outside guardian mode) the
hit-counter logic that rolls over into `loseLife` at `armorStrength`. -/
def resolveBulletHitPlayer (c : Cfg) (inp : TickInput) (s : St) : St :=
  if s.player.shield then
    let s := { s with player := { s.player with shield := false } }
    createExplosion inp s.player.x s.player.y "#3b82f6" 10 .SPARK s
  else if c.guardian = false then
    let newHits := s.playerHits + 1
    if c.up.armorStrength ≤ newHits then
      let s := loseLife s
      let s := { s with lostLifeThisRun := true }
      let s := createExplosion inp s.player.x s.player.y "#ef4444" 30 .SHOCKWAVE s
      { s with playerHits := 0 }
    else
      { s with playerHits := newHits }
  else s

/-- Body of the player-bullet pass (App.tsx lines 527-531): move the bullet,
then remove it if it left the playfield.  `none` means the bullet was
spliced out. -/
def pbBody (b : Bullet) : Option Bullet :=
  let b := { b with x := b.x + b.vx, y := b.y + b.vy }
  if b.y < -20 ∨ b.x < -20 ∨ b.x > CANVAS_WIDTH + 20 then none else some b

/-- The player-bullet `forEach` with in-scan `splice`: when the current
bullet is removed, the element that shifted into its slot is kept but
skipped (not moved nor pruned this tick), as in the source. -/
def pbLoop : ℕ → List Bullet → List Bullet → List Bullet
  | 0, done, todo => done ++ todo
  | _ + 1, done, [] => done
  | fuel + 1, done, b :: rest =>
    match pbBody b with
    | some b' => pbLoop fuel (done ++ [b']) rest
    | none => pbLoop fuel (done ++ rest.take 1) (rest.drop 1)

/-- Body of the enemy-bullet pass (App.tsx lines 533-567): move the bullet,
splice it when below the playfield, then (on the possibly already-spliced
bullet object) the collision test against the player; a hit splices at the
current index — removing the shifted-in neighbour if the bullet itself is
already gone — resolves the hit and grants 60 invulnerability frames.
Returns the kept bullet (if any), the updated not-yet-visited suffix, and
the updated state. -/
def ebBody (c : Cfg) (inp : TickInput) (b : Bullet) (rest : List Bullet)
    (s : St) : Option Bullet × List Bullet × St :=
  let b := { b with x := b.x + b.vx, y := b.y + b.vy }
  let present : Bool := if b.y > CANVAS_HEIGHT + 20 then false else true
  if s.player.invulnerable ≤ 0 ∧
      distLt (s.player.x - b.x) (s.player.y - b.y) (s.player.width / 2) then
    let rest := if present then rest else rest.tail
    let s := resolveBulletHitPlayer c inp s
    let s := { s with player := { s.player with invulnerable := 60 } }
    (none, rest, s)
  else
    (if present then some b else none, rest, s)

/-- The enemy-bullet `forEach` with in-scan `splice` (skip semantics as in
`pbLoop`); writes the surviving bullets back to `enemyBullets`. -/
def ebLoop (c : Cfg) (inp : TickInput) :
    ℕ → List Bullet → List Bullet → St → St
  | 0, done, todo, s => { s with enemyBullets := done ++ todo }
  | _ + 1, done, [], s => { s with enemyBullets := done }
  | fuel + 1, done, b :: rest, s =>
    match ebBody c inp b rest s with
    | (some b', rest', s') => ebLoop c inp fuel (done ++ [b']) rest' s'
    | (none, rest', s') => ebLoop c inp fuel (done ++ rest'.take 1) (rest'.drop 1) s'

/-- One background star step (App.tsx lines 570-573). -/
def starStep (st : Star) : Star :=
  let st := { st with y := st.y + st.speed }
  if st.y > CANVAS_HEIGHT then { st with y := -10 } else st

/-- The iteration state of one enemy `forEach` body: the current enemy
object `e` (mutations always apply to it, present in the list or not), the
`present` flag, the not-yet-visited suffix `rest` (the target of further
`splice(i, 1)` calls once `e` is gone), and the world. -/
structure EIter where
  e : Enemy
  present : Bool
  rest : List Enemy
  s : St

/-- `splice(i, 1)` on the enemies array during the iteration of the enemy at
index `i`: removes the enemy itself while present, the shifted-in head of
`rest` afterwards. -/
def spliceE (it : EIter) : EIter :=
  if it.present then { it with present := false }
  else { it with rest := it.rest.tail }

/-- Enemy movement and boss volley fire (App.tsx lines 584-599): the boss
descends to `y = 100`, oscillates horizontally and fires a five-bullet
volley every 1000 ms; other enemies move straight down at their speed. -/
def enMove (inp : TickInput) (it : EIter) : EIter :=
  if it.e.type = .BOSS then
    let e := it.e
    let e := if e.y < 100 then { e with y := e.y + 1 } else e
    let e := { e with x := e.x + orOne e.moveDir * 2 }
    let e := if e.x < 100 ∨ e.x > CANVAS_WIDTH - 100 then
        { e with moveDir := orOne e.moveDir * (-1) }
      else e
    if inp.now - e.lastShot > 1000 then
      let vols := ([-2, -1, 0, 1, 2] : List ℚ).map fun j =>
        ({ x := e.x + j * 20, y := e.y + 40, vx := j * 1, vy := 6, power := 1,
           isEnemy := true } : Bullet)
      { it with
        e := { e with lastShot := inp.now },
        s := { it.s with enemyBullets := it.s.enemyBullets ++ vols } }
    else { it with e := e }
  else
    { it with e := { it.e with y := it.e.y + it.e.speed } }

/-- Enemy aimed-down shooting (App.tsx lines 601-607):
`e.type === 'ELITE' || (level >= 3 && Math.random() < 0.01)` — because of
short-circuiting, the random draw is consumed exactly when the enemy is not
ELITE and the level is at least 3; an enemy whose condition holds fires one
bullet if its own 1500 ms cooldown has elapsed. -/
def enShoot (inp : TickInput) (level : ℤ) (it : EIter) : EIter :=
  let cit :=
    if it.e.type = .ELITE then (true, it)
    else if 3 ≤ level then
      let (r, s) := nextRand inp it.s
      (r < 1/100, { it with s := s })
    else (false, it)
  let it := cit.2
  if cit.1 = true ∧ inp.now - it.e.lastShot > 1500 then
    { it with
      e := { it.e with lastShot := inp.now },
      s := { it.s with enemyBullets := it.s.enemyBullets ++
          [{ x := it.e.x, y := it.e.y + 20, vx := 0, vy := 5, power := 1,
             isEnemy := true }] } }
  else it

/-- Direct enemy-player contact (App.tsx lines 609-629): overlap at combined
width over 2.5; shield consumption or (outside guardian mode) direct life
loss; 120 invulnerability frames in every resolved case; non-boss enemies
are spliced out on contact. -/
def enContact (c : Cfg) (inp : TickInput) (it : EIter) : EIter :=
  let p := it.s.player
  if p.invulnerable ≤ 0 ∧
      distLt (p.x - it.e.x) (p.y - it.e.y) ((p.width + it.e.width) / (5/2)) then
    let it : EIter :=
      if p.shield then
        let s := { it.s with player := { it.s.player with shield := false } }
        { it with s := createExplosion inp s.player.x s.player.y "#3b82f6" 20 .SPARK s }
      else if c.guardian = false then
        let s := loseLife it.s
        let s := { s with lostLifeThisRun := true }
        { it with s := createExplosion inp s.player.x s.player.y "#ef4444" 30 .SHOCKWAVE s }
      else it
    let it : EIter := { it with s := { it.s with player := { it.s.player with invulnerable := 120 } } }
    if it.e.type = .BOSS then it else spliceE it
  else it

/-- The coins of the boss-death coin burst (App.tsx line 646): coin `j` of
`n` consumes the two stream values at indices `i + 2*j` and `i + 2*j + 1`
for its scatter offsets (source argument evaluation order: x offset, then
y offset). -/
def coinList (inp : TickInput) (x y : ℚ) : ℕ → ℕ → List PowerUp
  | 0, _ => []
  | n + 1, i =>
    { x := x + randomRange (inp.rand i) (-50) 50,
      y := y + randomRange (inp.rand (i + 1)) (-50) 50,
      type := .COIN, width := 30, height := 30, value := 10 } ::
    coinList inp x y n (i + 2)

/-- The boss-death coin burst (App.tsx line 646): ten forced COIN power-ups
scattered around `(x, y)`, consuming `2 * count` random draws. -/
def bossCoinBurst (inp : TickInput) (x y : ℚ) (count : ℕ) (s : St) : St :=
  { s with powerUps := s.powerUps ++ coinList inp x y count s.ri,
           ri := s.ri + 2 * count }

/-- The death effects of a killed enemy (App.tsx lines 643-652): a boss
death clears `bossActive`, shows the boss explosion, scatters ten coins and
unlocks `boss_slayer`; a normal death shows the kind-coloured explosion and
drops a coin with probability 0.4 (one random draw). -/
def enKillFx (inp : TickInput) (e : Enemy) (s : St) : St :=
  if e.type = .BOSS then
    let s := { s with bossActive := false }
    let s := createExplosion inp e.x e.y "#a855f7" 50 .BOSS_EXPLOSION s
    let s := bossCoinBurst inp e.x e.y 10 s
    unlockIn s .boss_slayer
  else
    let color := if e.type = .HEAVY then "#f59e0b"
      else if e.type = .FAST then "#10b981" else "#ef4444"
    let kind : ExplosionKind := if e.type = .HEAVY then .SHOCKWAVE else .SPARK
    let s := createExplosion inp e.x e.y color 20 kind s
    let (r, s) := nextRand inp s
    if r < 2/5 then spawnPowerUpAt e.x e.y .COIN s else s

/-- The kill-count achievement checks after a kill (App.tsx lines 657-658). -/
def killCountAch (s : St) : St :=
  let s := if s.enemiesKilled = 1 then unlockIn s .first_blood else s
  if s.enemiesKilled = 50 then unlockIn s .ace_pilot else s

/-- Body of the player-bullet-versus-enemy pass (App.tsx lines 632-661) for
one bullet: on overlap the enemy object's hp is reduced and the bullet is
consumed; if the hp is now ≤ 0 the death branch runs — score and kill
counter, the death effects, `splice(i, 1)` on the enemies array (removing
the shifted-in neighbour when the enemy object was already removed earlier
this iteration), and the kill-count achievements. -/
def enBulletBody (c : Cfg) (inp : TickInput) (b : Bullet) (it : EIter) :
    Option Bullet × EIter :=
  if distLt (b.x - it.e.x) (b.y - it.e.y) (it.e.width / 2 + 5) then
    let e := { it.e with hp := it.e.hp - b.power * c.up.bulletPower }
    let it := { it with e := e }
    if e.hp ≤ 0 then
      let it : EIter := { it with s := { it.s with
        score := it.s.score + e.score,
        enemiesKilled := it.s.enemiesKilled + 1 } }
      let it : EIter := { it with s := enKillFx inp e it.s }
      let it := spliceE it
      (none, { it with s := killCountAch it.s })
    else (none, it)
  else (some b, it)

/-- The player-bullet `forEach` inside one enemy iteration, with the same
skip-on-splice semantics; writes the surviving bullets back at the end. -/
def enBulletLoop (c : Cfg) (inp : TickInput) :
    ℕ → List Bullet → List Bullet → EIter → EIter
  | 0, done, todo, it => { it with s := { it.s with bullets := done ++ todo } }
  | _ + 1, done, [], it => { it with s := { it.s with bullets := done } }
  | fuel + 1, done, b :: rest, it =>
    match enBulletBody c inp b it with
    | (some b', it') => enBulletLoop c inp fuel (done ++ [b']) rest it'
    | (none, it') => enBulletLoop c inp fuel (done ++ rest.take 1) (rest.drop 1) it'

/-- Escape check (App.tsx lines 663-675): an enemy below the playfield is
spliced out (the shifted-in neighbour when the enemy object is already
gone); in guardian mode the escape counter increments and reaching 40
transitions to `GUARDIAN_RESULT`. -/
def enEscape (c : Cfg) (it : EIter) : EIter :=
  if it.e.y > CANVAS_HEIGHT + it.e.height then
    let it := spliceE it
    if c.guardian then
      let esc := it.s.escapedEnemies + 1
      { it with s := { it.s with
        escapedEnemies := esc,
        gameState := if 40 ≤ esc then .GUARDIAN_RESULT else it.s.gameState } }
    else it
  else it

/-- One full enemy `forEach` body (App.tsx lines 583-676): movement and boss
fire, aimed shooting, player contact, the bullet pass, the escape check. -/
def enBody (c : Cfg) (inp : TickInput) (level : ℤ) (e : Enemy)
    (rest : List Enemy) (s : St) : EIter :=
  let it : EIter := { e := e, present := true, rest := rest, s := s }
  let it := enMove inp it
  let it := enShoot inp level it
  let it := enContact c inp it
  let it := enBulletLoop c inp (it.s.bullets.length + 1) [] it.s.bullets it
  enEscape c it

/-- The enemies `forEach` with in-scan `splice`: a surviving enemy is
appended to the visited prefix; when the current enemy was removed, the
element that shifted into its slot is kept but skipped.  Writes the final
list back to `enemies`. -/
def enLoop (c : Cfg) (inp : TickInput) (level : ℤ) :
    ℕ → List Enemy → List Enemy → St → St
  | 0, done, todo, s => { s with enemies := done ++ todo }
  | _ + 1, done, [], s => { s with enemies := done }
  | fuel + 1, done, e :: rest, s =>
    let it := enBody c inp level e rest s
    if it.present then enLoop c inp level fuel (done ++ [it.e]) it.rest it.s
    else enLoop c inp level fuel (done ++ it.rest.take 1) (it.rest.drop 1) it.s

/-- The iteration state of one power-up `forEach` body, analogous to
`EIter`. -/
structure PIter where
  p : PowerUp
  present : Bool
  rest : List PowerUp
  s : St

/-- `splice(i, 1)` on the power-ups array during the iteration at index
`i`. -/
def spliceP (it : PIter) : PIter :=
  if it.present then { it with present := false }
  else { it with rest := it.rest.tail }

/-- The effect of collecting one power-up (App.tsx lines 695-713): shield
flag and counter, triple-shot charge and counter, or coins credited to the
session and lifetime totals — the source reads `p.value || 10` — with the
pick-count and coin achievements checked inline. -/
def puApplyFx (p : PowerUp) (s : St) : St :=
  match p.type with
  | .SHIELD =>
    let s := { s with
      player := { s.player with shield := true },
      shieldsPicked := s.shieldsPicked + 1 }
    if s.shieldsPicked = 3 then unlockIn s .shield_master else s
  | .TRIPLE_SHOT =>
    let s := { s with
      player := { s.player with tripleShot := s.player.tripleShot + 30 },
      tripleShotsPicked := s.tripleShotsPicked + 1 }
    if s.tripleShotsPicked = 3 then unlockIn s .power_hungry else s
  | .COIN =>
    let v : ℤ := if p.value = 0 then 10 else p.value
    let s := { s with sessionCoins := s.sessionCoins + v }
    let s := { s with totalCoins := s.totalCoins + v }
    if 1000 ≤ s.totalCoins then unlockIn s .rich_man else s

/-- One bullet of the shoot-to-collect pass (App.tsx lines 689-716): on
overlap, the bullet is consumed, the power-up effect applies, and the
power-up is spliced at the current index (removing the shifted-in neighbour
if it is already gone). -/
def puBulletBody (b : Bullet) (it : PIter) : Option Bullet × PIter :=
  if distLt (b.x - it.p.x) (b.y - it.p.y) ((it.p.width + 10) / 2) then
    let it : PIter := { it with s := puApplyFx it.p it.s }
    (none, spliceP it)
  else (some b, it)

/-- The bullets `forEach` inside one power-up iteration. -/
def puBulletLoop :
    ℕ → List Bullet → List Bullet → PIter → PIter
  | 0, done, todo, it => { it with s := { it.s with bullets := done ++ todo } }
  | _ + 1, done, [], it => { it with s := { it.s with bullets := done } }
  | fuel + 1, done, b :: rest, it =>
    match puBulletBody b it with
    | (some b', it') => puBulletLoop fuel (done ++ [b']) rest it'
    | (none, it') => puBulletLoop fuel (done ++ rest.take 1) (rest.drop 1) it'

/-- One full power-up `forEach` body (App.tsx lines 685-719): descend by 2,
the shoot-to-collect bullet pass, then the off-screen prune (which removes
the shifted-in neighbour if the power-up is already gone). -/
def puBody (p : PowerUp) (rest : List PowerUp) (s : St) :
    PIter :=
  let it : PIter := { p := { p with y := p.y + 2 }, present := true, rest := rest, s := s }
  let it := puBulletLoop (it.s.bullets.length + 1) [] it.s.bullets it
  if it.p.y > CANVAS_HEIGHT + 50 then spliceP it else it

/-- The power-ups `forEach` with in-scan `splice`, skip semantics as for the
other loops; writes the final list back. -/
def puLoop : ℕ → List PowerUp → List PowerUp → St → St
  | 0, done, todo, s => { s with powerUps := done ++ todo }
  | _ + 1, done, [], s => { s with powerUps := done }
  | fuel + 1, done, p :: rest, s =>
    let it := puBody p rest s
    if it.present then puLoop fuel (done ++ [it.p]) it.rest it.s
    else puLoop fuel (done ++ it.rest.take 1) (it.rest.drop 1) it.s

/-- One particle body (App.tsx lines 722-731): drift, decay (shockwaves grow
by 2 and decay by 0.04, sparks decay by 0.02), prune at life ≤ 0. -/
def partBody (p : Particle) : Option Particle :=
  let p := { p with x := p.x + p.vx, y := p.y + p.vy }
  let p :=
    if p.type = .SHOCKWAVE then { p with size := p.size + 2, life := p.life - 4/100 }
    else { p with life := p.life - 2/100 }
  if p.life ≤ 0 then none else some p

/-- The particles `forEach` with in-scan `splice` (skip semantics). -/
def partLoop : ℕ → List Particle → List Particle → List Particle
  | 0, done, todo => done ++ todo
  | _ + 1, done, [] => done
  | fuel + 1, done, p :: rest =>
    match partBody p with
    | some p' => partLoop fuel (done ++ [p']) rest
    | none => partLoop fuel (done ++ rest.take 1) (rest.drop 1)

/-- Section 1 of the tick (App.tsx lines 501-509): apply the held keys to
the player position and clamp to the playfield. -/
def movedPlayer (inp : TickInput) (p : Player) : Player :=
  let p := if inp.keys.left then { p with x := p.x - p.speed } else p
  let p := if inp.keys.right then { p with x := p.x + p.speed } else p
  let p := if inp.keys.up then { p with y := p.y - p.speed } else p
  let p := if inp.keys.down then { p with y := p.y + p.speed } else p
  { p with
    x := max (p.width / 2) (min (CANVAS_WIDTH - p.width / 2) p.x),
    y := max (p.height / 2) (min (CANVAS_HEIGHT - p.height / 2) p.y) }

/-- Section 1 of the tick as a state transformer. -/
def movePlayerPhase (inp : TickInput) (s : St) : St :=
  { s with player := movedPlayer inp s.player }

/-- The bullets emitted by one shot (App.tsx lines 514-521): three spread
bullets while triple-shot charge is positive, one straight bullet
otherwise. -/
def shotBullets (p : Player) : List Bullet :=
  if p.tripleShot > 0 then
    [{ x := p.x, y := p.y - 20, vx := 0, vy := -12, power := 1, isEnemy := false },
     { x := p.x, y := p.y - 20, vx := -3, vy := -11, power := 1, isEnemy := false },
     { x := p.x, y := p.y - 20, vx := 3, vy := -11, power := 1, isEnemy := false }]
  else
    [{ x := p.x, y := p.y - 20, vx := 0, vy := -12, power := 1, isEnemy := false }]

/-- Section 2 of the tick (App.tsx lines 511-524): if fire is held and the
cooldown has elapsed, emit the shot, decrement the triple-shot charge unless
permanently unlocked, and stamp the cooldown. -/
def shootPhase (c : Cfg) (inp : TickInput) (s : St) : St :=
  if inp.keys.space = true ∧ inp.now - s.lastShot > c.up.fireRate then
    let s := { s with bullets := s.bullets ++ shotBullets s.player }
    let s :=
      if s.player.tripleShot > 0 ∧ c.up.tripleShotLevel < 2 then
        { s with player := { s.player with tripleShot := s.player.tripleShot - 1 } }
      else s
    { s with lastShot := inp.now }
  else s

/-- Section 5's spawn-timer step (App.tsx lines 576-581): the timer
increments every tick and fires `spawnEnemy` past `max(15, 50 - level*4)`,
then resets. -/
def enemySpawnPhase (inp : TickInput) (level : ℤ) (s : St) : St :=
  let s := { s with enemySpawnTimer := s.enemySpawnTimer + 1 }
  if s.enemySpawnTimer > max 15 (50 - level * 4) then
    let s := spawnEnemy inp level s
    { s with enemySpawnTimer := 0 }
  else s

/-- Section 6's spawn-timer step (App.tsx lines 679-683): fires every 600
ticks, unconditionally. -/
def powerUpSpawnPhase (inp : TickInput) (s : St) : St :=
  let s := { s with powerUpSpawnTimer := s.powerUpSpawnTimer + 1 }
  if s.powerUpSpawnTimer > 600 then
    let s := spawnPowerUpRandom inp s
    { s with powerUpSpawnTimer := 0 }
  else s

/-- Section 8 of the tick (App.tsx lines 734-745): the level-up check reads
the `score` and `level` captured at effect mount (the tick-start values,
passed in as `score0`/`level0`); on firing, the level increments (with the
`untouchable` check at the new level 5), the enemies and enemy bullets are
cleared, and the banner flag is set (its `setTimeout` auto-clear is outside
the tick). -/
def levelUpPhase (score0 level0 : ℤ) (s : St) : St :=
  if score0 > level0 * 2000 then
    let nextLevel := s.level + 1
    let s :=
      if nextLevel = 5 ∧ s.lostLifeThisRun = false then unlockIn s .untouchable else s
    { s with level := nextLevel, enemies := [], enemyBullets := [],
             levelUpPending := true }
  else s

/-- Section 9 of the tick (App.tsx lines 747-750): the 60-second survivor
achievement, against the second `Date.now()` read of the tick. -/
def survivorPhase (inp : TickInput) (s : St) : St :=
  if inp.now2 - s.startTime > 60000 then unlockIn s .survivor else s

/-- The closing countdowns of the tick (App.tsx lines 752-754). -/
def tickEndPhase (s : St) : St :=
  let s :=
    if s.player.invulnerable > 0 then
      { s with player := { s.player with invulnerable := s.player.invulnerable - 1 } }
    else s
  let s := if s.warningTimer > 0 then { s with warningTimer := s.warningTimer - 1 } else s
  { s with frameCount := s.frameCount + 1 }

/-- One full simulation tick: the `update` function of the animation loop
(App.tsx lines 497-755), run only while the session state is `PLAYING`.  The
phases run in source order; `score0`/`level0` are the React state values
captured by the effect closure, i.e. the tick-start values. -/
def update (c : Cfg) (inp : TickInput) (g : St) : St :=
  let score0 := g.score
  let level0 := g.level
  let s := movePlayerPhase inp g
  let s := shootPhase c inp s
  let s := { s with bullets := pbLoop (s.bullets.length + 1) [] s.bullets }
  let s := ebLoop c inp (s.enemyBullets.length + 1) [] s.enemyBullets s
  let s := { s with stars := s.stars.map starStep }
  let s := enemySpawnPhase inp level0 s
  let s := enLoop c inp level0 (s.enemies.length + 1) [] s.enemies s
  let s := powerUpSpawnPhase inp s
  let s := puLoop (s.powerUps.length + 1) [] s.powerUps s
  let s := { s with particles := partLoop (s.particles.length + 1) [] s.particles }
  let s := levelUpPhase score0 level0 s
  let s := survivorPhase inp s
  tickEndPhase s

/-- The fresh player built by `startGame` (App.tsx lines 330-339). -/
def startPlayer (c : Cfg) : Player :=
  { x := CANVAS_WIDTH / 2, y := CANVAS_HEIGHT - 80, width := 40, height := 40,
    speed := c.up.moveSpeed, invulnerable := 0, shield := false,
    tripleShot := if c.up.tripleShotLevel = 2 then 999999 else 0 }

/-- `startGame` (App.tsx lines 314-352), assuming the guardian entry fee
check has passed when `c.guardian` is set: deducts the fee and resets the
escape counter in guardian mode, sets the session state and counters, and
resets the engine's world collections.  The spawn timers, `lastShot`,
`warningTimer` and `levelUpPending` are not reset by the source. -/
def startGame (c : Cfg) (t : ℚ) (prev : St) : St :=
  { prev with
    totalCoins := if c.guardian then prev.totalCoins - 450 else prev.totalCoins,
    escapedEnemies := if c.guardian then 0 else prev.escapedEnemies,
    gameState := .PLAYING,
    score := 0,
    sessionCoins := 0,
    lives := if c.guardian then 999999 else c.up.maxLives,
    playerHits := 0,
    level := 1,
    player := startPlayer c,
    bullets := [], enemyBullets := [], enemies := [], powerUps := [],
    particles := [],
    enemiesKilled := 0, shieldsPicked := 0, tripleShotsPicked := 0,
    startTime := t, frameCount := 0,
    lostLifeThisRun := false, bossActive := false }

/-- The states of one session reachable from a session start by the loop in
App.tsx lines 998-1007: ticks run only while the state is `PLAYING`, and the
pause toggle (lines 354-360) switches between `PLAYING` and `PAUSED`.
`startGame(true)` is only reachable past the 450-coin entry check (line
316). -/
inductive Reachable (c : Cfg) : St → Prop
  | start (prev : St) (t : ℚ)
      (hfee : c.guardian = true → 450 ≤ prev.totalCoins) :
      Reachable c (startGame c t prev)
  | tick (g : St) (inp : TickInput) (hplay : g.gameState = .PLAYING) :
      Reachable c g → Reachable c (update c inp g)
  | pause (g : St) (hplay : g.gameState = .PLAYING) :
      Reachable c g → Reachable c { g with gameState := .PAUSED }
  | unpause (g : St) (hpause : g.gameState = .PAUSED) :
      Reachable c g → Reachable c { g with gameState := .PLAYING }

/-!
## Persistence model

The lifetime-coin persistence accesses (C9): `localStorage` is modelled as
an association list from keys to the stored (stringified) integers.
-/

/-- The browser `localStorage`, keyed by string; values are the stored
integers (stringification and `parseInt` round-trip the integer and are
elided). -/
def Store := List (String × ℤ)

/-- `localStorage.setItem`. -/
def Store.setItem (st : Store) (k : String) (v : ℤ) : Store :=
  (k, v) :: st.filter (fun kv => kv.1 ≠ k)

/-- `localStorage.getItem`. -/
def Store.getItem (st : Store) (k : String) : Option ℤ :=
  (st.find? (fun kv => kv.1 = k)).map (·.2)

/-- The empty storage of a fresh profile. -/
def Store.empty : Store := []

/-- The persistence `useEffect` write-back for the lifetime coins (App.tsx
lines 235-238): `localStorage.setItem('karl_coins', totalCoins.toString())`,
run on every change of `totalCoins`. -/
def persistCoins (st : Store) (totalCoins : ℤ) : Store :=
  st.setItem "karl_coins" totalCoins

/-- The `totalCoins` `useState` initialiser (App.tsx lines 163-166): on
process start it reads `localStorage.getItem('tina_coins')` and falls back
to 0. -/
def loadCoins (st : Store) : ℤ :=
  (st.getItem "tina_coins").getD 0

/-!
## Shared fixtures for the concrete scenarios
-/

/-- The default upgrades record (App.tsx lines 169-176). -/
def defaultUpgrades : Upgrades :=
  { maxLives := 3, tripleShotLevel := 0, fireRate := 200, moveSpeed := 6,
    bulletPower := 1, armorStrength := 5 }

/-- A normal-mode session with default upgrades. -/
def cfgNormal : Cfg := { up := defaultUpgrades, guardian := false }

/-- A guardian-mode session with default upgrades. -/
def cfgGuardian : Cfg := { up := defaultUpgrades, guardian := true }

/-- No key held. -/
def noKeys : Keys := ⟨false, false, false, false, false⟩

/-- A quiet tick input: no keys, clock at 0, every random draw `1/2`. -/
def steadyInput : TickInput :=
  { keys := noKeys, now := 0, now2 := 0, rand := fun _ => 1/2 }

/-- All achievements still locked. -/
def noAchievements : Achievements :=
  ⟨false, false, false, false, false, false, false, false, false⟩

/-- A quiet baseline world for the concrete scenarios: fresh player, no
entities, spawn timers far from firing. -/
def baseSt : St :=
  { player := startPlayer cfgNormal, bullets := [], enemyBullets := [],
    enemies := [], powerUps := [], particles := [], stars := [], lastShot := 0,
    enemySpawnTimer := -1000, powerUpSpawnTimer := 0, frameCount := 0,
    startTime := 0, enemiesKilled := 0, shieldsPicked := 0,
    tripleShotsPicked := 0, levelUpPending := false, warningTimer := 0,
    lostLifeThisRun := false, bossActive := false, gameState := .PLAYING,
    escapedEnemies := 0, score := 0, sessionCoins := 0, lives := 3,
    playerHits := 0, level := 1, achievements := noAchievements,
    totalCoins := 0, ri := 0 }

/-!
## C8: the normal-spawn kind selection
-/

/-- The set of uniform rolls in `[0, 1)` for which the normal-spawn type
roll of `spawnEnemy` selects kind `k` at the given level. -/
def rollsFor (level : ℤ) (k : EnemyType) : Set ℚ :=
  { r | 0 ≤ r ∧ r < 1 ∧ selectKind level r = k }

/-- The selection chain of `rollStats`, projected to the kind. -/
lemma selectKind_cases (level : ℤ) (r : ℚ) :
    selectKind level r =
      (if 3 ≤ level ∧ r > 9/10 then .ELITE
       else if r > 3/4 then .HEAVY
       else if r > 11/20 then .FAST
       else .BASIC) := by
  unfold selectKind rollStats
  split_ifs <;> rfl

/-- Roll characterization of the ELITE outcome. -/
lemma selectKind_eq_ELITE_iff (level : ℤ) (r : ℚ) :
    selectKind level r = .ELITE ↔ 3 ≤ level ∧ 9/10 < r := by
  rw [selectKind_cases]
  split_ifs with hE hH hF <;> simp_all

/-- Roll characterization of the HEAVY outcome. -/
lemma selectKind_eq_HEAVY_iff (level : ℤ) (r : ℚ) :
    selectKind level r = .HEAVY ↔ 3/4 < r ∧ ¬ (3 ≤ level ∧ 9/10 < r) := by
  rw [selectKind_cases]
  split_ifs with hE hH hF <;> simp_all

/-- Roll characterization of the FAST outcome: the ELITE guard cannot fire
below `3/4`, so the band is level-independent. -/
lemma selectKind_eq_FAST_iff (level : ℤ) (r : ℚ) :
    selectKind level r = .FAST ↔ 11/20 < r ∧ r ≤ 3/4 := by
  rw [selectKind_cases]
  split_ifs with hE hH hF
  · exact iff_of_false (by simp) (by rintro ⟨-, h⟩; linarith [hE.2])
  · exact iff_of_false (by simp) (by rintro ⟨-, h⟩; linarith)
  · exact iff_of_true rfl ⟨hF, by push_neg at hH; exact hH⟩
  · exact iff_of_false (by simp) (by rintro ⟨h, -⟩; exact hF h)

/-- Roll characterization of the BASIC outcome. -/
lemma selectKind_eq_BASIC_iff (level : ℤ) (r : ℚ) :
    selectKind level r = .BASIC ↔ r ≤ 11/20 := by
  rw [selectKind_cases]
  split_ifs with hE hH hF
  · exact iff_of_false (by simp) (by intro h; linarith [hE.2])
  · exact iff_of_false (by simp) (by intro h; linarith)
  · exact iff_of_false (by simp) (by intro h; linarith)
  · exact iff_of_true rfl (by push_neg at hF; exact hF)

/-- C8, counterexample: at level 3 (where the ELITE branch is live) the set
of rolls that select HEAVY is exactly the interval `(3/4, 9/10]`, whose
length is `3/20 = 15 %`, not the claimed 25 %: the ELITE threshold `> 0.9`
eats the top 10 % of HEAVY's `> 0.75` band, so the claimed per-kind
probabilities do not hold at every level. -/
theorem C8_counterexample :
    rollsFor 3 .HEAVY = Set.Ioc (3/4 : ℚ) (9/10) ∧
    ¬ ((9/10 : ℚ) - 3/4 = 1/4) := by
  constructor
  · ext r
    simp only [rollsFor, Set.mem_setOf_eq, Set.mem_Ioc, selectKind_eq_HEAVY_iff]
    constructor
    · rintro ⟨h0, h1, h34, hne⟩
      refine ⟨h34, ?_⟩
      by_contra hc
      push_neg at hc
      exact hne ⟨le_refl 3, hc⟩
    · rintro ⟨h34, h9⟩
      exact ⟨by linarith, by linarith, h34, by rintro ⟨-, h⟩; linarith⟩
  · norm_num

/-- C8, amended: the normal-spawn kind is selected from one uniform roll by
the order-checked thresholds `ELITE ↔ level ≥ 3 ∧ roll > 0.9`, else
`HEAVY ↔ roll > 0.75`, else `FAST ↔ roll > 0.55`, else `BASIC`; hence the
per-kind roll sets are: ELITE `(0.9, 1)` (10 %, only at level ≥ 3), HEAVY
`(0.75, 0.9]` (15 %) at level ≥ 3 and `(0.75, 1)` (25 %) below level 3,
FAST `(0.55, 0.75]` (20 %), BASIC `[0, 0.55]` (55 %). -/
theorem C8_amended (level : ℤ) :
    rollsFor level .ELITE = (if 3 ≤ level then Set.Ioo (9/10 : ℚ) 1 else ∅) ∧
    rollsFor level .HEAVY =
      (if 3 ≤ level then Set.Ioc (3/4 : ℚ) (9/10) else Set.Ioo (3/4 : ℚ) 1) ∧
    rollsFor level .FAST = Set.Ioc (11/20 : ℚ) (3/4) ∧
    rollsFor level .BASIC = Set.Icc (0 : ℚ) (11/20) := by
  refine ⟨?_, ?_, ?_, ?_⟩
  · by_cases hl : 3 ≤ level
    · rw [if_pos hl]
      ext r
      simp only [rollsFor, Set.mem_setOf_eq, selectKind_eq_ELITE_iff, Set.mem_Ioo]
      constructor
      · rintro ⟨h0, h1, -, h9⟩
        exact ⟨h9, h1⟩
      · rintro ⟨h9, h1⟩
        exact ⟨by linarith, h1, hl, h9⟩
    · rw [if_neg hl]
      ext r
      simp only [rollsFor, Set.mem_setOf_eq, selectKind_eq_ELITE_iff,
        Set.mem_empty_iff_false, iff_false]
      rintro ⟨-, -, h3, -⟩
      exact hl h3
  · by_cases hl : 3 ≤ level
    · rw [if_pos hl]
      ext r
      simp only [rollsFor, Set.mem_setOf_eq, selectKind_eq_HEAVY_iff, Set.mem_Ioc]
      constructor
      · rintro ⟨h0, h1, h34, hne⟩
        refine ⟨h34, ?_⟩
        by_contra hc
        push_neg at hc
        exact hne ⟨hl, hc⟩
      · rintro ⟨h34, h9⟩
        exact ⟨by linarith, by linarith, h34, by rintro ⟨-, h⟩; linarith⟩
    · rw [if_neg hl]
      ext r
      simp only [rollsFor, Set.mem_setOf_eq, selectKind_eq_HEAVY_iff, Set.mem_Ioo]
      constructor
      · rintro ⟨h0, h1, h34, -⟩
        exact ⟨h34, h1⟩
      · rintro ⟨h34, h1⟩
        exact ⟨by linarith, h1, h34, by rintro ⟨h3, -⟩; exact hl h3⟩
  · ext r
    simp only [rollsFor, Set.mem_setOf_eq, selectKind_eq_FAST_iff, Set.mem_Ioc]
    constructor
    · rintro ⟨h0, h1, h⟩
      exact h
    · rintro ⟨hlo, hhi⟩
      exact ⟨by linarith, by linarith, hlo, hhi⟩
  · ext r
    simp only [rollsFor, Set.mem_setOf_eq, selectKind_eq_BASIC_iff, Set.mem_Icc]
    constructor
    · rintro ⟨h0, h1, h⟩
      exact ⟨h0, h⟩
    · rintro ⟨h0, h⟩
      exact ⟨h0, by linarith, h⟩

/-!
## Generic preservation lemmas for the `forEach` loops
-/

/-- A world property preserved by the enemy-bullet body and by rewriting
`enemyBullets` is preserved by the whole enemy-bullet loop. -/
lemma ebLoop_pres (c : Cfg) (inp : TickInput) (P : St → Prop)
    (hwb : ∀ s l, P s → P { s with enemyBullets := l })
    (hb : ∀ b rest s, P s → P (ebBody c inp b rest s).2.2) :
    ∀ fuel done todo s, P s → P (ebLoop c inp fuel done todo s) := by
  intro fuel
  induction fuel with
  | zero => intro done todo s hs; exact hwb s _ hs
  | succ n ih =>
    intro done todo s hs
    cases todo with
    | nil => exact hwb s _ hs
    | cons b rest =>
      have hstep := hb b rest s hs
      rcases h : ebBody c inp b rest s with ⟨ob, rest', s'⟩
      rw [h] at hstep
      cases ob with
      | some b' => simpa only [ebLoop, h] using ih (done ++ [b']) rest' s' hstep
      | none =>
        simpa only [ebLoop, h] using ih (done ++ rest'.take 1) (rest'.drop 1) s' hstep

/-- A world property preserved by the enemy body and by rewriting `enemies`
is preserved by the whole enemy loop. -/
lemma enLoop_pres (c : Cfg) (inp : TickInput) (level : ℤ) (P : St → Prop)
    (hwb : ∀ s l, P s → P { s with enemies := l })
    (hb : ∀ e rest s, P s → P (enBody c inp level e rest s).s) :
    ∀ fuel done todo s, P s → P (enLoop c inp level fuel done todo s) := by
  intro fuel
  induction fuel with
  | zero => intro done todo s hs; exact hwb s _ hs
  | succ n ih =>
    intro done todo s hs
    cases todo with
    | nil => exact hwb s _ hs
    | cons e rest =>
      have hstep := hb e rest s hs
      simp only [enLoop]
      split
      · exact ih _ _ _ hstep
      · exact ih _ _ _ hstep

/-- A world property preserved by the power-up body and by rewriting
`powerUps` is preserved by the whole power-up loop. -/
lemma puLoop_pres (P : St → Prop)
    (hwb : ∀ s l, P s → P { s with powerUps := l })
    (hb : ∀ p rest s, P s → P (puBody p rest s).s) :
    ∀ fuel done todo s, P s → P (puLoop fuel done todo s) := by
  intro fuel
  induction fuel with
  | zero => intro done todo s hs; exact hwb s _ hs
  | succ n ih =>
    intro done todo s hs
    cases todo with
    | nil => exact hwb s _ hs
    | cons p rest =>
      have hstep := hb p rest s hs
      simp only [puLoop]
      split
      · exact ih _ _ _ hstep
      · exact ih _ _ _ hstep

/-- An iteration property preserved by the per-bullet body and by rewriting
`bullets` is preserved by the in-enemy bullet loop. -/
lemma enBulletLoop_pres (c : Cfg) (inp : TickInput) (Q : EIter → Prop)
    (hwb : ∀ it l, Q it → Q { it with s := { it.s with bullets := l } })
    (hb : ∀ b it, Q it → Q (enBulletBody c inp b it).2) :
    ∀ fuel done todo it, Q it → Q (enBulletLoop c inp fuel done todo it) := by
  intro fuel
  induction fuel with
  | zero => intro done todo it hq; exact hwb it _ hq
  | succ n ih =>
    intro done todo it hq
    cases todo with
    | nil => exact hwb it _ hq
    | cons b rest =>
      have hstep := hb b it hq
      rcases h : enBulletBody c inp b it with ⟨ob, it'⟩
      rw [h] at hstep
      cases ob with
      | some b' => simpa only [enBulletLoop, h] using ih (done ++ [b']) rest it' hstep
      | none =>
        simpa only [enBulletLoop, h] using ih (done ++ rest.take 1) (rest.drop 1) it' hstep

/-- An iteration property preserved by the per-bullet body and by rewriting
`bullets` is preserved by the in-power-up bullet loop. -/
lemma puBulletLoop_pres (Q : PIter → Prop)
    (hwb : ∀ it l, Q it → Q { it with s := { it.s with bullets := l } })
    (hb : ∀ b it, Q it → Q (puBulletBody b it).2) :
    ∀ fuel done todo it, Q it → Q (puBulletLoop fuel done todo it) := by
  intro fuel
  induction fuel with
  | zero => intro done todo it hq; exact hwb it _ hq
  | succ n ih =>
    intro done todo it hq
    cases todo with
    | nil => exact hwb it _ hq
    | cons b rest =>
      have hstep := hb b it hq
      rcases h : puBulletBody b it with ⟨ob, it'⟩
      rw [h] at hstep
      cases ob with
      | some b' => simpa only [puBulletLoop, h] using ih (done ++ [b']) rest it' hstep
      | none =>
        simpa only [puBulletLoop, h] using ih (done ++ rest.take 1) (rest.drop 1) it' hstep

/-!
## Shape lemmas: which state fields each phase can write

Each lemma exhibits the result of a phase as a structure update of its input
that touches only the listed fields; every other field is therefore
unchanged.
-/

lemma ebBody_shape (c : Cfg) (inp : TickInput) (b : Bullet) (rest : List Bullet)
    (s : St) :
    ∃ ob rest' pl h l gs llr ps k,
      ebBody c inp b rest s =
        (ob, rest',
          { s with
            player := pl, playerHits := h, lives := l, gameState := gs,
            lostLifeThisRun := llr, particles := ps, ri := k }) := by
  simp only [ebBody, resolveBulletHitPlayer, createExplosion, loseLife]
  split_ifs <;> exact ⟨_, _, _, _, _, _, _, _, _, rfl⟩

lemma enMove_shape (inp : TickInput) (it : EIter) :
    ∃ e' eb, enMove inp it = { it with e := e', s := { it.s with enemyBullets := eb } } := by
  simp only [enMove]
  split_ifs <;> exact ⟨_, _, rfl⟩

lemma enShoot_shape (inp : TickInput) (level : ℤ) (it : EIter) :
    ∃ e' eb k,
      enShoot inp level it =
        { it with
          e := e', s := { it.s with enemyBullets := eb, ri := k } } := by
  simp only [enShoot, nextRand]
  split_ifs <;> exact ⟨_, _, _, rfl⟩

lemma enContact_shape (c : Cfg) (inp : TickInput) (it : EIter) :
    ∃ pr rest' pl l gs llr ps k,
      enContact c inp it =
        { it with
          present := pr, rest := rest',
          s := { it.s with
                 player := pl, lives := l, gameState := gs,
                 lostLifeThisRun := llr, particles := ps, ri := k } } := by
  simp only [enContact, createExplosion, loseLife, spliceE]
  split_ifs <;> exact ⟨_, _, _, _, _, _, _, _, rfl⟩

lemma enEscape_shape (c : Cfg) (it : EIter) :
    ∃ pr rest' esc gs,
      enEscape c it =
        { it with
          present := pr, rest := rest',
          s := { it.s with escapedEnemies := esc, gameState := gs } } := by
  simp only [enEscape, spliceE]
  split_ifs <;> exact ⟨_, _, _, _, rfl⟩

lemma spawnEnemy_shape (inp : TickInput) (level : ℤ) (s : St) :
    ∃ en ba k,
      spawnEnemy inp level s = { s with enemies := en, bossActive := ba, ri := k } := by
  simp only [spawnEnemy, nextRand]
  split_ifs <;> exact ⟨_, _, _, rfl⟩

lemma spawnPowerUpRandom_shape (inp : TickInput) (s : St) :
    ∃ pu k, spawnPowerUpRandom inp s = { s with powerUps := pu, ri := k } := by
  simp only [spawnPowerUpRandom, spawnPowerUpAt, nextRand]
  exact ⟨_, _, rfl⟩

lemma shootPhase_shape (c : Cfg) (inp : TickInput) (s : St) :
    ∃ bl pl ls, shootPhase c inp s = { s with bullets := bl, player := pl, lastShot := ls } := by
  simp only [shootPhase]
  split_ifs <;> exact ⟨_, _, _, rfl⟩

lemma enemySpawnPhase_shape (inp : TickInput) (level : ℤ) (s : St) :
    ∃ en ba t k,
      enemySpawnPhase inp level s =
        { s with
          enemies := en, bossActive := ba, enemySpawnTimer := t, ri := k } := by
  simp only [enemySpawnPhase]
  split_ifs with h
  · obtain ⟨en, ba, k, hs⟩ := spawnEnemy_shape inp level { s with enemySpawnTimer := s.enemySpawnTimer + 1 }
    rw [hs]
    exact ⟨_, _, _, _, rfl⟩
  · exact ⟨_, _, _, _, rfl⟩

lemma powerUpSpawnPhase_shape (inp : TickInput) (s : St) :
    ∃ pu t k,
      powerUpSpawnPhase inp s =
        { s with
          powerUps := pu, powerUpSpawnTimer := t, ri := k } := by
  simp only [powerUpSpawnPhase, spawnPowerUpRandom, spawnPowerUpAt, nextRand]
  split_ifs <;> exact ⟨_, _, _, rfl⟩

lemma levelUpPhase_shape (sc lv : ℤ) (s : St) :
    ∃ l en eb ach lp,
      levelUpPhase sc lv s =
        { s with
          level := l, enemies := en, enemyBullets := eb,
          achievements := ach, levelUpPending := lp } := by
  simp only [levelUpPhase, unlockIn]
  split_ifs <;> exact ⟨_, _, _, _, _, rfl⟩

lemma survivorPhase_shape (inp : TickInput) (s : St) :
    ∃ ach, survivorPhase inp s = { s with achievements := ach } := by
  simp only [survivorPhase, unlockIn]
  split_ifs <;> exact ⟨_, rfl⟩

lemma tickEndPhase_shape (s : St) :
    ∃ pl w f, tickEndPhase s = { s with player := pl, warningTimer := w, frameCount := f } := by
  simp only [tickEndPhase]
  split_ifs <;> exact ⟨_, _, _, rfl⟩

/-!
## Per-field preservation lemmas

Each lemma records that a phase leaves one state field unchanged; together
with the generic loop lemmas they let `simp` push projections through the
tick.
-/

@[simp] lemma enMove_playerHits (inp : TickInput) (it : EIter) :
    (enMove inp it).s.playerHits = it.s.playerHits := by
  simp only [enMove]; split_ifs <;> rfl

@[simp] lemma enShoot_playerHits (inp : TickInput) (level : ℤ) (it : EIter) :
    (enShoot inp level it).s.playerHits = it.s.playerHits := by
  simp only [enShoot, nextRand]; split_ifs <;> rfl

@[simp] lemma enContact_playerHits (c : Cfg) (inp : TickInput) (it : EIter) :
    (enContact c inp it).s.playerHits = it.s.playerHits := by
  simp only [enContact, createExplosion, loseLife, spliceE]; split_ifs <;> rfl

@[simp] lemma enEscape_playerHits (c : Cfg) (it : EIter) :
    (enEscape c it).s.playerHits = it.s.playerHits := by
  simp only [enEscape, spliceE]; split_ifs <;> rfl

@[simp] lemma enMove_level (inp : TickInput) (it : EIter) :
    (enMove inp it).s.level = it.s.level := by
  simp only [enMove]; split_ifs <;> rfl

@[simp] lemma enShoot_level (inp : TickInput) (level : ℤ) (it : EIter) :
    (enShoot inp level it).s.level = it.s.level := by
  simp only [enShoot, nextRand]; split_ifs <;> rfl

@[simp] lemma enContact_level (c : Cfg) (inp : TickInput) (it : EIter) :
    (enContact c inp it).s.level = it.s.level := by
  simp only [enContact, createExplosion, loseLife, spliceE]; split_ifs <;> rfl

@[simp] lemma enEscape_level (c : Cfg) (it : EIter) :
    (enEscape c it).s.level = it.s.level := by
  simp only [enEscape, spliceE]; split_ifs <;> rfl

@[simp] lemma enKillFx_playerHits (inp : TickInput) (e : Enemy) (s : St) :
    (enKillFx inp e s).playerHits = s.playerHits := by
  simp only [enKillFx, createExplosion, bossCoinBurst, unlockIn, spawnPowerUpAt, nextRand]; split_ifs <;> rfl

@[simp] lemma enKillFx_level (inp : TickInput) (e : Enemy) (s : St) :
    (enKillFx inp e s).level = s.level := by
  simp only [enKillFx, createExplosion, bossCoinBurst, unlockIn, spawnPowerUpAt, nextRand]; split_ifs <;> rfl

@[simp] lemma enKillFx_lives (inp : TickInput) (e : Enemy) (s : St) :
    (enKillFx inp e s).lives = s.lives := by
  simp only [enKillFx, createExplosion, bossCoinBurst, unlockIn, spawnPowerUpAt, nextRand]; split_ifs <;> rfl

@[simp] lemma enKillFx_gameState (inp : TickInput) (e : Enemy) (s : St) :
    (enKillFx inp e s).gameState = s.gameState := by
  simp only [enKillFx, createExplosion, bossCoinBurst, unlockIn, spawnPowerUpAt, nextRand]; split_ifs <;> rfl

@[simp] lemma enKillFx_escapedEnemies (inp : TickInput) (e : Enemy) (s : St) :
    (enKillFx inp e s).escapedEnemies = s.escapedEnemies := by
  simp only [enKillFx, createExplosion, bossCoinBurst, unlockIn, spawnPowerUpAt, nextRand]; split_ifs <;> rfl

@[simp] lemma enKillFx_bullets (inp : TickInput) (e : Enemy) (s : St) :
    (enKillFx inp e s).bullets = s.bullets := by
  simp only [enKillFx, createExplosion, bossCoinBurst, unlockIn, spawnPowerUpAt, nextRand]; split_ifs <;> rfl

@[simp] lemma enKillFx_enemyBullets (inp : TickInput) (e : Enemy) (s : St) :
    (enKillFx inp e s).enemyBullets = s.enemyBullets := by
  simp only [enKillFx, createExplosion, bossCoinBurst, unlockIn, spawnPowerUpAt, nextRand]; split_ifs <;> rfl

@[simp] lemma enKillFx_player (inp : TickInput) (e : Enemy) (s : St) :
    (enKillFx inp e s).player = s.player := by
  simp only [enKillFx, createExplosion, bossCoinBurst, unlockIn, spawnPowerUpAt, nextRand]; split_ifs <;> rfl

@[simp] lemma enKillFx_lostLifeThisRun (inp : TickInput) (e : Enemy) (s : St) :
    (enKillFx inp e s).lostLifeThisRun = s.lostLifeThisRun := by
  simp only [enKillFx, createExplosion, bossCoinBurst, unlockIn, spawnPowerUpAt, nextRand]; split_ifs <;> rfl

@[simp] lemma killCountAch_playerHits (s : St) :
    (killCountAch s).playerHits = s.playerHits := by
  simp only [killCountAch, unlockIn]; split_ifs <;> rfl

@[simp] lemma killCountAch_level (s : St) :
    (killCountAch s).level = s.level := by
  simp only [killCountAch, unlockIn]; split_ifs <;> rfl

@[simp] lemma killCountAch_lives (s : St) :
    (killCountAch s).lives = s.lives := by
  simp only [killCountAch, unlockIn]; split_ifs <;> rfl

@[simp] lemma killCountAch_gameState (s : St) :
    (killCountAch s).gameState = s.gameState := by
  simp only [killCountAch, unlockIn]; split_ifs <;> rfl

@[simp] lemma killCountAch_escapedEnemies (s : St) :
    (killCountAch s).escapedEnemies = s.escapedEnemies := by
  simp only [killCountAch, unlockIn]; split_ifs <;> rfl

@[simp] lemma killCountAch_bullets (s : St) :
    (killCountAch s).bullets = s.bullets := by
  simp only [killCountAch, unlockIn]; split_ifs <;> rfl

@[simp] lemma killCountAch_enemyBullets (s : St) :
    (killCountAch s).enemyBullets = s.enemyBullets := by
  simp only [killCountAch, unlockIn]; split_ifs <;> rfl

@[simp] lemma killCountAch_player (s : St) :
    (killCountAch s).player = s.player := by
  simp only [killCountAch, unlockIn]; split_ifs <;> rfl

@[simp] lemma killCountAch_lostLifeThisRun (s : St) :
    (killCountAch s).lostLifeThisRun = s.lostLifeThisRun := by
  simp only [killCountAch, unlockIn]; split_ifs <;> rfl

@[simp] lemma killCountAch_bossActive (s : St) :
    (killCountAch s).bossActive = s.bossActive := by
  simp only [killCountAch, unlockIn]; split_ifs <;> rfl

@[simp] lemma enBulletBody_playerHits (c : Cfg) (inp : TickInput) (b : Bullet) (it : EIter) :
    (enBulletBody c inp b it).2.s.playerHits = it.s.playerHits := by
  simp only [enBulletBody, spliceE]; split_ifs <;> simp

@[simp] lemma enBulletBody_level (c : Cfg) (inp : TickInput) (b : Bullet) (it : EIter) :
    (enBulletBody c inp b it).2.s.level = it.s.level := by
  simp only [enBulletBody, spliceE]; split_ifs <;> simp

@[simp] lemma enBulletBody_lives (c : Cfg) (inp : TickInput) (b : Bullet) (it : EIter) :
    (enBulletBody c inp b it).2.s.lives = it.s.lives := by
  simp only [enBulletBody, spliceE]; split_ifs <;> simp

@[simp] lemma enBulletBody_gameState (c : Cfg) (inp : TickInput) (b : Bullet) (it : EIter) :
    (enBulletBody c inp b it).2.s.gameState = it.s.gameState := by
  simp only [enBulletBody, spliceE]; split_ifs <;> simp

@[simp] lemma enBulletBody_escapedEnemies (c : Cfg) (inp : TickInput) (b : Bullet) (it : EIter) :
    (enBulletBody c inp b it).2.s.escapedEnemies = it.s.escapedEnemies := by
  simp only [enBulletBody, spliceE]; split_ifs <;> simp

@[simp] lemma enBulletBody_bullets (c : Cfg) (inp : TickInput) (b : Bullet) (it : EIter) :
    (enBulletBody c inp b it).2.s.bullets = it.s.bullets := by
  simp only [enBulletBody, spliceE]; split_ifs <;> simp

@[simp] lemma enBulletBody_enemyBullets (c : Cfg) (inp : TickInput) (b : Bullet) (it : EIter) :
    (enBulletBody c inp b it).2.s.enemyBullets = it.s.enemyBullets := by
  simp only [enBulletBody, spliceE]; split_ifs <;> simp

@[simp] lemma enBulletBody_player (c : Cfg) (inp : TickInput) (b : Bullet) (it : EIter) :
    (enBulletBody c inp b it).2.s.player = it.s.player := by
  simp only [enBulletBody, spliceE]; split_ifs <;> simp

@[simp] lemma enBulletBody_lostLifeThisRun (c : Cfg) (inp : TickInput) (b : Bullet) (it : EIter) :
    (enBulletBody c inp b it).2.s.lostLifeThisRun = it.s.lostLifeThisRun := by
  simp only [enBulletBody, spliceE]; split_ifs <;> simp

@[simp] lemma ebBody_level (c : Cfg) (inp : TickInput) (b : Bullet) (rest : List Bullet) (s : St) :
    (ebBody c inp b rest s).2.2.level = s.level := by
  simp only [ebBody, resolveBulletHitPlayer, createExplosion, loseLife]; split_ifs <;> rfl

@[simp] lemma ebBody_enemies (c : Cfg) (inp : TickInput) (b : Bullet) (rest : List Bullet) (s : St) :
    (ebBody c inp b rest s).2.2.enemies = s.enemies := by
  simp only [ebBody, resolveBulletHitPlayer, createExplosion, loseLife]; split_ifs <;> rfl

@[simp] lemma ebBody_bullets (c : Cfg) (inp : TickInput) (b : Bullet) (rest : List Bullet) (s : St) :
    (ebBody c inp b rest s).2.2.bullets = s.bullets := by
  simp only [ebBody, resolveBulletHitPlayer, createExplosion, loseLife]; split_ifs <;> rfl

@[simp] lemma ebBody_bossActive (c : Cfg) (inp : TickInput) (b : Bullet) (rest : List Bullet) (s : St) :
    (ebBody c inp b rest s).2.2.bossActive = s.bossActive := by
  simp only [ebBody, resolveBulletHitPlayer, createExplosion, loseLife]; split_ifs <;> rfl

@[simp] lemma ebBody_achievements (c : Cfg) (inp : TickInput) (b : Bullet) (rest : List Bullet) (s : St) :
    (ebBody c inp b rest s).2.2.achievements = s.achievements := by
  simp only [ebBody, resolveBulletHitPlayer, createExplosion, loseLife]; split_ifs <;> rfl

@[simp] lemma ebBody_escapedEnemies (c : Cfg) (inp : TickInput) (b : Bullet) (rest : List Bullet) (s : St) :
    (ebBody c inp b rest s).2.2.escapedEnemies = s.escapedEnemies := by
  simp only [ebBody, resolveBulletHitPlayer, createExplosion, loseLife]; split_ifs <;> rfl

@[simp] lemma puApplyFx_enemies (p : PowerUp) (s : St) :
    (puApplyFx p s).enemies = s.enemies := by
  rcases p with ⟨px, py, pty, pw, ph, pv⟩; rcases pty <;> simp only [puApplyFx, unlockIn] <;> split_ifs <;> rfl

@[simp] lemma puApplyFx_enemyBullets (p : PowerUp) (s : St) :
    (puApplyFx p s).enemyBullets = s.enemyBullets := by
  rcases p with ⟨px, py, pty, pw, ph, pv⟩; rcases pty <;> simp only [puApplyFx, unlockIn] <;> split_ifs <;> rfl

@[simp] lemma puApplyFx_bullets (p : PowerUp) (s : St) :
    (puApplyFx p s).bullets = s.bullets := by
  rcases p with ⟨px, py, pty, pw, ph, pv⟩; rcases pty <;> simp only [puApplyFx, unlockIn] <;> split_ifs <;> rfl

@[simp] lemma puApplyFx_lives (p : PowerUp) (s : St) :
    (puApplyFx p s).lives = s.lives := by
  rcases p with ⟨px, py, pty, pw, ph, pv⟩; rcases pty <;> simp only [puApplyFx, unlockIn] <;> split_ifs <;> rfl

@[simp] lemma puApplyFx_playerHits (p : PowerUp) (s : St) :
    (puApplyFx p s).playerHits = s.playerHits := by
  rcases p with ⟨px, py, pty, pw, ph, pv⟩; rcases pty <;> simp only [puApplyFx, unlockIn] <;> split_ifs <;> rfl

@[simp] lemma puApplyFx_gameState (p : PowerUp) (s : St) :
    (puApplyFx p s).gameState = s.gameState := by
  rcases p with ⟨px, py, pty, pw, ph, pv⟩; rcases pty <;> simp only [puApplyFx, unlockIn] <;> split_ifs <;> rfl

@[simp] lemma puApplyFx_level (p : PowerUp) (s : St) :
    (puApplyFx p s).level = s.level := by
  rcases p with ⟨px, py, pty, pw, ph, pv⟩; rcases pty <;> simp only [puApplyFx, unlockIn] <;> split_ifs <;> rfl

@[simp] lemma puApplyFx_escapedEnemies (p : PowerUp) (s : St) :
    (puApplyFx p s).escapedEnemies = s.escapedEnemies := by
  rcases p with ⟨px, py, pty, pw, ph, pv⟩; rcases pty <;> simp only [puApplyFx, unlockIn] <;> split_ifs <;> rfl

@[simp] lemma puApplyFx_bossActive (p : PowerUp) (s : St) :
    (puApplyFx p s).bossActive = s.bossActive := by
  rcases p with ⟨px, py, pty, pw, ph, pv⟩; rcases pty <;> simp only [puApplyFx, unlockIn] <;> split_ifs <;> rfl

@[simp] lemma puApplyFx_lostLifeThisRun (p : PowerUp) (s : St) :
    (puApplyFx p s).lostLifeThisRun = s.lostLifeThisRun := by
  rcases p with ⟨px, py, pty, pw, ph, pv⟩; rcases pty <;> simp only [puApplyFx, unlockIn] <;> split_ifs <;> rfl

@[simp] lemma puApplyFx_player_invulnerable (p : PowerUp) (s : St) :
    (puApplyFx p s).player.invulnerable = s.player.invulnerable := by
  rcases p with ⟨px, py, pty, pw, ph, pv⟩; rcases pty <;> simp only [puApplyFx, unlockIn] <;> split_ifs <;> rfl

@[simp] lemma puBulletBody_enemies (b : Bullet) (it : PIter) :
    (puBulletBody b it).2.s.enemies = it.s.enemies := by
  simp only [puBulletBody, spliceP]; split_ifs <;> simp

@[simp] lemma puBulletBody_enemyBullets (b : Bullet) (it : PIter) :
    (puBulletBody b it).2.s.enemyBullets = it.s.enemyBullets := by
  simp only [puBulletBody, spliceP]; split_ifs <;> simp

@[simp] lemma puBulletBody_bullets (b : Bullet) (it : PIter) :
    (puBulletBody b it).2.s.bullets = it.s.bullets := by
  simp only [puBulletBody, spliceP]; split_ifs <;> simp

@[simp] lemma puBulletBody_lives (b : Bullet) (it : PIter) :
    (puBulletBody b it).2.s.lives = it.s.lives := by
  simp only [puBulletBody, spliceP]; split_ifs <;> simp

@[simp] lemma puBulletBody_playerHits (b : Bullet) (it : PIter) :
    (puBulletBody b it).2.s.playerHits = it.s.playerHits := by
  simp only [puBulletBody, spliceP]; split_ifs <;> simp

@[simp] lemma puBulletBody_gameState (b : Bullet) (it : PIter) :
    (puBulletBody b it).2.s.gameState = it.s.gameState := by
  simp only [puBulletBody, spliceP]; split_ifs <;> simp

@[simp] lemma puBulletBody_level (b : Bullet) (it : PIter) :
    (puBulletBody b it).2.s.level = it.s.level := by
  simp only [puBulletBody, spliceP]; split_ifs <;> simp

@[simp] lemma puBulletBody_escapedEnemies (b : Bullet) (it : PIter) :
    (puBulletBody b it).2.s.escapedEnemies = it.s.escapedEnemies := by
  simp only [puBulletBody, spliceP]; split_ifs <;> simp

@[simp] lemma puBulletBody_bossActive (b : Bullet) (it : PIter) :
    (puBulletBody b it).2.s.bossActive = it.s.bossActive := by
  simp only [puBulletBody, spliceP]; split_ifs <;> simp

@[simp] lemma puBulletBody_lostLifeThisRun (b : Bullet) (it : PIter) :
    (puBulletBody b it).2.s.lostLifeThisRun = it.s.lostLifeThisRun := by
  simp only [puBulletBody, spliceP]; split_ifs <;> simp

@[simp] lemma puBulletBody_player_invulnerable (b : Bullet) (it : PIter) :
    (puBulletBody b it).2.s.player.invulnerable = it.s.player.invulnerable := by
  simp only [puBulletBody, spliceP]; split_ifs <;> simp

@[simp] lemma movePlayerPhase_enemies (inp : TickInput) (s : St) :
    (movePlayerPhase inp s).enemies = s.enemies := by
  simp only [movePlayerPhase]

@[simp] lemma movePlayerPhase_enemyBullets (inp : TickInput) (s : St) :
    (movePlayerPhase inp s).enemyBullets = s.enemyBullets := by
  simp only [movePlayerPhase]

@[simp] lemma movePlayerPhase_bullets (inp : TickInput) (s : St) :
    (movePlayerPhase inp s).bullets = s.bullets := by
  simp only [movePlayerPhase]

@[simp] lemma movePlayerPhase_level (inp : TickInput) (s : St) :
    (movePlayerPhase inp s).level = s.level := by
  simp only [movePlayerPhase]

@[simp] lemma movePlayerPhase_lives (inp : TickInput) (s : St) :
    (movePlayerPhase inp s).lives = s.lives := by
  simp only [movePlayerPhase]

@[simp] lemma movePlayerPhase_playerHits (inp : TickInput) (s : St) :
    (movePlayerPhase inp s).playerHits = s.playerHits := by
  simp only [movePlayerPhase]

@[simp] lemma movePlayerPhase_gameState (inp : TickInput) (s : St) :
    (movePlayerPhase inp s).gameState = s.gameState := by
  simp only [movePlayerPhase]

@[simp] lemma movePlayerPhase_escapedEnemies (inp : TickInput) (s : St) :
    (movePlayerPhase inp s).escapedEnemies = s.escapedEnemies := by
  simp only [movePlayerPhase]

@[simp] lemma movePlayerPhase_bossActive (inp : TickInput) (s : St) :
    (movePlayerPhase inp s).bossActive = s.bossActive := by
  simp only [movePlayerPhase]

@[simp] lemma movePlayerPhase_achievements (inp : TickInput) (s : St) :
    (movePlayerPhase inp s).achievements = s.achievements := by
  simp only [movePlayerPhase]

@[simp] lemma movePlayerPhase_score (inp : TickInput) (s : St) :
    (movePlayerPhase inp s).score = s.score := by
  simp only [movePlayerPhase]

@[simp] lemma movePlayerPhase_enemiesKilled (inp : TickInput) (s : St) :
    (movePlayerPhase inp s).enemiesKilled = s.enemiesKilled := by
  simp only [movePlayerPhase]

@[simp] lemma movePlayerPhase_player_invulnerable (inp : TickInput) (s : St) :
    (movePlayerPhase inp s).player.invulnerable = s.player.invulnerable := by
  simp only [movePlayerPhase, movedPlayer]
  split_ifs <;> rfl

@[simp] lemma shootPhase_enemies (c : Cfg) (inp : TickInput) (s : St) :
    (shootPhase c inp s).enemies = s.enemies := by
  simp only [shootPhase, shotBullets]; split_ifs <;> rfl

@[simp] lemma shootPhase_enemyBullets (c : Cfg) (inp : TickInput) (s : St) :
    (shootPhase c inp s).enemyBullets = s.enemyBullets := by
  simp only [shootPhase, shotBullets]; split_ifs <;> rfl

@[simp] lemma shootPhase_level (c : Cfg) (inp : TickInput) (s : St) :
    (shootPhase c inp s).level = s.level := by
  simp only [shootPhase, shotBullets]; split_ifs <;> rfl

@[simp] lemma shootPhase_lives (c : Cfg) (inp : TickInput) (s : St) :
    (shootPhase c inp s).lives = s.lives := by
  simp only [shootPhase, shotBullets]; split_ifs <;> rfl

@[simp] lemma shootPhase_playerHits (c : Cfg) (inp : TickInput) (s : St) :
    (shootPhase c inp s).playerHits = s.playerHits := by
  simp only [shootPhase, shotBullets]; split_ifs <;> rfl

@[simp] lemma shootPhase_gameState (c : Cfg) (inp : TickInput) (s : St) :
    (shootPhase c inp s).gameState = s.gameState := by
  simp only [shootPhase, shotBullets]; split_ifs <;> rfl

@[simp] lemma shootPhase_escapedEnemies (c : Cfg) (inp : TickInput) (s : St) :
    (shootPhase c inp s).escapedEnemies = s.escapedEnemies := by
  simp only [shootPhase, shotBullets]; split_ifs <;> rfl

@[simp] lemma shootPhase_bossActive (c : Cfg) (inp : TickInput) (s : St) :
    (shootPhase c inp s).bossActive = s.bossActive := by
  simp only [shootPhase, shotBullets]; split_ifs <;> rfl

@[simp] lemma shootPhase_achievements (c : Cfg) (inp : TickInput) (s : St) :
    (shootPhase c inp s).achievements = s.achievements := by
  simp only [shootPhase, shotBullets]; split_ifs <;> rfl

@[simp] lemma shootPhase_score (c : Cfg) (inp : TickInput) (s : St) :
    (shootPhase c inp s).score = s.score := by
  simp only [shootPhase, shotBullets]; split_ifs <;> rfl

@[simp] lemma shootPhase_enemiesKilled (c : Cfg) (inp : TickInput) (s : St) :
    (shootPhase c inp s).enemiesKilled = s.enemiesKilled := by
  simp only [shootPhase, shotBullets]; split_ifs <;> rfl

@[simp] lemma shootPhase_player_invulnerable (c : Cfg) (inp : TickInput) (s : St) :
    (shootPhase c inp s).player.invulnerable = s.player.invulnerable := by
  simp only [shootPhase, shotBullets]; split_ifs <;> rfl

@[simp] lemma enemySpawnPhase_enemyBullets (inp : TickInput) (level : ℤ) (s : St) :
    (enemySpawnPhase inp level s).enemyBullets = s.enemyBullets := by
  simp only [enemySpawnPhase, spawnEnemy, nextRand]; split_ifs <;> rfl

@[simp] lemma enemySpawnPhase_bullets (inp : TickInput) (level : ℤ) (s : St) :
    (enemySpawnPhase inp level s).bullets = s.bullets := by
  simp only [enemySpawnPhase, spawnEnemy, nextRand]; split_ifs <;> rfl

@[simp] lemma enemySpawnPhase_player (inp : TickInput) (level : ℤ) (s : St) :
    (enemySpawnPhase inp level s).player = s.player := by
  simp only [enemySpawnPhase, spawnEnemy, nextRand]; split_ifs <;> rfl

@[simp] lemma enemySpawnPhase_level (inp : TickInput) (level : ℤ) (s : St) :
    (enemySpawnPhase inp level s).level = s.level := by
  simp only [enemySpawnPhase, spawnEnemy, nextRand]; split_ifs <;> rfl

@[simp] lemma enemySpawnPhase_lives (inp : TickInput) (level : ℤ) (s : St) :
    (enemySpawnPhase inp level s).lives = s.lives := by
  simp only [enemySpawnPhase, spawnEnemy, nextRand]; split_ifs <;> rfl

@[simp] lemma enemySpawnPhase_playerHits (inp : TickInput) (level : ℤ) (s : St) :
    (enemySpawnPhase inp level s).playerHits = s.playerHits := by
  simp only [enemySpawnPhase, spawnEnemy, nextRand]; split_ifs <;> rfl

@[simp] lemma enemySpawnPhase_gameState (inp : TickInput) (level : ℤ) (s : St) :
    (enemySpawnPhase inp level s).gameState = s.gameState := by
  simp only [enemySpawnPhase, spawnEnemy, nextRand]; split_ifs <;> rfl

@[simp] lemma enemySpawnPhase_escapedEnemies (inp : TickInput) (level : ℤ) (s : St) :
    (enemySpawnPhase inp level s).escapedEnemies = s.escapedEnemies := by
  simp only [enemySpawnPhase, spawnEnemy, nextRand]; split_ifs <;> rfl

@[simp] lemma enemySpawnPhase_achievements (inp : TickInput) (level : ℤ) (s : St) :
    (enemySpawnPhase inp level s).achievements = s.achievements := by
  simp only [enemySpawnPhase, spawnEnemy, nextRand]; split_ifs <;> rfl

@[simp] lemma enemySpawnPhase_score (inp : TickInput) (level : ℤ) (s : St) :
    (enemySpawnPhase inp level s).score = s.score := by
  simp only [enemySpawnPhase, spawnEnemy, nextRand]; split_ifs <;> rfl

@[simp] lemma enemySpawnPhase_enemiesKilled (inp : TickInput) (level : ℤ) (s : St) :
    (enemySpawnPhase inp level s).enemiesKilled = s.enemiesKilled := by
  simp only [enemySpawnPhase, spawnEnemy, nextRand]; split_ifs <;> rfl

@[simp] lemma powerUpSpawnPhase_enemies (inp : TickInput) (s : St) :
    (powerUpSpawnPhase inp s).enemies = s.enemies := by
  simp only [powerUpSpawnPhase, spawnPowerUpRandom, spawnPowerUpAt, nextRand]; split_ifs <;> rfl

@[simp] lemma powerUpSpawnPhase_enemyBullets (inp : TickInput) (s : St) :
    (powerUpSpawnPhase inp s).enemyBullets = s.enemyBullets := by
  simp only [powerUpSpawnPhase, spawnPowerUpRandom, spawnPowerUpAt, nextRand]; split_ifs <;> rfl

@[simp] lemma powerUpSpawnPhase_bullets (inp : TickInput) (s : St) :
    (powerUpSpawnPhase inp s).bullets = s.bullets := by
  simp only [powerUpSpawnPhase, spawnPowerUpRandom, spawnPowerUpAt, nextRand]; split_ifs <;> rfl

@[simp] lemma powerUpSpawnPhase_player (inp : TickInput) (s : St) :
    (powerUpSpawnPhase inp s).player = s.player := by
  simp only [powerUpSpawnPhase, spawnPowerUpRandom, spawnPowerUpAt, nextRand]; split_ifs <;> rfl

@[simp] lemma powerUpSpawnPhase_level (inp : TickInput) (s : St) :
    (powerUpSpawnPhase inp s).level = s.level := by
  simp only [powerUpSpawnPhase, spawnPowerUpRandom, spawnPowerUpAt, nextRand]; split_ifs <;> rfl

@[simp] lemma powerUpSpawnPhase_lives (inp : TickInput) (s : St) :
    (powerUpSpawnPhase inp s).lives = s.lives := by
  simp only [powerUpSpawnPhase, spawnPowerUpRandom, spawnPowerUpAt, nextRand]; split_ifs <;> rfl

@[simp] lemma powerUpSpawnPhase_playerHits (inp : TickInput) (s : St) :
    (powerUpSpawnPhase inp s).playerHits = s.playerHits := by
  simp only [powerUpSpawnPhase, spawnPowerUpRandom, spawnPowerUpAt, nextRand]; split_ifs <;> rfl

@[simp] lemma powerUpSpawnPhase_gameState (inp : TickInput) (s : St) :
    (powerUpSpawnPhase inp s).gameState = s.gameState := by
  simp only [powerUpSpawnPhase, spawnPowerUpRandom, spawnPowerUpAt, nextRand]; split_ifs <;> rfl

@[simp] lemma powerUpSpawnPhase_escapedEnemies (inp : TickInput) (s : St) :
    (powerUpSpawnPhase inp s).escapedEnemies = s.escapedEnemies := by
  simp only [powerUpSpawnPhase, spawnPowerUpRandom, spawnPowerUpAt, nextRand]; split_ifs <;> rfl

@[simp] lemma powerUpSpawnPhase_bossActive (inp : TickInput) (s : St) :
    (powerUpSpawnPhase inp s).bossActive = s.bossActive := by
  simp only [powerUpSpawnPhase, spawnPowerUpRandom, spawnPowerUpAt, nextRand]; split_ifs <;> rfl

@[simp] lemma powerUpSpawnPhase_achievements (inp : TickInput) (s : St) :
    (powerUpSpawnPhase inp s).achievements = s.achievements := by
  simp only [powerUpSpawnPhase, spawnPowerUpRandom, spawnPowerUpAt, nextRand]; split_ifs <;> rfl

@[simp] lemma powerUpSpawnPhase_score (inp : TickInput) (s : St) :
    (powerUpSpawnPhase inp s).score = s.score := by
  simp only [powerUpSpawnPhase, spawnPowerUpRandom, spawnPowerUpAt, nextRand]; split_ifs <;> rfl

@[simp] lemma powerUpSpawnPhase_enemiesKilled (inp : TickInput) (s : St) :
    (powerUpSpawnPhase inp s).enemiesKilled = s.enemiesKilled := by
  simp only [powerUpSpawnPhase, spawnPowerUpRandom, spawnPowerUpAt, nextRand]; split_ifs <;> rfl

@[simp] lemma survivorPhase_enemies (inp : TickInput) (s : St) :
    (survivorPhase inp s).enemies = s.enemies := by
  simp only [survivorPhase, unlockIn]; split_ifs <;> rfl

@[simp] lemma survivorPhase_enemyBullets (inp : TickInput) (s : St) :
    (survivorPhase inp s).enemyBullets = s.enemyBullets := by
  simp only [survivorPhase, unlockIn]; split_ifs <;> rfl

@[simp] lemma survivorPhase_bullets (inp : TickInput) (s : St) :
    (survivorPhase inp s).bullets = s.bullets := by
  simp only [survivorPhase, unlockIn]; split_ifs <;> rfl

@[simp] lemma survivorPhase_player (inp : TickInput) (s : St) :
    (survivorPhase inp s).player = s.player := by
  simp only [survivorPhase, unlockIn]; split_ifs <;> rfl

@[simp] lemma survivorPhase_level (inp : TickInput) (s : St) :
    (survivorPhase inp s).level = s.level := by
  simp only [survivorPhase, unlockIn]; split_ifs <;> rfl

@[simp] lemma survivorPhase_lives (inp : TickInput) (s : St) :
    (survivorPhase inp s).lives = s.lives := by
  simp only [survivorPhase, unlockIn]; split_ifs <;> rfl

@[simp] lemma survivorPhase_playerHits (inp : TickInput) (s : St) :
    (survivorPhase inp s).playerHits = s.playerHits := by
  simp only [survivorPhase, unlockIn]; split_ifs <;> rfl

@[simp] lemma survivorPhase_gameState (inp : TickInput) (s : St) :
    (survivorPhase inp s).gameState = s.gameState := by
  simp only [survivorPhase, unlockIn]; split_ifs <;> rfl

@[simp] lemma survivorPhase_escapedEnemies (inp : TickInput) (s : St) :
    (survivorPhase inp s).escapedEnemies = s.escapedEnemies := by
  simp only [survivorPhase, unlockIn]; split_ifs <;> rfl

@[simp] lemma survivorPhase_bossActive (inp : TickInput) (s : St) :
    (survivorPhase inp s).bossActive = s.bossActive := by
  simp only [survivorPhase, unlockIn]; split_ifs <;> rfl

@[simp] lemma survivorPhase_score (inp : TickInput) (s : St) :
    (survivorPhase inp s).score = s.score := by
  simp only [survivorPhase, unlockIn]; split_ifs <;> rfl

@[simp] lemma survivorPhase_enemiesKilled (inp : TickInput) (s : St) :
    (survivorPhase inp s).enemiesKilled = s.enemiesKilled := by
  simp only [survivorPhase, unlockIn]; split_ifs <;> rfl

@[simp] lemma tickEndPhase_enemies (s : St) :
    (tickEndPhase s).enemies = s.enemies := by
  simp only [tickEndPhase]; split_ifs <;> rfl

@[simp] lemma tickEndPhase_enemyBullets (s : St) :
    (tickEndPhase s).enemyBullets = s.enemyBullets := by
  simp only [tickEndPhase]; split_ifs <;> rfl

@[simp] lemma tickEndPhase_bullets (s : St) :
    (tickEndPhase s).bullets = s.bullets := by
  simp only [tickEndPhase]; split_ifs <;> rfl

@[simp] lemma tickEndPhase_level (s : St) :
    (tickEndPhase s).level = s.level := by
  simp only [tickEndPhase]; split_ifs <;> rfl

@[simp] lemma tickEndPhase_lives (s : St) :
    (tickEndPhase s).lives = s.lives := by
  simp only [tickEndPhase]; split_ifs <;> rfl

@[simp] lemma tickEndPhase_playerHits (s : St) :
    (tickEndPhase s).playerHits = s.playerHits := by
  simp only [tickEndPhase]; split_ifs <;> rfl

@[simp] lemma tickEndPhase_gameState (s : St) :
    (tickEndPhase s).gameState = s.gameState := by
  simp only [tickEndPhase]; split_ifs <;> rfl

@[simp] lemma tickEndPhase_escapedEnemies (s : St) :
    (tickEndPhase s).escapedEnemies = s.escapedEnemies := by
  simp only [tickEndPhase]; split_ifs <;> rfl

@[simp] lemma tickEndPhase_bossActive (s : St) :
    (tickEndPhase s).bossActive = s.bossActive := by
  simp only [tickEndPhase]; split_ifs <;> rfl

@[simp] lemma tickEndPhase_achievements (s : St) :
    (tickEndPhase s).achievements = s.achievements := by
  simp only [tickEndPhase]; split_ifs <;> rfl

@[simp] lemma tickEndPhase_score (s : St) :
    (tickEndPhase s).score = s.score := by
  simp only [tickEndPhase]; split_ifs <;> rfl

@[simp] lemma tickEndPhase_enemiesKilled (s : St) :
    (tickEndPhase s).enemiesKilled = s.enemiesKilled := by
  simp only [tickEndPhase]; split_ifs <;> rfl

@[simp] lemma levelUpPhase_bullets (sc lv : ℤ) (s : St) :
    (levelUpPhase sc lv s).bullets = s.bullets := by
  simp only [levelUpPhase, unlockIn]; split_ifs <;> rfl

@[simp] lemma levelUpPhase_player (sc lv : ℤ) (s : St) :
    (levelUpPhase sc lv s).player = s.player := by
  simp only [levelUpPhase, unlockIn]; split_ifs <;> rfl

@[simp] lemma levelUpPhase_lives (sc lv : ℤ) (s : St) :
    (levelUpPhase sc lv s).lives = s.lives := by
  simp only [levelUpPhase, unlockIn]; split_ifs <;> rfl

@[simp] lemma levelUpPhase_playerHits (sc lv : ℤ) (s : St) :
    (levelUpPhase sc lv s).playerHits = s.playerHits := by
  simp only [levelUpPhase, unlockIn]; split_ifs <;> rfl

@[simp] lemma levelUpPhase_gameState (sc lv : ℤ) (s : St) :
    (levelUpPhase sc lv s).gameState = s.gameState := by
  simp only [levelUpPhase, unlockIn]; split_ifs <;> rfl

@[simp] lemma levelUpPhase_escapedEnemies (sc lv : ℤ) (s : St) :
    (levelUpPhase sc lv s).escapedEnemies = s.escapedEnemies := by
  simp only [levelUpPhase, unlockIn]; split_ifs <;> rfl

@[simp] lemma levelUpPhase_bossActive (sc lv : ℤ) (s : St) :
    (levelUpPhase sc lv s).bossActive = s.bossActive := by
  simp only [levelUpPhase, unlockIn]; split_ifs <;> rfl

@[simp] lemma levelUpPhase_score (sc lv : ℤ) (s : St) :
    (levelUpPhase sc lv s).score = s.score := by
  simp only [levelUpPhase, unlockIn]; split_ifs <;> rfl

@[simp] lemma levelUpPhase_enemiesKilled (sc lv : ℤ) (s : St) :
    (levelUpPhase sc lv s).enemiesKilled = s.enemiesKilled := by
  simp only [levelUpPhase, unlockIn]; split_ifs <;> rfl

@[simp] lemma levelUpPhase_level (sc lv : ℤ) (s : St) :
    (levelUpPhase sc lv s).level = if sc > lv * 2000 then s.level + 1 else s.level := by
  simp only [levelUpPhase, unlockIn]; split_ifs <;> rfl

@[simp] lemma levelUpPhase_enemies (sc lv : ℤ) (s : St) :
    (levelUpPhase sc lv s).enemies = if sc > lv * 2000 then [] else s.enemies := by
  simp only [levelUpPhase, unlockIn]; split_ifs <;> rfl

@[simp] lemma levelUpPhase_enemyBullets (sc lv : ℤ) (s : St) :
    (levelUpPhase sc lv s).enemyBullets = if sc > lv * 2000 then [] else s.enemyBullets := by
  simp only [levelUpPhase, unlockIn]; split_ifs <;> rfl

@[simp] lemma enBulletLoop_playerHits (c : Cfg) (inp : TickInput)
    (fuel : ℕ) (done todo : List Bullet) (it : EIter) :
    (enBulletLoop c inp fuel done todo it).s.playerHits = it.s.playerHits :=
  enBulletLoop_pres c inp (fun t => t.s.playerHits = it.s.playerHits)
    (fun _ _ h => h) (fun b it' h => (enBulletBody_playerHits c inp b it').trans h)
    fuel done todo it rfl

@[simp] lemma enBody_playerHits (c : Cfg) (inp : TickInput) (level : ℤ)
    (e : Enemy) (rest : List Enemy) (s : St) :
    (enBody c inp level e rest s).s.playerHits = s.playerHits := by
  simp only [enBody]
  simp

@[simp] lemma enLoop_playerHits (c : Cfg) (inp : TickInput) (level : ℤ)
    (fuel : ℕ) (done todo : List Enemy) (s : St) :
    (enLoop c inp level fuel done todo s).playerHits = s.playerHits :=
  enLoop_pres c inp level (fun t => t.playerHits = s.playerHits)
    (fun _ _ h => h) (fun e rest s' h => (enBody_playerHits c inp level e rest s').trans h)
    fuel done todo s rfl

@[simp] lemma enBulletLoop_level (c : Cfg) (inp : TickInput)
    (fuel : ℕ) (done todo : List Bullet) (it : EIter) :
    (enBulletLoop c inp fuel done todo it).s.level = it.s.level :=
  enBulletLoop_pres c inp (fun t => t.s.level = it.s.level)
    (fun _ _ h => h) (fun b it' h => (enBulletBody_level c inp b it').trans h)
    fuel done todo it rfl

@[simp] lemma enBody_level (c : Cfg) (inp : TickInput) (level : ℤ)
    (e : Enemy) (rest : List Enemy) (s : St) :
    (enBody c inp level e rest s).s.level = s.level := by
  simp only [enBody]
  simp

@[simp] lemma enLoop_level (c : Cfg) (inp : TickInput) (level : ℤ)
    (fuel : ℕ) (done todo : List Enemy) (s : St) :
    (enLoop c inp level fuel done todo s).level = s.level :=
  enLoop_pres c inp level (fun t => t.level = s.level)
    (fun _ _ h => h) (fun e rest s' h => (enBody_level c inp level e rest s').trans h)
    fuel done todo s rfl

@[simp] lemma ebLoop_level (c : Cfg) (inp : TickInput)
    (fuel : ℕ) (done todo : List Bullet) (s : St) :
    (ebLoop c inp fuel done todo s).level = s.level :=
  ebLoop_pres c inp (fun t => t.level = s.level)
    (fun _ _ h => h) (fun b rest s' h => (ebBody_level c inp b rest s').trans h)
    fuel done todo s rfl

@[simp] lemma ebLoop_enemies (c : Cfg) (inp : TickInput)
    (fuel : ℕ) (done todo : List Bullet) (s : St) :
    (ebLoop c inp fuel done todo s).enemies = s.enemies :=
  ebLoop_pres c inp (fun t => t.enemies = s.enemies)
    (fun _ _ h => h) (fun b rest s' h => (ebBody_enemies c inp b rest s').trans h)
    fuel done todo s rfl

@[simp] lemma ebLoop_bullets (c : Cfg) (inp : TickInput)
    (fuel : ℕ) (done todo : List Bullet) (s : St) :
    (ebLoop c inp fuel done todo s).bullets = s.bullets :=
  ebLoop_pres c inp (fun t => t.bullets = s.bullets)
    (fun _ _ h => h) (fun b rest s' h => (ebBody_bullets c inp b rest s').trans h)
    fuel done todo s rfl

@[simp] lemma ebLoop_bossActive (c : Cfg) (inp : TickInput)
    (fuel : ℕ) (done todo : List Bullet) (s : St) :
    (ebLoop c inp fuel done todo s).bossActive = s.bossActive :=
  ebLoop_pres c inp (fun t => t.bossActive = s.bossActive)
    (fun _ _ h => h) (fun b rest s' h => (ebBody_bossActive c inp b rest s').trans h)
    fuel done todo s rfl

@[simp] lemma ebLoop_achievements (c : Cfg) (inp : TickInput)
    (fuel : ℕ) (done todo : List Bullet) (s : St) :
    (ebLoop c inp fuel done todo s).achievements = s.achievements :=
  ebLoop_pres c inp (fun t => t.achievements = s.achievements)
    (fun _ _ h => h) (fun b rest s' h => (ebBody_achievements c inp b rest s').trans h)
    fuel done todo s rfl

@[simp] lemma ebLoop_escapedEnemies (c : Cfg) (inp : TickInput)
    (fuel : ℕ) (done todo : List Bullet) (s : St) :
    (ebLoop c inp fuel done todo s).escapedEnemies = s.escapedEnemies :=
  ebLoop_pres c inp (fun t => t.escapedEnemies = s.escapedEnemies)
    (fun _ _ h => h) (fun b rest s' h => (ebBody_escapedEnemies c inp b rest s').trans h)
    fuel done todo s rfl

@[simp] lemma puBulletLoop_enemies (fuel : ℕ) (done todo : List Bullet) (it : PIter) :
    (puBulletLoop fuel done todo it).s.enemies = it.s.enemies :=
  puBulletLoop_pres (fun t => t.s.enemies = it.s.enemies)
    (fun _ _ h => h) (fun b it' h => (puBulletBody_enemies b it').trans h)
    fuel done todo it rfl

@[simp] lemma puBody_enemies (p : PowerUp) (rest : List PowerUp) (s : St) :
    (puBody p rest s).s.enemies = s.enemies := by
  simp only [puBody, spliceP]
  split_ifs <;> simp

@[simp] lemma puLoop_enemies (fuel : ℕ) (done todo : List PowerUp) (s : St) :
    (puLoop fuel done todo s).enemies = s.enemies :=
  puLoop_pres (fun t => t.enemies = s.enemies)
    (fun _ _ h => h) (fun p rest s' h => (puBody_enemies p rest s').trans h)
    fuel done todo s rfl

@[simp] lemma puBulletLoop_enemyBullets (fuel : ℕ) (done todo : List Bullet) (it : PIter) :
    (puBulletLoop fuel done todo it).s.enemyBullets = it.s.enemyBullets :=
  puBulletLoop_pres (fun t => t.s.enemyBullets = it.s.enemyBullets)
    (fun _ _ h => h) (fun b it' h => (puBulletBody_enemyBullets b it').trans h)
    fuel done todo it rfl

@[simp] lemma puBody_enemyBullets (p : PowerUp) (rest : List PowerUp) (s : St) :
    (puBody p rest s).s.enemyBullets = s.enemyBullets := by
  simp only [puBody, spliceP]
  split_ifs <;> simp

@[simp] lemma puLoop_enemyBullets (fuel : ℕ) (done todo : List PowerUp) (s : St) :
    (puLoop fuel done todo s).enemyBullets = s.enemyBullets :=
  puLoop_pres (fun t => t.enemyBullets = s.enemyBullets)
    (fun _ _ h => h) (fun p rest s' h => (puBody_enemyBullets p rest s').trans h)
    fuel done todo s rfl

@[simp] lemma puBulletLoop_lives (fuel : ℕ) (done todo : List Bullet) (it : PIter) :
    (puBulletLoop fuel done todo it).s.lives = it.s.lives :=
  puBulletLoop_pres (fun t => t.s.lives = it.s.lives)
    (fun _ _ h => h) (fun b it' h => (puBulletBody_lives b it').trans h)
    fuel done todo it rfl

@[simp] lemma puBody_lives (p : PowerUp) (rest : List PowerUp) (s : St) :
    (puBody p rest s).s.lives = s.lives := by
  simp only [puBody, spliceP]
  split_ifs <;> simp

@[simp] lemma puLoop_lives (fuel : ℕ) (done todo : List PowerUp) (s : St) :
    (puLoop fuel done todo s).lives = s.lives :=
  puLoop_pres (fun t => t.lives = s.lives)
    (fun _ _ h => h) (fun p rest s' h => (puBody_lives p rest s').trans h)
    fuel done todo s rfl

@[simp] lemma puBulletLoop_playerHits (fuel : ℕ) (done todo : List Bullet) (it : PIter) :
    (puBulletLoop fuel done todo it).s.playerHits = it.s.playerHits :=
  puBulletLoop_pres (fun t => t.s.playerHits = it.s.playerHits)
    (fun _ _ h => h) (fun b it' h => (puBulletBody_playerHits b it').trans h)
    fuel done todo it rfl

@[simp] lemma puBody_playerHits (p : PowerUp) (rest : List PowerUp) (s : St) :
    (puBody p rest s).s.playerHits = s.playerHits := by
  simp only [puBody, spliceP]
  split_ifs <;> simp

@[simp] lemma puLoop_playerHits (fuel : ℕ) (done todo : List PowerUp) (s : St) :
    (puLoop fuel done todo s).playerHits = s.playerHits :=
  puLoop_pres (fun t => t.playerHits = s.playerHits)
    (fun _ _ h => h) (fun p rest s' h => (puBody_playerHits p rest s').trans h)
    fuel done todo s rfl

@[simp] lemma puBulletLoop_gameState (fuel : ℕ) (done todo : List Bullet) (it : PIter) :
    (puBulletLoop fuel done todo it).s.gameState = it.s.gameState :=
  puBulletLoop_pres (fun t => t.s.gameState = it.s.gameState)
    (fun _ _ h => h) (fun b it' h => (puBulletBody_gameState b it').trans h)
    fuel done todo it rfl

@[simp] lemma puBody_gameState (p : PowerUp) (rest : List PowerUp) (s : St) :
    (puBody p rest s).s.gameState = s.gameState := by
  simp only [puBody, spliceP]
  split_ifs <;> simp

@[simp] lemma puLoop_gameState (fuel : ℕ) (done todo : List PowerUp) (s : St) :
    (puLoop fuel done todo s).gameState = s.gameState :=
  puLoop_pres (fun t => t.gameState = s.gameState)
    (fun _ _ h => h) (fun p rest s' h => (puBody_gameState p rest s').trans h)
    fuel done todo s rfl

@[simp] lemma puBulletLoop_level (fuel : ℕ) (done todo : List Bullet) (it : PIter) :
    (puBulletLoop fuel done todo it).s.level = it.s.level :=
  puBulletLoop_pres (fun t => t.s.level = it.s.level)
    (fun _ _ h => h) (fun b it' h => (puBulletBody_level b it').trans h)
    fuel done todo it rfl

@[simp] lemma puBody_level (p : PowerUp) (rest : List PowerUp) (s : St) :
    (puBody p rest s).s.level = s.level := by
  simp only [puBody, spliceP]
  split_ifs <;> simp

@[simp] lemma puLoop_level (fuel : ℕ) (done todo : List PowerUp) (s : St) :
    (puLoop fuel done todo s).level = s.level :=
  puLoop_pres (fun t => t.level = s.level)
    (fun _ _ h => h) (fun p rest s' h => (puBody_level p rest s').trans h)
    fuel done todo s rfl

@[simp] lemma puBulletLoop_escapedEnemies (fuel : ℕ) (done todo : List Bullet) (it : PIter) :
    (puBulletLoop fuel done todo it).s.escapedEnemies = it.s.escapedEnemies :=
  puBulletLoop_pres (fun t => t.s.escapedEnemies = it.s.escapedEnemies)
    (fun _ _ h => h) (fun b it' h => (puBulletBody_escapedEnemies b it').trans h)
    fuel done todo it rfl

@[simp] lemma puBody_escapedEnemies (p : PowerUp) (rest : List PowerUp) (s : St) :
    (puBody p rest s).s.escapedEnemies = s.escapedEnemies := by
  simp only [puBody, spliceP]
  split_ifs <;> simp

@[simp] lemma puLoop_escapedEnemies (fuel : ℕ) (done todo : List PowerUp) (s : St) :
    (puLoop fuel done todo s).escapedEnemies = s.escapedEnemies :=
  puLoop_pres (fun t => t.escapedEnemies = s.escapedEnemies)
    (fun _ _ h => h) (fun p rest s' h => (puBody_escapedEnemies p rest s').trans h)
    fuel done todo s rfl

@[simp] lemma puBulletLoop_bossActive (fuel : ℕ) (done todo : List Bullet) (it : PIter) :
    (puBulletLoop fuel done todo it).s.bossActive = it.s.bossActive :=
  puBulletLoop_pres (fun t => t.s.bossActive = it.s.bossActive)
    (fun _ _ h => h) (fun b it' h => (puBulletBody_bossActive b it').trans h)
    fuel done todo it rfl

@[simp] lemma puBody_bossActive (p : PowerUp) (rest : List PowerUp) (s : St) :
    (puBody p rest s).s.bossActive = s.bossActive := by
  simp only [puBody, spliceP]
  split_ifs <;> simp

@[simp] lemma puLoop_bossActive (fuel : ℕ) (done todo : List PowerUp) (s : St) :
    (puLoop fuel done todo s).bossActive = s.bossActive :=
  puLoop_pres (fun t => t.bossActive = s.bossActive)
    (fun _ _ h => h) (fun p rest s' h => (puBody_bossActive p rest s').trans h)
    fuel done todo s rfl

@[simp] lemma puBulletLoop_player_invulnerable (fuel : ℕ) (done todo : List Bullet) (it : PIter) :
    (puBulletLoop fuel done todo it).s.player.invulnerable = it.s.player.invulnerable :=
  puBulletLoop_pres (fun t => t.s.player.invulnerable = it.s.player.invulnerable)
    (fun _ _ h => h) (fun b it' h => (puBulletBody_player_invulnerable b it').trans h)
    fuel done todo it rfl

@[simp] lemma puBody_player_invulnerable (p : PowerUp) (rest : List PowerUp) (s : St) :
    (puBody p rest s).s.player.invulnerable = s.player.invulnerable := by
  simp only [puBody, spliceP]
  split_ifs <;> simp

@[simp] lemma puLoop_player_invulnerable (fuel : ℕ) (done todo : List PowerUp) (s : St) :
    (puLoop fuel done todo s).player.invulnerable = s.player.invulnerable :=
  puLoop_pres (fun t => t.player.invulnerable = s.player.invulnerable)
    (fun _ _ h => h) (fun p rest s' h => (puBody_player_invulnerable p rest s').trans h)
    fuel done todo s rfl

/-!
## C9: the lifetime-coin persistence round trip
-/

/-- C9: code-bug evidence.  The engine's write-back stores the lifetime
coins under the key `'karl_coins'` (App.tsx line 236) but the process-start
initialiser reads the key `'tina_coins'` (App.tsx line 164), so writing 100
coins and reloading from the resulting storage yields the default 0, not the
written value: the claimed round trip fails. -/
theorem C9_roundtrip_broken :
    loadCoins (persistCoins Store.empty 100) = 0 ∧
    ¬ loadCoins (persistCoins Store.empty 100) = 100 := by
  constructor <;> decide

/-!
## C7: level-up behaviour
-/

/-- C7: over one tick the level never decreases; and whenever the
accumulated (tick-start) score exceeds level × 2000, the tick increments the
level by exactly one and leaves both the enemies list and the enemy-bullets
list empty. -/
theorem C7_level_up (c : Cfg) (inp : TickInput) (g : St) :
    g.level ≤ (update c inp g).level ∧
    (g.score > g.level * 2000 →
      (update c inp g).level = g.level + 1 ∧
      (update c inp g).enemies = [] ∧
      (update c inp g).enemyBullets = []) := by
  have hlev : (update c inp g).level =
      if g.score > g.level * 2000 then g.level + 1 else g.level := by
    simp [update]
  constructor
  · rw [hlev]
    split_ifs <;> omega
  · intro h
    refine ⟨by rw [hlev, if_pos h], ?_, ?_⟩
    · simp [update, h]
    · simp [update, h]

/-- A distant idle enemy used by the concrete scenarios. -/
def idleEnemy : Enemy :=
  { id := 7, x := 100, y := 100, type := .BASIC, hp := 1, maxHp := 1,
    speed := 2, score := 100, width := 40, height := 40 }

/-- The spec's level-up scenario state: level 1, score exactly 2001, with an
enemy and an enemy bullet still alive. -/
def c7Scenario : St :=
  { baseSt with
    score := 2001,
    enemies := [idleEnemy],
    enemyBullets := [{ x := 100, y := 50, vx := 0, vy := 5, power := 1, isEnemy := true }] }

/-- Witness for C7 at the spec's scenario: at level 1 with score exactly
2001, the next tick yields level 2 and empty enemies and enemy-bullets
lists. -/
theorem C7_witness :
    c7Scenario.score > c7Scenario.level * 2000 ∧
    (update cfgNormal steadyInput c7Scenario).level = 2 ∧
    (update cfgNormal steadyInput c7Scenario).enemies = [] ∧
    (update cfgNormal steadyInput c7Scenario).enemyBullets = [] := by
  have h := (C7_level_up cfgNormal steadyInput c7Scenario).2 (by decide)
  exact ⟨by decide, h.1.trans (by decide), h.2.1, h.2.2⟩

/-!
## C3: the armor hit counter
-/

/-- One enemy-bullet hit resolution keeps the hit counter inside
`[0, armorStrength)`. -/
lemma resolveBulletHitPlayer_hits (c : Cfg) (inp : TickInput) (s : St)
    (harm : 1 ≤ c.up.armorStrength)
    (h : 0 ≤ s.playerHits ∧ s.playerHits < c.up.armorStrength) :
    0 ≤ (resolveBulletHitPlayer c inp s).playerHits ∧
      (resolveBulletHitPlayer c inp s).playerHits < c.up.armorStrength := by
  simp only [resolveBulletHitPlayer, createExplosion, loseLife]
  split_ifs <;>
    first
      | exact h
      | exact ⟨le_refl 0, by omega⟩
      | (constructor <;> simp <;> omega)

/-- The enemy-bullet body keeps the hit counter inside
`[0, armorStrength)`. -/
lemma ebBody_hits (c : Cfg) (inp : TickInput) (b : Bullet) (rest : List Bullet)
    (s : St) (harm : 1 ≤ c.up.armorStrength)
    (h : 0 ≤ s.playerHits ∧ s.playerHits < c.up.armorStrength) :
    0 ≤ (ebBody c inp b rest s).2.2.playerHits ∧
      (ebBody c inp b rest s).2.2.playerHits < c.up.armorStrength := by
  simp only [ebBody]
  split_ifs <;>
    first
      | exact h
      | exact resolveBulletHitPlayer_hits c inp s harm h

/-- C3: over one tick, `playerHits` stays inside `[0, armorStrength)`
whenever the armor strength is at least 1; and in a non-guardian session an
enemy-bullet hit landing (resolving) at `playerHits = armorStrength - 1`
with no shield resets `playerHits` to 0 and decrements lives by exactly one
in the same step. -/
theorem C3_armor_hits (c : Cfg) (inp : TickInput) (g : St)
    (harm : 1 ≤ c.up.armorStrength)
    (hrange : 0 ≤ g.playerHits ∧ g.playerHits < c.up.armorStrength) :
    (0 ≤ (update c inp g).playerHits ∧
      (update c inp g).playerHits < c.up.armorStrength) ∧
    (c.guardian = false → g.player.shield = false →
      g.playerHits = c.up.armorStrength - 1 →
      (resolveBulletHitPlayer c inp g).playerHits = 0 ∧
      (resolveBulletHitPlayer c inp g).lives = g.lives - 1) := by
  constructor
  · simp [update]
    refine ebLoop_pres c inp
      (fun t => 0 ≤ t.playerHits ∧ t.playerHits < c.up.armorStrength)
      (fun s' l h => h)
      (fun b rest s' h => ebBody_hits c inp b rest s' harm h)
      _ _ _ _ ?_
    simpa using hrange
  · intro hg hsh hhit
    simp only [resolveBulletHitPlayer, createExplosion, loseLife, hsh, hg,
      Bool.false_eq_true, if_false]
    rw [if_pos (show c.up.armorStrength ≤ g.playerHits + 1 by omega)]
    exact ⟨rfl, rfl⟩

/-- A state one enemy-bullet hit away from a life loss: default armor 5,
`playerHits` 4, no shield. -/
def c3Scenario : St := { baseSt with playerHits := 4 }

/-- Witness for C3 at the spec's scenario (armorStrength 5, playerHits 4):
the tick keeps the counter in range, and the landing hit resets it to 0 and
costs exactly one life. -/
theorem C3_witness :
    (0 ≤ (update cfgNormal steadyInput c3Scenario).playerHits ∧
      (update cfgNormal steadyInput c3Scenario).playerHits <
        cfgNormal.up.armorStrength) ∧
    (resolveBulletHitPlayer cfgNormal steadyInput c3Scenario).playerHits = 0 ∧
    (resolveBulletHitPlayer cfgNormal steadyInput c3Scenario).lives =
      c3Scenario.lives - 1 := by
  have h := C3_armor_hits cfgNormal steadyInput c3Scenario (by decide)
    ⟨by decide, by decide⟩
  exact ⟨h.1, h.2 (by decide) (by decide) (by decide)⟩

/-!
## C10: the guardian_hero achievement
-/

@[simp] lemma enMove_achievements (inp : TickInput) (it : EIter) :
    (enMove inp it).s.achievements = it.s.achievements := by
  simp only [enMove]; split_ifs <;> rfl

@[simp] lemma enShoot_achievements (inp : TickInput) (level : ℤ) (it : EIter) :
    (enShoot inp level it).s.achievements = it.s.achievements := by
  simp only [enShoot, nextRand]; split_ifs <;> rfl

@[simp] lemma enContact_achievements (c : Cfg) (inp : TickInput) (it : EIter) :
    (enContact c inp it).s.achievements = it.s.achievements := by
  simp only [enContact, createExplosion, loseLife, spliceE]; split_ifs <;> rfl

@[simp] lemma enEscape_achievements (c : Cfg) (it : EIter) :
    (enEscape c it).s.achievements = it.s.achievements := by
  simp only [enEscape, spliceE]; split_ifs <;> rfl

@[simp] lemma enKillFx_guardian_hero (inp : TickInput) (e : Enemy) (s : St) :
    (enKillFx inp e s).achievements.guardian_hero = s.achievements.guardian_hero := by
  simp only [enKillFx, createExplosion, bossCoinBurst, unlockIn, spawnPowerUpAt,
    nextRand, Achievements.unlock]
  split_ifs <;> rfl

@[simp] lemma killCountAch_guardian_hero (s : St) :
    (killCountAch s).achievements.guardian_hero = s.achievements.guardian_hero := by
  simp only [killCountAch, unlockIn, Achievements.unlock]
  split_ifs <;> rfl

@[simp] lemma puApplyFx_guardian_hero (p : PowerUp) (s : St) :
    (puApplyFx p s).achievements.guardian_hero = s.achievements.guardian_hero := by
  rcases p with ⟨px, py, pty, pw, ph, pv⟩
  rcases pty <;> simp only [puApplyFx, unlockIn, Achievements.unlock] <;>
    split_ifs <;> rfl

@[simp] lemma enBulletBody_guardian_hero (c : Cfg) (inp : TickInput)
    (b : Bullet) (it : EIter) :
    (enBulletBody c inp b it).2.s.achievements.guardian_hero =
      it.s.achievements.guardian_hero := by
  simp only [enBulletBody, spliceE]; split_ifs <;> simp

@[simp] lemma puBulletBody_guardian_hero (b : Bullet) (it : PIter) :
    (puBulletBody b it).2.s.achievements.guardian_hero =
      it.s.achievements.guardian_hero := by
  simp only [puBulletBody, spliceP]; split_ifs <;> simp

@[simp] lemma enBulletLoop_guardian_hero (c : Cfg) (inp : TickInput)
    (fuel : ℕ) (done todo : List Bullet) (it : EIter) :
    (enBulletLoop c inp fuel done todo it).s.achievements.guardian_hero =
      it.s.achievements.guardian_hero :=
  enBulletLoop_pres c inp
    (fun t => t.s.achievements.guardian_hero = it.s.achievements.guardian_hero)
    (fun _ _ h => h) (fun b it' h => (enBulletBody_guardian_hero c inp b it').trans h)
    fuel done todo it rfl

@[simp] lemma enBody_guardian_hero (c : Cfg) (inp : TickInput) (level : ℤ)
    (e : Enemy) (rest : List Enemy) (s : St) :
    (enBody c inp level e rest s).s.achievements.guardian_hero =
      s.achievements.guardian_hero := by
  simp only [enBody]
  simp

@[simp] lemma enLoop_guardian_hero (c : Cfg) (inp : TickInput) (level : ℤ)
    (fuel : ℕ) (done todo : List Enemy) (s : St) :
    (enLoop c inp level fuel done todo s).achievements.guardian_hero =
      s.achievements.guardian_hero :=
  enLoop_pres c inp level
    (fun t => t.achievements.guardian_hero = s.achievements.guardian_hero)
    (fun _ _ h => h)
    (fun e rest s' h => (enBody_guardian_hero c inp level e rest s').trans h)
    fuel done todo s rfl

@[simp] lemma puBulletLoop_guardian_hero (fuel : ℕ) (done todo : List Bullet)
    (it : PIter) :
    (puBulletLoop fuel done todo it).s.achievements.guardian_hero =
      it.s.achievements.guardian_hero :=
  puBulletLoop_pres
    (fun t => t.s.achievements.guardian_hero = it.s.achievements.guardian_hero)
    (fun _ _ h => h) (fun b it' h => (puBulletBody_guardian_hero b it').trans h)
    fuel done todo it rfl

@[simp] lemma puBody_guardian_hero (p : PowerUp) (rest : List PowerUp) (s : St) :
    (puBody p rest s).s.achievements.guardian_hero =
      s.achievements.guardian_hero := by
  simp only [puBody, spliceP]
  split_ifs <;> simp

@[simp] lemma puLoop_guardian_hero (fuel : ℕ) (done todo : List PowerUp) (s : St) :
    (puLoop fuel done todo s).achievements.guardian_hero =
      s.achievements.guardian_hero :=
  puLoop_pres
    (fun t => t.achievements.guardian_hero = s.achievements.guardian_hero)
    (fun _ _ h => h) (fun p rest s' h => (puBody_guardian_hero p rest s').trans h)
    fuel done todo s rfl

@[simp] lemma levelUpPhase_guardian_hero (sc lv : ℤ) (s : St) :
    (levelUpPhase sc lv s).achievements.guardian_hero =
      s.achievements.guardian_hero := by
  simp only [levelUpPhase, unlockIn, Achievements.unlock]
  split_ifs <;> rfl

@[simp] lemma survivorPhase_guardian_hero (inp : TickInput) (s : St) :
    (survivorPhase inp s).achievements.guardian_hero =
      s.achievements.guardian_hero := by
  simp only [survivorPhase, unlockIn, Achievements.unlock]
  split_ifs <;> rfl

/-- C10: the tick never flips the `guardian_hero` flag — in particular a
guardian session that has survived more than 3 minutes (for any clock and
input values, e.g. `now2 - startTime = 181000 ms`) does not fire the
`guardian_hero` trigger: no code path of the engine's update evaluates a
3-minute condition or unlocks this achievement, contradicting the claim
that surviving 3 minutes flips its unlocked flag. -/
theorem C10_guardian_hero_never_fires (c : Cfg) (inp : TickInput) (g : St) :
    (update c inp g).achievements.guardian_hero =
      g.achievements.guardian_hero := by
  simp [update]

/-!
## C6: guardian mode
-/

@[simp] lemma enMove_lives (inp : TickInput) (it : EIter) :
    (enMove inp it).s.lives = it.s.lives := by
  simp only [enMove]; split_ifs <;> rfl

@[simp] lemma enMove_gameState (inp : TickInput) (it : EIter) :
    (enMove inp it).s.gameState = it.s.gameState := by
  simp only [enMove]; split_ifs <;> rfl

@[simp] lemma enMove_escapedEnemies (inp : TickInput) (it : EIter) :
    (enMove inp it).s.escapedEnemies = it.s.escapedEnemies := by
  simp only [enMove]; split_ifs <;> rfl

@[simp] lemma enShoot_lives (inp : TickInput) (level : ℤ) (it : EIter) :
    (enShoot inp level it).s.lives = it.s.lives := by
  simp only [enShoot, nextRand]; split_ifs <;> rfl

@[simp] lemma enShoot_gameState (inp : TickInput) (level : ℤ) (it : EIter) :
    (enShoot inp level it).s.gameState = it.s.gameState := by
  simp only [enShoot, nextRand]; split_ifs <;> rfl

@[simp] lemma enShoot_escapedEnemies (inp : TickInput) (level : ℤ) (it : EIter) :
    (enShoot inp level it).s.escapedEnemies = it.s.escapedEnemies := by
  simp only [enShoot, nextRand]; split_ifs <;> rfl

@[simp] lemma enContact_escapedEnemies (c : Cfg) (inp : TickInput) (it : EIter) :
    (enContact c inp it).s.escapedEnemies = it.s.escapedEnemies := by
  simp only [enContact, createExplosion, loseLife, spliceE]; split_ifs <;> rfl

@[simp] lemma enBulletLoop_escapedEnemies (c : Cfg) (inp : TickInput)
    (fuel : ℕ) (done todo : List Bullet) (it : EIter) :
    (enBulletLoop c inp fuel done todo it).s.escapedEnemies =
      it.s.escapedEnemies :=
  enBulletLoop_pres c inp
    (fun t => t.s.escapedEnemies = it.s.escapedEnemies)
    (fun _ _ h => h) (fun b it' h => (enBulletBody_escapedEnemies c inp b it').trans h)
    fuel done todo it rfl

/-- In guardian mode an enemy-bullet hit never touches the lives. -/
lemma ebBody_lives_guardian (c : Cfg) (inp : TickInput) (b : Bullet)
    (rest : List Bullet) (s : St) (hg : c.guardian = true) :
    (ebBody c inp b rest s).2.2.lives = s.lives := by
  simp only [ebBody, resolveBulletHitPlayer, createExplosion, loseLife, hg]
  split_ifs <;> simp_all

/-- In guardian mode an enemy-bullet hit never touches the session state. -/
lemma ebBody_gameState_guardian (c : Cfg) (inp : TickInput) (b : Bullet)
    (rest : List Bullet) (s : St) (hg : c.guardian = true) :
    (ebBody c inp b rest s).2.2.gameState = s.gameState := by
  simp only [ebBody, resolveBulletHitPlayer, createExplosion, loseLife, hg]
  split_ifs <;> simp_all

/-- In guardian mode a direct enemy contact never touches the lives. -/
lemma enContact_lives_guardian (c : Cfg) (inp : TickInput) (it : EIter)
    (hg : c.guardian = true) :
    (enContact c inp it).s.lives = it.s.lives := by
  simp only [enContact, createExplosion, loseLife, spliceE, hg]
  split_ifs <;> simp_all

/-- In guardian mode a direct enemy contact never touches the session
state. -/
lemma enContact_gameState_guardian (c : Cfg) (inp : TickInput) (it : EIter)
    (hg : c.guardian = true) :
    (enContact c inp it).s.gameState = it.s.gameState := by
  simp only [enContact, createExplosion, loseLife, spliceE, hg]
  split_ifs <;> simp_all

/-- The guardian-session invariant: the lives are pinned at their
session-start value, the state is `PLAYING` while fewer than 40 enemies have
escaped, and `GUARDIAN_RESULT` from 40 escapes on. -/
def GuardInv (l0 : ℤ) (s : St) : Prop :=
  s.lives = l0 ∧
  (s.escapedEnemies < 40 → s.gameState = .PLAYING) ∧
  (40 ≤ s.escapedEnemies → s.gameState = .GUARDIAN_RESULT)

/-- Transport of `GuardInv` along equal projections. -/
lemma GuardInv.of_eq_guard {l0 : ℤ} {s t : St} (h : GuardInv l0 s)
    (hl : t.lives = s.lives) (hgs : t.gameState = s.gameState)
    (he : t.escapedEnemies = s.escapedEnemies) : GuardInv l0 t := by
  refine ⟨hl.trans h.1, fun hlt => ?_, fun hge => ?_⟩
  · rw [hgs]
    exact h.2.1 (by rw [he] at hlt; exact hlt)
  · rw [hgs]
    exact h.2.2 (by rw [he] at hge; exact hge)

/-- `splice(i, 1)` never changes the world part of the iteration state. -/
@[simp] lemma spliceE_s (it : EIter) : (spliceE it).s = it.s := by
  simp only [spliceE]; split_ifs <;> rfl

/-- The escape check preserves the guardian invariant: the transition to
`GUARDIAN_RESULT` happens exactly when the counter reaches 40. -/
lemma enEscape_guardInv (c : Cfg) (it : EIter) {l0 : ℤ}
    (h : GuardInv l0 it.s) : GuardInv l0 (enEscape c it).s := by
  unfold enEscape
  split_ifs with h1 h2
  · simp only [spliceE_s]
    refine ⟨h.1, fun hlt => ?_, fun hge => ?_⟩
    · replace hlt : it.s.escapedEnemies + 1 < 40 := hlt
      show (if 40 ≤ it.s.escapedEnemies + 1 then GState.GUARDIAN_RESULT
        else it.s.gameState) = .PLAYING
      rw [if_neg (by omega)]
      exact h.2.1 (by omega)
    · replace hge : 40 ≤ it.s.escapedEnemies + 1 := hge
      show (if 40 ≤ it.s.escapedEnemies + 1 then GState.GUARDIAN_RESULT
        else it.s.gameState) = .GUARDIAN_RESULT
      rw [if_pos hge]
  · simpa only [spliceE_s] using h
  · exact h

/-- The whole enemy body preserves the guardian invariant in guardian
mode. -/
lemma enBody_guardInv (c : Cfg) (inp : TickInput) (level : ℤ) (e : Enemy)
    (rest : List Enemy) (s : St) {l0 : ℤ} (hg : c.guardian = true)
    (h : GuardInv l0 s) : GuardInv l0 (enBody c inp level e rest s).s := by
  simp only [enBody]
  apply enEscape_guardInv
  have h1 : GuardInv l0 (enMove inp ⟨e, true, rest, s⟩).s :=
    h.of_eq_guard (by simp) (by simp) (by simp)
  have h2 := h1.of_eq_guard (enShoot_lives inp level _) (enShoot_gameState inp level _)
    (enShoot_escapedEnemies inp level _)
  have h3 := h2.of_eq_guard (enContact_lives_guardian c inp _ hg)
    (enContact_gameState_guardian c inp _ hg) (enContact_escapedEnemies c inp _)
  exact enBulletLoop_pres c inp (fun t => GuardInv l0 t.s)
    (fun _ _ hq => hq)
    (fun b it' hq => hq.of_eq_guard (enBulletBody_lives c inp b it')
      (enBulletBody_gameState c inp b it') (enBulletBody_escapedEnemies c inp b it'))
    _ _ _ _ h3

/-- Phase transports of the guardian invariant. -/
lemma guardInv_move (inp : TickInput) {l0 : ℤ} {s : St} (h : GuardInv l0 s) :
    GuardInv l0 (movePlayerPhase inp s) :=
  h.of_eq_guard (by simp) (by simp) (by simp)

lemma guardInv_shoot (c : Cfg) (inp : TickInput) {l0 : ℤ} {s : St}
    (h : GuardInv l0 s) : GuardInv l0 (shootPhase c inp s) :=
  h.of_eq_guard (by simp) (by simp) (by simp)

lemma guardInv_ebLoop (c : Cfg) (inp : TickInput) (hg : c.guardian = true)
    {l0 : ℤ} (fuel : ℕ) (done todo : List Bullet) (s : St)
    (h : GuardInv l0 s) : GuardInv l0 (ebLoop c inp fuel done todo s) :=
  ebLoop_pres c inp (GuardInv l0) (fun _ _ hq => hq)
    (fun b rest s' hq => hq.of_eq_guard (ebBody_lives_guardian c inp b rest s' hg)
      (ebBody_gameState_guardian c inp b rest s' hg)
      (ebBody_escapedEnemies c inp b rest s'))
    fuel done todo s h

lemma guardInv_enSpawn (inp : TickInput) (level : ℤ) {l0 : ℤ} {s : St}
    (h : GuardInv l0 s) : GuardInv l0 (enemySpawnPhase inp level s) :=
  h.of_eq_guard (by simp) (by simp) (by simp)

lemma guardInv_enLoop (c : Cfg) (inp : TickInput) (level : ℤ)
    (hg : c.guardian = true) {l0 : ℤ} (fuel : ℕ) (done todo : List Enemy)
    (s : St) (h : GuardInv l0 s) :
    GuardInv l0 (enLoop c inp level fuel done todo s) :=
  enLoop_pres c inp level (GuardInv l0) (fun _ _ hq => hq)
    (fun e rest s' hq => enBody_guardInv c inp level e rest s' hg hq)
    fuel done todo s h

lemma guardInv_puSpawn (inp : TickInput) {l0 : ℤ} {s : St}
    (h : GuardInv l0 s) : GuardInv l0 (powerUpSpawnPhase inp s) :=
  h.of_eq_guard (by simp) (by simp) (by simp)

lemma guardInv_puLoop {l0 : ℤ} (fuel : ℕ) (done todo : List PowerUp) (s : St)
    (h : GuardInv l0 s) : GuardInv l0 (puLoop fuel done todo s) :=
  puLoop_pres (GuardInv l0) (fun _ _ hq => hq)
    (fun p rest s' hq => hq.of_eq_guard (puBody_lives p rest s')
      (puBody_gameState p rest s') (puBody_escapedEnemies p rest s'))
    fuel done todo s h

lemma guardInv_levelUp (sc lv : ℤ) {l0 : ℤ} {s : St} (h : GuardInv l0 s) :
    GuardInv l0 (levelUpPhase sc lv s) :=
  h.of_eq_guard (by simp) (by simp) (by simp)

lemma guardInv_survivor (inp : TickInput) {l0 : ℤ} {s : St}
    (h : GuardInv l0 s) : GuardInv l0 (survivorPhase inp s) :=
  h.of_eq_guard (by simp) (by simp) (by simp)

lemma guardInv_tickEnd {l0 : ℤ} {s : St} (h : GuardInv l0 s) :
    GuardInv l0 (tickEndPhase s) :=
  h.of_eq_guard (by simp) (by simp) (by simp)

/-- One whole tick preserves the guardian invariant in guardian mode. -/
lemma update_guardInv (c : Cfg) (inp : TickInput) (l0 : ℤ)
    (hg : c.guardian = true) (g : St) (h : GuardInv l0 g) :
    GuardInv l0 (update c inp g) := by
  unfold update
  exact guardInv_tickEnd (guardInv_survivor inp (guardInv_levelUp _ _
    (guardInv_puLoop _ _ _ _ (guardInv_puSpawn inp
      (guardInv_enLoop c inp _ hg _ _ _ _ (guardInv_enSpawn inp _
        (guardInv_ebLoop c inp hg _ _ _ _
          (guardInv_shoot c inp (guardInv_move inp h)))))))))

/-- C6: in a guardian-mode session, one tick from a `PLAYING` state with
fewer than 40 escapes never changes the lives (no collision decrements
them), and after the tick the session is in `GUARDIAN_RESULT` exactly when
the escaped-enemy count has reached 40 — never at a smaller count. -/
theorem C6_guardian_mode (c : Cfg) (inp : TickInput) (g : St)
    (hg : c.guardian = true) (hplay : g.gameState = .PLAYING)
    (hesc : g.escapedEnemies < 40) :
    (update c inp g).lives = g.lives ∧
    ((update c inp g).gameState = .GUARDIAN_RESULT ↔
      40 ≤ (update c inp g).escapedEnemies) := by
  have h0 : GuardInv g.lives g :=
    ⟨rfl, fun _ => hplay, fun h40 => absurd h40 (by omega)⟩
  have h1 := update_guardInv c inp g.lives hg g h0
  refine ⟨h1.1, fun hGR => ?_, h1.2.2⟩
  by_contra hlt
  push_neg at hlt
  have hpl := h1.2.1 hlt
  rw [hpl] at hGR
  exact absurd hGR (by simp)

/-- A guardian session one escape away from the threshold. -/
def c6Scenario : St :=
  { baseSt with lives := 999999, escapedEnemies := 39 }

/-- Witness for C6 at a concrete guardian state with 39 escapes. -/
theorem C6_witness :
    (update cfgGuardian steadyInput c6Scenario).lives = c6Scenario.lives ∧
    ((update cfgGuardian steadyInput c6Scenario).gameState = .GUARDIAN_RESULT ↔
      40 ≤ (update cfgGuardian steadyInput c6Scenario).escapedEnemies) :=
  C6_guardian_mode cfgGuardian steadyInput c6Scenario rfl (by decide) (by decide)

/-!
## C5: the boss invariant
-/

/-- Number of BOSS-kind enemies in a list. -/
def bossCount (l : List Enemy) : ℕ :=
  l.countP (fun e => e.type == EnemyType.BOSS)

lemma bossCount_append (l1 l2 : List Enemy) :
    bossCount (l1 ++ l2) = bossCount l1 + bossCount l2 :=
  List.countP_append _ _ _

lemma bossCount_tail_le (l : List Enemy) : bossCount l.tail ≤ bossCount l :=
  (List.tail_sublist l).countP_le _

lemma bossCount_cons (e : Enemy) (l : List Enemy) :
    bossCount (e :: l) =
      bossCount l + (if e.type = EnemyType.BOSS then 1 else 0) := by
  simp only [bossCount, List.countP_cons, beq_iff_eq]

lemma bossCount_singleton (x : Enemy) :
    bossCount [x] = if x.type = EnemyType.BOSS then 1 else 0 := by
  simp [bossCount, List.countP_cons]

lemma bossCount_eq_zero {l : List Enemy} :
    bossCount l = 0 ↔ ∀ x ∈ l, x.type ≠ EnemyType.BOSS := by
  simp [bossCount, List.countP_eq_zero]

lemma mem_tail_subset {α : Type} {l : List α} {x : α} (hx : x ∈ l.tail) :
    x ∈ l :=
  (List.tail_sublist l).mem hx

/-- The boss invariant of the world: a live BOSS forces the `bossActive`
flag, and at most one BOSS is alive. -/
def BossInv (s : St) : Prop :=
  (∀ e ∈ s.enemies, e.type = EnemyType.BOSS → s.bossActive = true) ∧
  bossCount s.enemies ≤ 1

/-- The boss invariant of a virtual enemy list (prefix `done` of the scan
plus the unvisited part) against a flag carried by the state. -/
def BossList (s : St) (l : List Enemy) : Prop :=
  (∀ x ∈ l, x.type = EnemyType.BOSS → s.bossActive = true) ∧ bossCount l ≤ 1

/-- The within-iteration boss invariant: the scanned prefix `done`, the
unvisited suffix `it.rest` and (while present) the current enemy make up
the virtual list; once the current enemy is a removed BOSS, no other BOSS
exists anywhere. -/
def BossIt (done : List Enemy) (it : EIter) : Prop :=
  (∀ x ∈ done, x.type = EnemyType.BOSS → it.s.bossActive = true) ∧
  (∀ x ∈ it.rest, x.type = EnemyType.BOSS → it.s.bossActive = true) ∧
  (it.present = true → it.e.type = EnemyType.BOSS → it.s.bossActive = true) ∧
  bossCount (done ++ it.rest) +
    (if it.present = true ∧ it.e.type = EnemyType.BOSS then 1 else 0) ≤ 1 ∧
  (it.present = false → it.e.type = EnemyType.BOSS →
    bossCount (done ++ it.rest) = 0)

@[simp] lemma spliceE_e (it : EIter) : (spliceE it).e = it.e := by
  simp only [spliceE]; split_ifs <;> rfl

@[simp] lemma spliceE_present (it : EIter) : (spliceE it).present = false := by
  simp only [spliceE]
  split_ifs with h
  · rfl
  · simpa using h

lemma spliceE_rest (it : EIter) :
    (spliceE it).rest = if it.present = true then it.rest else it.rest.tail := by
  simp only [spliceE]; split_ifs <;> rfl

@[simp] lemma enMove_present (inp : TickInput) (it : EIter) :
    (enMove inp it).present = it.present := by
  simp only [enMove]; split_ifs <;> rfl

@[simp] lemma enMove_rest (inp : TickInput) (it : EIter) :
    (enMove inp it).rest = it.rest := by
  simp only [enMove]; split_ifs <;> rfl

@[simp] lemma enMove_e_type (inp : TickInput) (it : EIter) :
    (enMove inp it).e.type = it.e.type := by
  simp only [enMove]; split_ifs <;> rfl

@[simp] lemma enMove_bossActive (inp : TickInput) (it : EIter) :
    (enMove inp it).s.bossActive = it.s.bossActive := by
  simp only [enMove]; split_ifs <;> rfl

@[simp] lemma enShoot_present (inp : TickInput) (level : ℤ) (it : EIter) :
    (enShoot inp level it).present = it.present := by
  simp only [enShoot, nextRand]; split_ifs <;> rfl

@[simp] lemma enShoot_rest (inp : TickInput) (level : ℤ) (it : EIter) :
    (enShoot inp level it).rest = it.rest := by
  simp only [enShoot, nextRand]; split_ifs <;> rfl

@[simp] lemma enShoot_e_type (inp : TickInput) (level : ℤ) (it : EIter) :
    (enShoot inp level it).e.type = it.e.type := by
  simp only [enShoot, nextRand]; split_ifs <;> rfl

@[simp] lemma enShoot_bossActive (inp : TickInput) (level : ℤ) (it : EIter) :
    (enShoot inp level it).s.bossActive = it.s.bossActive := by
  simp only [enShoot, nextRand]; split_ifs <;> rfl

@[simp] lemma enContact_e (c : Cfg) (inp : TickInput) (it : EIter) :
    (enContact c inp it).e = it.e := by
  simp only [enContact, createExplosion, loseLife, spliceE]; split_ifs <;> rfl

@[simp] lemma enContact_bossActive (c : Cfg) (inp : TickInput) (it : EIter) :
    (enContact c inp it).s.bossActive = it.s.bossActive := by
  simp only [enContact, createExplosion, loseLife, spliceE]; split_ifs <;> rfl

@[simp] lemma enEscape_e (c : Cfg) (it : EIter) : (enEscape c it).e = it.e := by
  simp only [enEscape, spliceE]; split_ifs <;> rfl

@[simp] lemma enEscape_bossActive (c : Cfg) (it : EIter) :
    (enEscape c it).s.bossActive = it.s.bossActive := by
  simp only [enEscape, spliceE]; split_ifs <;> rfl

@[simp] lemma enKillFx_bossActive (inp : TickInput) (e : Enemy) (s : St) :
    (enKillFx inp e s).bossActive =
      if e.type = EnemyType.BOSS then false else s.bossActive := by
  simp only [enKillFx, createExplosion, bossCoinBurst, unlockIn,
    spawnPowerUpAt, nextRand]
  split_ifs <;> rfl

/-- Transport of the within-iteration boss invariant along equal tracked
projections. -/
lemma BossIt.of_eq_boss_it {done : List Enemy} {it it' : EIter} (h : BossIt done it)
    (hp : it'.present = it.present) (hr : it'.rest = it.rest)
    (ht : it'.e.type = it.e.type) (hb : it'.s.bossActive = it.s.bossActive) :
    BossIt done it' := by
  obtain ⟨h1, h2, h3, h4, h5⟩ := h
  refine ⟨?_, ?_, ?_, ?_, ?_⟩ <;> simp only [hp, hr, ht, hb]
  exacts [h1, h2, h3, h4, h5]

/-- `splice(i, 1)` preserves the within-iteration boss invariant. -/
lemma BossIt_spliceE {done : List Enemy} {it : EIter} (h : BossIt done it) :
    BossIt done (spliceE it) := by
  obtain ⟨h1, h2, h3, h4, h5⟩ := h
  by_cases hp : it.present = true
  · refine ⟨?_, ?_, ?_, ?_, ?_⟩ <;>
      simp only [spliceE_e, spliceE_present, spliceE_rest, spliceE_s, if_pos hp,
        Bool.false_eq_true, false_and, if_false, add_zero, false_implies,
        implies_true]
    · exact h1
    · exact h2
    · split_ifs at h4 <;> omega
    · intro _ hb
      rw [if_pos ⟨hp, hb⟩] at h4
      omega
  · have hp' : it.present = false := by simpa using hp
    refine ⟨?_, ?_, ?_, ?_, ?_⟩ <;>
      simp only [spliceE_e, spliceE_present, spliceE_rest, spliceE_s, if_neg hp,
        Bool.false_eq_true, false_and, if_false, add_zero, false_implies,
        implies_true]
    · exact h1
    · exact fun x hx hxb => h2 x (mem_tail_subset hx) hxb
    · have hle := bossCount_tail_le it.rest
      rw [bossCount_append] at h4 ⊢
      split_ifs at h4 <;> omega
    · intro _ hb
      have h50 := h5 hp' hb
      rw [bossCount_append] at h50 ⊢
      have := bossCount_tail_le it.rest
      omega

/-- The contact check preserves the within-iteration boss invariant: only a
non-boss contact splices, and the flag is untouched. -/
lemma BossIt_contact (c : Cfg) (inp : TickInput) {done : List Enemy}
    (it : EIter) (h : BossIt done it) : BossIt done (enContact c inp it) := by
  simp only [enContact]
  split_ifs <;>
    first
      | exact h
      | exact h.of_eq_boss_it rfl rfl rfl rfl
      | exact BossIt_spliceE (h.of_eq_boss_it rfl rfl rfl rfl)

/-- The escape check preserves the within-iteration boss invariant. -/
lemma BossIt_escape (c : Cfg) {done : List Enemy} (it : EIter)
    (h : BossIt done it) : BossIt done (enEscape c it) := by
  simp only [enEscape]
  split_ifs <;>
    first
      | exact h
      | exact BossIt_spliceE h

/-- One bullet of the in-enemy pass preserves the within-iteration boss
invariant: a boss death clears the flag exactly when no other boss can be
alive. -/
lemma BossIt_bulletBody (c : Cfg) (inp : TickInput) {done : List Enemy}
    (b : Bullet) (it : EIter) (h : BossIt done it) :
    BossIt done (enBulletBody c inp b it).2 := by
  simp only [enBulletBody]
  split_ifs with hdist hdead
  · by_cases hb : it.e.type = EnemyType.BOSS
    · obtain ⟨h1, h2, h3, h4, h5⟩ := h
      have hcount : bossCount (done ++ it.rest) = 0 := by
        by_cases hp : it.present = true
        · rw [if_pos ⟨hp, hb⟩] at h4
          omega
        · exact h5 (by simpa using hp) hb
      have hdone : bossCount done = 0 := by
        rw [bossCount_append] at hcount
        omega
      have hrest : bossCount it.rest = 0 := by
        rw [bossCount_append] at hcount
        omega
      refine ⟨?_, ?_, ?_, ?_, ?_⟩
      · intro x hx hxb
        exact absurd hxb (bossCount_eq_zero.mp hdone x hx)
      · intro x hx hxb
        refine absurd hxb (bossCount_eq_zero.mp hrest x ?_)
        simp only [spliceE_rest] at hx
        split_ifs at hx
        · exact hx
        · exact mem_tail_subset hx
      · intro hpr
        simp only [spliceE_present] at hpr
        cases hpr
      · simp only [spliceE_present, spliceE_rest, Bool.false_eq_true, false_and,
          if_false, add_zero]
        rw [bossCount_append]
        have := bossCount_tail_le it.rest
        split_ifs <;> omega
      · intro _ _
        simp only [spliceE_rest]
        rw [bossCount_append]
        have := bossCount_tail_le it.rest
        split_ifs <;> omega
    · have h1 : BossIt done (⟨{ it.e with hp := it.e.hp - b.power * c.up.bulletPower },
          it.present, it.rest,
          enKillFx inp { it.e with hp := it.e.hp - b.power * c.up.bulletPower }
            { it.s with
              score := it.s.score + it.e.score,
              enemiesKilled := it.s.enemiesKilled + 1 }⟩ : EIter) := by
        refine h.of_eq_boss_it rfl rfl rfl ?_
        show (enKillFx inp _ _).bossActive = it.s.bossActive
        rw [enKillFx_bossActive]
        exact if_neg hb
      exact (BossIt_spliceE h1).of_eq_boss_it (by simp) (by simp) (by simp) (by simp [hb])
  · exact h.of_eq_boss_it rfl rfl rfl rfl
  · exact h

/-- The whole enemy body preserves the within-iteration boss invariant. -/
lemma BossIt_enBody (c : Cfg) (inp : TickInput) (level : ℤ)
    {done : List Enemy} (e : Enemy) (rest : List Enemy) (s : St)
    (h : BossIt done ⟨e, true, rest, s⟩) :
    BossIt done (enBody c inp level e rest s) := by
  unfold enBody
  apply BossIt_escape
  have h1 : BossIt done (enMove inp ⟨e, true, rest, s⟩) :=
    h.of_eq_boss_it (by simp) (by simp) (by simp) (by simp)
  have h2 : BossIt done (enShoot inp level (enMove inp ⟨e, true, rest, s⟩)) :=
    h1.of_eq_boss_it (by simp) (by simp) (by simp) (by simp)
  have h3 := BossIt_contact c inp _ h2
  exact enBulletLoop_pres c inp (BossIt done) (fun _ _ hq => hq)
    (fun b it' hq => BossIt_bulletBody c inp b it' hq) _ _ _ _ h3

/-- A surviving enemy joins the scanned prefix. -/
lemma BossIt.keep {done : List Enemy} {it : EIter} (h : BossIt done it)
    (hp : it.present = true) :
    BossList it.s ((done ++ [it.e]) ++ it.rest) := by
  obtain ⟨h1, h2, h3, h4, h5⟩ := h
  constructor
  · intro x hx hxb
    rcases List.mem_append.mp hx with hx' | hx'
    · rcases List.mem_append.mp hx' with hx'' | hx''
      · exact h1 x hx'' hxb
      · have hxe : x = it.e := List.mem_singleton.mp hx''
        rw [hxe] at hxb
        exact h3 hp hxb
    · exact h2 x hx' hxb
  · rw [bossCount_append, bossCount_append]
    rw [bossCount_append] at h4
    rw [bossCount_singleton]
    by_cases hb : it.e.type = EnemyType.BOSS
    · rw [if_pos ⟨hp, hb⟩] at h4
      rw [if_pos hb]
      omega
    · rw [if_neg (by rintro ⟨-, hx⟩; exact hb hx)] at h4
      rw [if_neg hb]
      omega

/-- When the current enemy is gone, the virtual list is the prefix plus the
current suffix. -/
lemma BossIt.drop {done : List Enemy} {it : EIter} (h : BossIt done it) :
    BossList it.s (done ++ it.rest) := by
  obtain ⟨h1, h2, h3, h4, h5⟩ := h
  refine ⟨?_, ?_⟩
  · intro x hx hxb
    rcases List.mem_append.mp hx with hx' | hx'
    · exact h1 x hx' hxb
    · exact h2 x hx' hxb
  · split_ifs at h4 <;> omega

/-- The enemy `forEach` preserves the boss invariant of the virtual list. -/
lemma enLoop_bossInv (c : Cfg) (inp : TickInput) (level : ℤ) :
    ∀ fuel done todo s, BossList s (done ++ todo) →
      BossInv (enLoop c inp level fuel done todo s) := by
  intro fuel
  induction fuel with
  | zero => intro done todo s h; exact h
  | succ n ih =>
    intro done todo s h
    cases todo with
    | nil =>
      have h' : BossList s done := by simpa using h
      exact h'
    | cons e rest =>
      have h0 : BossIt done ⟨e, true, rest, s⟩ := by
        obtain ⟨hm, hc⟩ := h
        refine ⟨?_, ?_, ?_, ?_, ?_⟩ <;> dsimp only
        · exact fun x hx hxb => hm x (List.mem_append.mpr (Or.inl hx)) hxb
        · exact fun x hx hxb =>
            hm x (List.mem_append.mpr (Or.inr (List.mem_cons_of_mem e hx))) hxb
        · exact fun _ hxb => hm e (List.mem_append.mpr (Or.inr (List.mem_cons_self e rest))) hxb
        · rw [bossCount_append, bossCount_cons] at hc
          rw [bossCount_append]
          split_ifs with hx
          · rw [if_pos hx.2] at hc
            omega
          · split_ifs at hc <;> omega
        · intro hfalse
          simp at hfalse
      have h1 := BossIt_enBody c inp level e rest s h0
      simp only [enLoop]
      split
      case isTrue hpre => exact ih _ _ _ (h1.keep hpre)
      case isFalse hpre =>
        apply ih
        have hd := h1.drop
        rw [List.append_assoc, List.take_append_drop]
        exact hd

/-- The kind rolled for a normal spawn is never BOSS. -/
lemma rollStats_type_ne_BOSS (level : ℤ) (r : ℚ) :
    (rollStats level r).1 ≠ EnemyType.BOSS := by
  unfold rollStats
  split_ifs <;> simp

/-- The shape of a normal (non-boss) spawn: some enemy whose type is the
rolled kind is appended, and three random draws are consumed. -/
lemma spawnEnemy_normal (inp : TickInput) (level : ℤ) (s : St)
    (h1 : ¬ s.bossActive = true)
    (h2 : ¬ (level % 10 = 0 ∧ s.enemies.length = 0 ∧ s.bossActive = false)) :
    ∃ x : Enemy, x.type = (rollStats level (inp.rand s.ri)).1 ∧
      spawnEnemy inp level s =
        { s with enemies := s.enemies ++ [x], ri := s.ri + 1 + 1 + 1 } := by
  simp only [spawnEnemy, nextRand]
  rw [if_neg h1, if_neg h2]
  exact ⟨_, rfl, rfl⟩

lemma BossInv_spawnEnemy (inp : TickInput) (level : ℤ) (s : St)
    (h : BossInv s) : BossInv (spawnEnemy inp level s) := by
  by_cases h1 : s.bossActive = true
  · unfold spawnEnemy
    rw [if_pos h1]
    exact h
  · by_cases h2 : level % 10 = 0 ∧ s.enemies.length = 0 ∧ s.bossActive = false
    · unfold spawnEnemy
      rw [if_neg h1, if_pos h2]
      have he : s.enemies = [] := List.length_eq_zero.mp h2.2.1
      constructor
      · intro x hx hxb
        rfl
      · dsimp only
        rw [he]
        simp [bossCount, List.countP_cons]
    · obtain ⟨x, hxt, hs⟩ := spawnEnemy_normal inp level s h1 h2
      rw [hs]
      have hflag : s.bossActive = false := by
        simpa using h1
      have hnb : ∀ y ∈ s.enemies, y.type ≠ EnemyType.BOSS := by
        intro y hy hyb
        have := h.1 y hy hyb
        rw [this] at hflag
        cases hflag
      have hxb : x.type ≠ EnemyType.BOSS := by
        rw [hxt]
        exact rollStats_type_ne_BOSS level _
      constructor
      · intro y hy hyb
        exfalso
        rcases List.mem_append.mp hy with hy' | hy'
        · exact hnb y hy' hyb
        · rw [List.mem_singleton.mp hy'] at hyb
          exact hxb hyb
      · show bossCount (s.enemies ++ [x]) ≤ 1
        rw [bossCount_append, bossCount_singleton, if_neg hxb]
        have h0 : bossCount s.enemies = 0 := bossCount_eq_zero.mpr hnb
        omega

/-- The shape of the boss spawn: exactly one BOSS is appended and the flag
is set. -/
lemma spawnEnemy_boss (inp : TickInput) (level : ℤ) (s : St)
    (hb : s.bossActive = false) (hl : level % 10 = 0) (he : s.enemies = []) :
    ∃ boss : Enemy, boss.type = EnemyType.BOSS ∧
      spawnEnemy inp level s =
        { s with bossActive := true, enemies := s.enemies ++ [boss] } := by
  simp only [spawnEnemy]
  rw [if_neg (by simp [hb]), if_pos ⟨hl, by rw [he]; rfl, hb⟩]
  exact ⟨_, rfl, rfl⟩

lemma BossInv.of_eq_boss {s s' : St} (h : BossInv s) (he : s'.enemies = s.enemies)
    (hb : s'.bossActive = s.bossActive) : BossInv s' := by
  obtain ⟨h1, h2⟩ := h
  constructor
  · intro x hx hxb
    rw [hb]
    rw [he] at hx
    exact h1 x hx hxb
  · rw [he]
    exact h2

lemma bossInv_move (inp : TickInput) {s : St} (h : BossInv s) :
    BossInv (movePlayerPhase inp s) :=
  h.of_eq_boss (by simp) (by simp)

lemma bossInv_shoot (c : Cfg) (inp : TickInput) {s : St} (h : BossInv s) :
    BossInv (shootPhase c inp s) :=
  h.of_eq_boss (by simp) (by simp)

lemma bossInv_ebLoop (c : Cfg) (inp : TickInput) (fuel : ℕ)
    (done todo : List Bullet) (s : St) (h : BossInv s) :
    BossInv (ebLoop c inp fuel done todo s) :=
  h.of_eq_boss (by simp) (by simp)

lemma bossInv_enSpawn (inp : TickInput) (level : ℤ) {s : St} (h : BossInv s) :
    BossInv (enemySpawnPhase inp level s) := by
  simp only [enemySpawnPhase]
  split_ifs with ht
  · have h1 : BossInv { s with enemySpawnTimer := s.enemySpawnTimer + 1 } :=
      h.of_eq_boss rfl rfl
    exact (BossInv_spawnEnemy inp level _ h1).of_eq_boss (by simp) (by simp)
  · exact h.of_eq_boss rfl rfl

lemma bossInv_puSpawn (inp : TickInput) {s : St} (h : BossInv s) :
    BossInv (powerUpSpawnPhase inp s) :=
  h.of_eq_boss (by simp) (by simp)

lemma bossInv_puLoop (fuel : ℕ) (done todo : List PowerUp) (s : St)
    (h : BossInv s) : BossInv (puLoop fuel done todo s) :=
  h.of_eq_boss (by simp) (by simp)

lemma bossInv_levelUp (sc lv : ℤ) {s : St} (h : BossInv s) :
    BossInv (levelUpPhase sc lv s) := by
  by_cases hsc : sc > lv * 2000
  · constructor
    · intro x hx hxb
      rw [levelUpPhase_enemies, if_pos hsc] at hx
      cases hx
    · rw [levelUpPhase_enemies, if_pos hsc]
      simp [bossCount]
  · exact h.of_eq_boss (by simp [hsc]) (by simp)

lemma bossInv_survivor (inp : TickInput) {s : St} (h : BossInv s) :
    BossInv (survivorPhase inp s) :=
  h.of_eq_boss (by simp) (by simp)

lemma bossInv_tickEnd {s : St} (h : BossInv s) : BossInv (tickEndPhase s) :=
  h.of_eq_boss (by simp) (by simp)

/-- One whole tick preserves the boss invariant. -/
lemma update_bossInv (c : Cfg) (inp : TickInput) (g : St) (h : BossInv g) :
    BossInv (update c inp g) := by
  unfold update
  exact bossInv_tickEnd (bossInv_survivor inp (bossInv_levelUp _ _
    (bossInv_puLoop _ _ _ _ (bossInv_puSpawn inp
      (enLoop_bossInv c inp _ _ _ _ _ (bossInv_enSpawn inp _
        (bossInv_ebLoop c inp _ _ _ _
          (bossInv_shoot c inp (bossInv_move inp h)))))))))

/-- Every state reachable in a session satisfies the boss invariant. -/
lemma reachable_bossInv (c : Cfg) (g : St) (h : Reachable c g) : BossInv g := by
  induction h with
  | start prev t hfee =>
    constructor
    · intro x hx hxb
      cases hx
    · show bossCount ([] : List Enemy) ≤ 1
      simp [bossCount]
  | tick g inp hplay hr ih => exact update_bossInv c inp g ih
  | pause g hplay hr ih => exact ih.of_eq_boss rfl rfl
  | unpause g hpause hr ih => exact ih.of_eq_boss rfl rfl

/-- C5: the boss discipline of the spawner.  (1) In any reachable session
state at most one enemy of kind BOSS is alive.  (2) `spawnEnemy` is a
no-op while the boss flag is set, so no normal spawn happens during a boss
fight.  (3) When the flag is clear, the level is a multiple of 10 and no
enemies are alive, exactly one BOSS is spawned and the flag is set.
(4) In every other flag-clear situation one non-BOSS enemy is appended and
the flag stays clear. -/
theorem C5_boss_invariant (c : Cfg) (inp : TickInput) (level : ℤ) (g : St)
    (hr : Reachable c g) :
    bossCount g.enemies ≤ 1 ∧
    (g.bossActive = true → spawnEnemy inp level g = g) ∧
    (g.bossActive = false → level % 10 = 0 → g.enemies = [] →
      (spawnEnemy inp level g).bossActive = true ∧
      ∃ boss : Enemy, boss.type = EnemyType.BOSS ∧
        (spawnEnemy inp level g).enemies = [boss]) ∧
    (g.bossActive = false → ¬(level % 10 = 0 ∧ g.enemies = []) →
      (spawnEnemy inp level g).bossActive = false ∧
      ∃ x : Enemy, x.type ≠ EnemyType.BOSS ∧
        (spawnEnemy inp level g).enemies = g.enemies ++ [x]) := by
  refine ⟨(reachable_bossInv c g hr).2, ?_, ?_, ?_⟩
  · intro hb
    unfold spawnEnemy
    rw [if_pos hb]
  · intro hb hl he
    obtain ⟨boss, hbt, hs⟩ := spawnEnemy_boss inp level g hb hl he
    rw [hs]
    refine ⟨rfl, boss, hbt, ?_⟩
    show g.enemies ++ [boss] = [boss]
    simp [he]
  · intro hb hn
    obtain ⟨x, hxt, hs⟩ := spawnEnemy_normal inp level g (by simp [hb])
      (fun hx => hn ⟨hx.1, List.length_eq_zero.mp hx.2.1⟩)
    rw [hs]
    refine ⟨hb, x, ?_, rfl⟩
    rw [hxt]
    exact rollStats_type_ne_BOSS level _

/-- A concrete instance of C5: the state right after starting a normal
session, probed with level 10. -/
theorem C5_witness :
    bossCount (startGame cfgNormal 0 baseSt).enemies ≤ 1 ∧
    ((startGame cfgNormal 0 baseSt).bossActive = true →
      spawnEnemy steadyInput 10 (startGame cfgNormal 0 baseSt) =
        startGame cfgNormal 0 baseSt) ∧
    ((startGame cfgNormal 0 baseSt).bossActive = false → (10 : ℤ) % 10 = 0 →
      (startGame cfgNormal 0 baseSt).enemies = [] →
      (spawnEnemy steadyInput 10 (startGame cfgNormal 0 baseSt)).bossActive = true ∧
      ∃ boss : Enemy, boss.type = EnemyType.BOSS ∧
        (spawnEnemy steadyInput 10 (startGame cfgNormal 0 baseSt)).enemies = [boss]) ∧
    ((startGame cfgNormal 0 baseSt).bossActive = false →
      ¬((10 : ℤ) % 10 = 0 ∧ (startGame cfgNormal 0 baseSt).enemies = []) →
      (spawnEnemy steadyInput 10 (startGame cfgNormal 0 baseSt)).bossActive = false ∧
      ∃ x : Enemy, x.type ≠ EnemyType.BOSS ∧
        (spawnEnemy steadyInput 10 (startGame cfgNormal 0 baseSt)).enemies =
          (startGame cfgNormal 0 baseSt).enemies ++ [x]) :=
  C5_boss_invariant cfgNormal steadyInput 10 (startGame cfgNormal 0 baseSt)
    (Reachable.start baseSt 0 (by decide))

/-!
## C2: the enemy hp invariant

Every enemy alive in a reachable state has `0 < hp ≤ maxHp`, and the
bullet-versus-enemy death branch removes (splices) the enemy the moment its
hp drops to 0 or below.  The proof threads three facts through the tick:
the level stays at least 1, every in-flight player bullet has non-negative
power (so damage never heals), and the hp bounds of every listed enemy.
-/

/-- The hp bounds of one enemy. -/
def HpOk (e : Enemy) : Prop := 0 < e.hp ∧ e.hp ≤ e.maxHp

/-- The hp bounds of every enemy of a list. -/
def HpList (l : List Enemy) : Prop := ∀ x ∈ l, HpOk x

/-- Non-negative power for every bullet of a list. -/
def PowList (l : List Bullet) : Prop := ∀ b ∈ l, 0 ≤ b.power

lemma mem_take_subset {α : Type} {n : ℕ} {l : List α} {x : α}
    (hx : x ∈ l.take n) : x ∈ l :=
  (List.take_sublist n l).mem hx

lemma mem_drop_subset {α : Type} {n : ℕ} {l : List α} {x : α}
    (hx : x ∈ l.drop n) : x ∈ l :=
  (List.drop_sublist n l).mem hx

@[simp] lemma enMove_bullets (inp : TickInput) (it : EIter) :
    (enMove inp it).s.bullets = it.s.bullets := by
  simp only [enMove]; split_ifs <;> rfl

@[simp] lemma enShoot_bullets (inp : TickInput) (level : ℤ) (it : EIter) :
    (enShoot inp level it).s.bullets = it.s.bullets := by
  simp only [enShoot, nextRand]; split_ifs <;> rfl

@[simp] lemma enContact_bullets (c : Cfg) (inp : TickInput) (it : EIter) :
    (enContact c inp it).s.bullets = it.s.bullets := by
  simp only [enContact, createExplosion, loseLife, spliceE]; split_ifs <;> rfl

@[simp] lemma enEscape_bullets (c : Cfg) (it : EIter) :
    (enEscape c it).s.bullets = it.s.bullets := by
  simp only [enEscape, spliceE]; split_ifs <;> rfl

@[simp] lemma spliceP_s (it : PIter) : (spliceP it).s = it.s := by
  simp only [spliceP]; split_ifs <;> rfl

/-- Every bullet created by a shot has power 1. -/
lemma shotBullets_pow (p : Player) : PowList (shotBullets p) := by
  intro b hb
  unfold shotBullets at hb
  split_ifs at hb <;> fin_cases hb <;> norm_num

/-- The shoot phase only appends power-1 bullets. -/
lemma shootPhase_pow (c : Cfg) (inp : TickInput) (s : St)
    (h : PowList s.bullets) : PowList (shootPhase c inp s).bullets := by
  simp only [shootPhase]
  split_ifs <;>
    first
      | exact h
      | (intro b hb
         rcases List.mem_append.mp hb with h' | h'
         · exact h b h'
         · exact shotBullets_pow s.player b h')

/-- The bullet mover keeps the power of a surviving bullet. -/
lemma pbBody_power {b b2 : Bullet} (h : pbBody b = some b2) :
    b2.power = b.power := by
  simp only [pbBody] at h
  split_ifs at h
  all_goals
    first
      | exact Option.noConfusion h
      | (injection h with h2
         subst h2
         rfl)

/-- The player-bullet move-and-prune pass keeps all powers non-negative. -/
lemma pbLoop_pow : ∀ (fuel : ℕ) (done todo : List Bullet),
    PowList done → PowList todo → PowList (pbLoop fuel done todo) := by
  intro fuel
  induction fuel with
  | zero =>
    intro done todo hd ht b hb
    rcases List.mem_append.mp hb with h' | h'
    exacts [hd b h', ht b h']
  | succ n ih =>
    intro done todo hd ht
    cases todo with
    | nil => exact fun b hb => hd b hb
    | cons b rest =>
      have hbp : 0 ≤ b.power := ht b (List.mem_cons_self b rest)
      have hrest : PowList rest := fun x hx => ht x (List.mem_cons_of_mem b hx)
      cases hb2 : pbBody b with
      | none =>
        have hd' : PowList (done ++ rest.take 1) := by
          intro x hx
          rcases List.mem_append.mp hx with h' | h'
          · exact hd x h'
          · exact hrest x (mem_take_subset h')
        simpa only [pbLoop, hb2] using
          ih _ _ hd' (fun x hx => hrest x (mem_drop_subset hx))
      | some b2 =>
        have hb2p : b2.power = b.power := pbBody_power hb2
        have hd' : PowList (done ++ [b2]) := by
          intro x hx
          rcases List.mem_append.mp hx with h' | h'
          · exact hd x h'
          · rw [List.mem_singleton.mp h', hb2p]
            exact hbp
        simpa only [pbLoop, hb2] using ih _ _ hd' hrest

/-- The power-up bullet pass returns a bullet unchanged when it keeps it. -/
lemma puBulletBody_some (b : Bullet) (it : PIter) {b2 : Bullet} {it2 : PIter}
    (h : puBulletBody b it = (some b2, it2)) : b2 = b := by
  simp only [puBulletBody] at h
  split_ifs at h
  · exact absurd (congrArg Prod.fst h) (by simp)
  · exact (Option.some.inj (congrArg Prod.fst h)).symm

/-- The bullets written back by the power-up bullet pass keep non-negative
powers. -/
lemma puBulletLoop_pow : ∀ (fuel : ℕ) (bdone btodo : List Bullet) (it : PIter),
    PowList bdone → PowList btodo →
    PowList (puBulletLoop fuel bdone btodo it).s.bullets := by
  intro fuel
  induction fuel with
  | zero =>
    intro bdone btodo it hd ht b hb
    rcases List.mem_append.mp hb with h' | h'
    exacts [hd b h', ht b h']
  | succ n ih =>
    intro bdone btodo it hd ht
    cases btodo with
    | nil => exact fun b hb => hd b hb
    | cons b rest =>
      have hbp : 0 ≤ b.power := ht b (List.mem_cons_self b rest)
      have hrest : PowList rest := fun x hx => ht x (List.mem_cons_of_mem b hx)
      rcases hb2 : puBulletBody b it with ⟨ob, it2⟩
      cases ob with
      | some b2 =>
        have hb2e : b2 = b := puBulletBody_some b it hb2
        have hd' : PowList (bdone ++ [b2]) := by
          intro x hx
          rcases List.mem_append.mp hx with h' | h'
          · exact hd x h'
          · rw [List.mem_singleton.mp h', hb2e]
            exact hbp
        simpa only [puBulletLoop, hb2] using ih _ _ it2 hd' hrest
      | none =>
        have hd' : PowList (bdone ++ rest.take 1) := by
          intro x hx
          rcases List.mem_append.mp hx with h' | h'
          · exact hd x h'
          · exact hrest x (mem_take_subset h')
        simpa only [puBulletLoop, hb2] using
          ih _ _ it2 hd' (fun x hx => hrest x (mem_drop_subset hx))

/-- One power-up body keeps all bullet powers non-negative. -/
lemma puBody_pow (p : PowerUp) (rest : List PowerUp) (s : St)
    (h : PowList s.bullets) : PowList (puBody p rest s).s.bullets := by
  simp only [puBody]
  split_ifs with hy
  · rw [spliceP_s]
    exact puBulletLoop_pow _ _ _ _ (fun x hx => absurd hx (List.not_mem_nil x)) h
  · exact puBulletLoop_pow _ _ _ _ (fun x hx => absurd hx (List.not_mem_nil x)) h

/-- The power-up scan keeps all bullet powers non-negative. -/
lemma puLoop_pow : ∀ (fuel : ℕ) (done todo : List PowerUp) (s : St),
    PowList s.bullets → PowList (puLoop fuel done todo s).bullets := by
  intro fuel
  induction fuel with
  | zero => intro done todo s h; exact h
  | succ n ih =>
    intro done todo s h
    cases todo with
    | nil => exact h
    | cons p rest =>
      have hb := puBody_pow p rest s h
      simp only [puLoop]
      split
      · exact ih _ _ _ hb
      · exact ih _ _ _ hb

/-- The within-iteration hp invariant of the enemy scan: bounds for the
scanned prefix, the unvisited suffix, and (while present) the current
enemy. -/
def HpIt (done0 : List Enemy) (it : EIter) : Prop :=
  HpList done0 ∧ HpList it.rest ∧ (it.present = true → HpOk it.e)

lemma HpIt.of_eq_hp {done0 : List Enemy} {it it' : EIter} (h : HpIt done0 it)
    (hp : it'.present = it.present) (hr : it'.rest = it.rest)
    (hhp : it'.e.hp = it.e.hp) (hmx : it'.e.maxHp = it.e.maxHp) :
    HpIt done0 it' := by
  refine ⟨h.1, ?_, ?_⟩
  · rw [hr]
    exact h.2.1
  · intro hpr
    rw [hp] at hpr
    have hok := h.2.2 hpr
    exact ⟨by rw [hhp]; exact hok.1, by rw [hhp, hmx]; exact hok.2⟩

lemma HpIt_spliceE {done0 : List Enemy} {it : EIter} (h : HpIt done0 it) :
    HpIt done0 (spliceE it) := by
  refine ⟨h.1, ?_, ?_⟩
  · intro x hx
    rw [spliceE_rest] at hx
    split_ifs at hx
    · exact h.2.1 x hx
    · exact h.2.1 x (mem_tail_subset hx)
  · intro hpr
    rw [spliceE_present] at hpr
    cases hpr

lemma HpIt_move (inp : TickInput) {done0 : List Enemy} (it : EIter)
    (h : HpIt done0 it) : HpIt done0 (enMove inp it) := by
  simp only [enMove]
  split_ifs <;> exact h

lemma HpIt_shoot (inp : TickInput) (level : ℤ) {done0 : List Enemy}
    (it : EIter) (h : HpIt done0 it) : HpIt done0 (enShoot inp level it) := by
  simp only [enShoot, nextRand]
  split_ifs <;> exact h

lemma HpIt_contact (c : Cfg) (inp : TickInput) {done0 : List Enemy}
    (it : EIter) (h : HpIt done0 it) : HpIt done0 (enContact c inp it) := by
  simp only [enContact]
  split_ifs <;>
    first
      | exact h
      | exact HpIt_spliceE (h.of_eq_hp rfl rfl rfl rfl)

lemma HpIt_escape (c : Cfg) {done0 : List Enemy} (it : EIter)
    (h : HpIt done0 it) : HpIt done0 (enEscape c it) := by
  simp only [enEscape]
  split_ifs <;>
    first
      | exact h
      | exact HpIt_spliceE h

/-- The bullet-versus-enemy pass keeps a missing bullet and state intact. -/
lemma enBulletBody_some (c : Cfg) (inp : TickInput) (b : Bullet) (it : EIter)
    {b2 : Bullet} {it2 : EIter}
    (h : enBulletBody c inp b it = (some b2, it2)) : b2 = b ∧ it2 = it := by
  simp only [enBulletBody] at h
  split_ifs at h
  · exact absurd (congrArg Prod.fst h) (by simp)
  · exact absurd (congrArg Prod.fst h) (by simp)
  · exact ⟨(Option.some.inj (congrArg Prod.fst h)).symm,
      (congrArg Prod.snd h).symm⟩

/-- One bullet of the in-enemy pass preserves the hp invariant: a lethal
hit removes the enemy, a non-lethal hit leaves positive hp, and
non-negative damage keeps hp below maxHp. -/
lemma enBulletBody_hpIt (c : Cfg) (inp : TickInput)
    (hbp : 0 ≤ c.up.bulletPower) (b : Bullet) (it : EIter)
    (hpw : 0 ≤ b.power) {done0 : List Enemy} (h : HpIt done0 it) :
    HpIt done0 (enBulletBody c inp b it).2 := by
  simp only [enBulletBody]
  split_ifs with hdist hdead
  · refine ⟨h.1, ?_, ?_⟩
    · intro x hx
      simp only [spliceE_rest] at hx
      split_ifs at hx
      · exact h.2.1 x hx
      · exact h.2.1 x (mem_tail_subset hx)
    · intro hpr
      simp only [spliceE_present] at hpr
      cases hpr
  · refine ⟨h.1, h.2.1, ?_⟩
    intro hpr
    have hok : HpOk it.e := h.2.2 hpr
    refine ⟨?_, ?_⟩
    · show (0:ℚ) < it.e.hp - b.power * c.up.bulletPower
      exact not_le.mp hdead
    · show it.e.hp - b.power * c.up.bulletPower ≤ it.e.maxHp
      have hdmg : 0 ≤ b.power * c.up.bulletPower := mul_nonneg hpw hbp
      have := hok.2
      linarith
  · exact h

/-- The in-enemy bullet pass preserves the hp invariant and writes back a
bullet list of non-negative powers. -/
lemma enBulletLoop_hp (c : Cfg) (inp : TickInput)
    (hbp : 0 ≤ c.up.bulletPower) (done0 : List Enemy) :
    ∀ (fuel : ℕ) (bdone btodo : List Bullet) (it : EIter),
      PowList bdone → PowList btodo → HpIt done0 it →
      HpIt done0 (enBulletLoop c inp fuel bdone btodo it) ∧
      PowList (enBulletLoop c inp fuel bdone btodo it).s.bullets := by
  intro fuel
  induction fuel with
  | zero =>
    intro bdone btodo it hd ht h
    refine ⟨⟨h.1, h.2.1, h.2.2⟩, ?_⟩
    intro b hb
    rcases List.mem_append.mp hb with h' | h'
    exacts [hd b h', ht b h']
  | succ n ih =>
    intro bdone btodo it hd ht h
    cases btodo with
    | nil => exact ⟨⟨h.1, h.2.1, h.2.2⟩, fun b hb => hd b hb⟩
    | cons b rest =>
      have hpw : 0 ≤ b.power := ht b (List.mem_cons_self b rest)
      have hrest : PowList rest := fun x hx => ht x (List.mem_cons_of_mem b hx)
      have hstep := enBulletBody_hpIt c inp hbp b it hpw h
      rcases hb2 : enBulletBody c inp b it with ⟨ob, it2⟩
      rw [hb2] at hstep
      cases ob with
      | some b2 =>
        obtain ⟨rfl, rfl⟩ := enBulletBody_some c inp b it hb2
        have hd' : PowList (bdone ++ [b2]) := by
          intro x hx
          rcases List.mem_append.mp hx with h' | h'
          · exact hd x h'
          · rw [List.mem_singleton.mp h']
            exact hpw
        refine ⟨?_, ?_⟩ <;> simp only [enBulletLoop, hb2]
        · exact (ih (bdone ++ [b2]) rest it2 hd' hrest h).1
        · exact (ih (bdone ++ [b2]) rest it2 hd' hrest h).2
      | none =>
        have hd' : PowList (bdone ++ rest.take 1) := by
          intro x hx
          rcases List.mem_append.mp hx with h' | h'
          · exact hd x h'
          · exact hrest x (mem_take_subset h')
        have ht' : PowList (rest.drop 1) :=
          fun x hx => hrest x (mem_drop_subset hx)
        refine ⟨?_, ?_⟩ <;> simp only [enBulletLoop, hb2]
        · exact (ih _ _ it2 hd' ht' hstep).1
        · exact (ih _ _ it2 hd' ht' hstep).2

/-- One whole enemy body preserves the hp invariant and the bullet-power
invariant. -/
lemma enBody_hp (c : Cfg) (inp : TickInput) (level : ℤ)
    (hbp : 0 ≤ c.up.bulletPower) {done0 : List Enemy} (e : Enemy)
    (rest : List Enemy) (s : St) (hdone : HpList done0) (hrest : HpList rest)
    (he : HpOk e) (hbl : PowList s.bullets) :
    HpIt done0 (enBody c inp level e rest s) ∧
    PowList (enBody c inp level e rest s).s.bullets := by
  have h0 : HpIt done0 (⟨e, true, rest, s⟩ : EIter) := ⟨hdone, hrest, fun _ => he⟩
  have h1 := HpIt_move inp _ h0
  have h2 := HpIt_shoot inp level _ h1
  have h3 := HpIt_contact c inp _ h2
  have hbl3 : PowList (enContact c inp (enShoot inp level
      (enMove inp ⟨e, true, rest, s⟩))).s.bullets := by
    rw [enContact_bullets, enShoot_bullets, enMove_bullets]
    exact hbl
  obtain ⟨h4, hbl4⟩ := enBulletLoop_hp c inp hbp done0
    ((enContact c inp (enShoot inp level
      (enMove inp ⟨e, true, rest, s⟩))).s.bullets.length + 1)
    [] (enContact c inp (enShoot inp level (enMove inp ⟨e, true, rest, s⟩))).s.bullets
    (enContact c inp (enShoot inp level (enMove inp ⟨e, true, rest, s⟩)))
    (fun x hx => absurd hx (List.not_mem_nil x)) hbl3 h3
  simp only [enBody]
  constructor
  · exact HpIt_escape c _ h4
  · rw [enEscape_bullets]
    exact hbl4

/-- The enemies scan keeps the hp bounds of every written-back enemy and
the power bound of every written-back bullet. -/
lemma enLoop_hp (c : Cfg) (inp : TickInput) (level : ℤ)
    (hbp : 0 ≤ c.up.bulletPower) :
    ∀ (fuel : ℕ) (done todo : List Enemy) (s : St),
      HpList done → HpList todo → PowList s.bullets →
      HpList (enLoop c inp level fuel done todo s).enemies ∧
      PowList (enLoop c inp level fuel done todo s).bullets := by
  intro fuel
  induction fuel with
  | zero =>
    intro done todo s hd ht hb
    refine ⟨?_, hb⟩
    intro x hx
    rcases List.mem_append.mp hx with h' | h'
    exacts [hd x h', ht x h']
  | succ n ih =>
    intro done todo s hd ht hb
    cases todo with
    | nil => exact ⟨fun x hx => hd x hx, hb⟩
    | cons e rest =>
      have he : HpOk e := ht e (List.mem_cons_self e rest)
      have hrest : HpList rest := fun x hx => ht x (List.mem_cons_of_mem e hx)
      obtain ⟨hit, hbl⟩ := enBody_hp c inp level hbp e rest s hd hrest he hb
      simp only [enLoop]
      split
      case isTrue hpre =>
        refine ih _ _ _ ?_ hit.2.1 hbl
        intro x hx
        rcases List.mem_append.mp hx with h' | h'
        · exact hd x h'
        · rw [List.mem_singleton.mp h']
          exact hit.2.2 hpre
      case isFalse hpre =>
        refine ih _ _ _ ?_ (fun x hx => hit.2.1 x (mem_drop_subset hx)) hbl
        intro x hx
        rcases List.mem_append.mp hx with h' | h'
        · exact hd x h'
        · exact hit.2.1 x (mem_take_subset h')

/-- Every rolled normal-spawn kind has positive hp. -/
lemma rollStats_hp_pos (level : ℤ) (r : ℚ) : 0 < (rollStats level r).2.1 := by
  unfold rollStats
  split_ifs <;> norm_num

/-- The shape of a normal spawn including the hp fields: the new enemy
starts at full, positive hp. -/
lemma spawnEnemy_normal_hp (inp : TickInput) (level : ℤ) (s : St)
    (h1 : ¬ s.bossActive = true)
    (h2 : ¬ (level % 10 = 0 ∧ s.enemies.length = 0 ∧ s.bossActive = false)) :
    ∃ x : Enemy, x.hp = (rollStats level (inp.rand s.ri)).2.1 ∧
      x.maxHp = (rollStats level (inp.rand s.ri)).2.1 ∧
      spawnEnemy inp level s =
        { s with enemies := s.enemies ++ [x], ri := s.ri + 1 + 1 + 1 } := by
  simp only [spawnEnemy, nextRand]
  rw [if_neg h1, if_neg h2]
  exact ⟨_, rfl, rfl, rfl⟩

/-- `spawnEnemy` preserves the hp invariant when the level is at least 1. -/
lemma spawnEnemy_hp (inp : TickInput) (level : ℤ) (s : St) (hlev : 1 ≤ level)
    (h : HpList s.enemies) : HpList (spawnEnemy inp level s).enemies := by
  by_cases h1 : s.bossActive = true
  · unfold spawnEnemy
    rw [if_pos h1]
    exact h
  · by_cases h2 : level % 10 = 0 ∧ s.enemies.length = 0 ∧ s.bossActive = false
    · unfold spawnEnemy
      rw [if_neg h1, if_pos h2]
      intro x hx
      rcases List.mem_append.mp hx with hx' | hx'
      · exact h x hx'
      · rw [List.mem_singleton.mp hx']
        have hc : (1:ℚ) ≤ (level : ℚ) := by exact_mod_cast hlev
        constructor
        · show (0:ℚ) < 50 + (level : ℚ) * 10
          linarith
        · show (50 + (level : ℚ) * 10 : ℚ) ≤ 50 + (level : ℚ) * 10
          exact le_refl _
    · obtain ⟨x, hhp, hmx, hs⟩ := spawnEnemy_normal_hp inp level s h1 h2
      rw [hs]
      intro y hy
      rcases List.mem_append.mp hy with hy' | hy'
      · exact h y hy'
      · rw [List.mem_singleton.mp hy']
        refine ⟨?_, ?_⟩
        · rw [hhp]
          exact rollStats_hp_pos level _
        · rw [hhp, hmx]

/-- The level-up clear keeps the hp invariant. -/
lemma hpList_levelUp (sc lv : ℤ) {s : St} (h : HpList s.enemies) :
    HpList (levelUpPhase sc lv s).enemies := by
  intro x hx
  rw [levelUpPhase_enemies] at hx
  split_ifs at hx
  · cases hx
  · exact h x hx

/-- The combined bullet-power and enemy-hp invariant of a state. -/
def EBInv (s : St) : Prop := PowList s.bullets ∧ HpList s.enemies

lemma ebinv_move (inp : TickInput) {s : St} (h : EBInv s) :
    EBInv (movePlayerPhase inp s) :=
  ⟨by rw [movePlayerPhase_bullets]; exact h.1,
   by rw [movePlayerPhase_enemies]; exact h.2⟩

lemma ebinv_shoot (c : Cfg) (inp : TickInput) {s : St} (h : EBInv s) :
    EBInv (shootPhase c inp s) :=
  ⟨shootPhase_pow c inp s h.1, by rw [shootPhase_enemies]; exact h.2⟩

lemma ebinv_pbWrite {s : St} (h : EBInv s) :
    EBInv ({ s with bullets := pbLoop (s.bullets.length + 1) [] s.bullets } : St) :=
  ⟨pbLoop_pow _ _ _ (fun x hx => absurd hx (List.not_mem_nil x)) h.1, h.2⟩

lemma ebinv_ebLoop (c : Cfg) (inp : TickInput) (fuel : ℕ)
    (done todo : List Bullet) {s : St} (h : EBInv s) :
    EBInv (ebLoop c inp fuel done todo s) :=
  ⟨by rw [ebLoop_bullets]; exact h.1, by rw [ebLoop_enemies]; exact h.2⟩

lemma ebinv_enSpawn (inp : TickInput) (level : ℤ) (hlev : 1 ≤ level) {s : St}
    (h : EBInv s) : EBInv (enemySpawnPhase inp level s) := by
  refine ⟨?_, ?_⟩
  · rw [enemySpawnPhase_bullets]
    exact h.1
  · simp only [enemySpawnPhase]
    split_ifs with ht
    · have h1 : HpList ({ s with enemySpawnTimer := s.enemySpawnTimer + 1 } : St).enemies :=
        h.2
      intro x hx
      exact spawnEnemy_hp inp level _ hlev h1 x hx
    · exact h.2

lemma ebinv_enLoop (c : Cfg) (inp : TickInput) (level : ℤ)
    (hbp : 0 ≤ c.up.bulletPower) (fuel : ℕ) {s : St} (h : EBInv s) :
    EBInv (enLoop c inp level fuel [] s.enemies s) := by
  obtain ⟨h1, h2⟩ := enLoop_hp c inp level hbp fuel [] s.enemies s
    (fun x hx => absurd hx (List.not_mem_nil x)) h.2 h.1
  exact ⟨h2, h1⟩

lemma ebinv_puSpawn (inp : TickInput) {s : St} (h : EBInv s) :
    EBInv (powerUpSpawnPhase inp s) :=
  ⟨by rw [powerUpSpawnPhase_bullets]; exact h.1,
   by rw [powerUpSpawnPhase_enemies]; exact h.2⟩

lemma ebinv_puLoop (fuel : ℕ) (done todo : List PowerUp) {s : St}
    (h : EBInv s) : EBInv (puLoop fuel done todo s) :=
  ⟨puLoop_pow fuel done todo s h.1, by rw [puLoop_enemies]; exact h.2⟩

lemma ebinv_levelUp (sc lv : ℤ) {s : St} (h : EBInv s) :
    EBInv (levelUpPhase sc lv s) :=
  ⟨by rw [levelUpPhase_bullets]; exact h.1, hpList_levelUp sc lv h.2⟩

lemma ebinv_survivor (inp : TickInput) {s : St} (h : EBInv s) :
    EBInv (survivorPhase inp s) :=
  ⟨by rw [survivorPhase_bullets]; exact h.1,
   by rw [survivorPhase_enemies]; exact h.2⟩

lemma ebinv_tickEnd {s : St} (h : EBInv s) : EBInv (tickEndPhase s) :=
  ⟨by rw [tickEndPhase_bullets]; exact h.1,
   by rw [tickEndPhase_enemies]; exact h.2⟩

/-- One whole tick preserves the bullet-power and enemy-hp invariants. -/
lemma update_ebInv (c : Cfg) (inp : TickInput) (g : St)
    (hbp : 0 ≤ c.up.bulletPower) (hlev : 1 ≤ g.level) (h : EBInv g) :
    EBInv (update c inp g) := by
  unfold update
  exact ebinv_tickEnd (ebinv_survivor inp (ebinv_levelUp _ _
    (ebinv_puLoop _ _ _ (ebinv_puSpawn inp
      (ebinv_enLoop c inp _ hbp _ (ebinv_enSpawn inp _ hlev
        (ebinv_ebLoop c inp _ _ _ (ebinv_pbWrite
          (ebinv_shoot c inp (ebinv_move inp h))))))))))

/-- One tick never takes the level below 1. -/
lemma update_level_ge (c : Cfg) (inp : TickInput) (g : St)
    (hlev : 1 ≤ g.level) : 1 ≤ (update c inp g).level := by
  unfold update
  simp only [tickEndPhase_level, survivorPhase_level, levelUpPhase_level,
    puLoop_level, powerUpSpawnPhase_level, enLoop_level, enemySpawnPhase_level,
    ebLoop_level, shootPhase_level, movePlayerPhase_level]
  split_ifs <;> omega

/-- The C2 state invariant: level at least 1, non-negative bullet powers,
and hp bounds for every listed enemy. -/
def C2Inv (g : St) : Prop := 1 ≤ g.level ∧ PowList g.bullets ∧ HpList g.enemies

/-- Every reachable session state satisfies the C2 invariant. -/
lemma reachable_c2Inv (c : Cfg) (hbp : 0 ≤ c.up.bulletPower) (g : St)
    (h : Reachable c g) : C2Inv g := by
  induction h with
  | start prev t hfee =>
    refine ⟨le_refl 1, ?_, ?_⟩
    · intro b hb
      cases hb
    · intro x hx
      cases hx
  | tick g inp hplay hr ih =>
    obtain ⟨h1, h2, h3⟩ := ih
    have hu := update_ebInv c inp g hbp h1 ⟨h2, h3⟩
    exact ⟨update_level_ge c inp g h1, hu.1, hu.2⟩
  | pause g hplay hr ih => exact ih
  | unpause g hpause hr ih => exact ih

/-- C2: in every reachable session state (in particular after every tick)
every listed enemy satisfies `0 < hp ∧ hp ≤ maxHp`; and the moment a
bullet hit takes an enemy object's hp to 0 or below, the death branch of
the same pass marks it removed (the splice), so it is never written back.
Requires the configured bullet-power upgrade to be non-negative, as damage
would otherwise heal. -/
theorem C2_enemy_hp (c : Cfg) (inp : TickInput) (g : St)
    (hbp : 0 ≤ c.up.bulletPower) (hr : Reachable c g) :
    (∀ e ∈ g.enemies, 0 < e.hp ∧ e.hp ≤ e.maxHp) ∧
    (∀ (b : Bullet) (it : EIter),
      distLt (b.x - it.e.x) (b.y - it.e.y) (it.e.width / 2 + 5) →
      it.e.hp - b.power * c.up.bulletPower ≤ 0 →
      (enBulletBody c inp b it).2.present = false) := by
  constructor
  · exact (reachable_c2Inv c hbp g hr).2.2
  · intro b it hdist hdead
    simp only [enBulletBody]
    split_ifs
    simp

/-!
## C4: lives never negative, GAMEOVER on the last loss

Both life-loss sites run the `setLives` updater (`loseLife`): it flags
`GAMEOVER` exactly when the loss starts from `lives ≤ 1`.  Both sites are
guarded by `invulnerable ≤ 0` and set a positive invulnerability window,
so one tick loses at most one life; `Reachable` induction then keeps
`lives ≥ 1` while `PLAYING` (or `PAUSED`) and `lives ≥ 0` everywhere.
-/

@[simp] lemma enMove_player_invulnerable (inp : TickInput) (it : EIter) :
    (enMove inp it).s.player.invulnerable = it.s.player.invulnerable := by
  simp only [enMove]; split_ifs <;> rfl

@[simp] lemma enShoot_player_invulnerable (inp : TickInput) (level : ℤ)
    (it : EIter) :
    (enShoot inp level it).s.player.invulnerable = it.s.player.invulnerable := by
  simp only [enShoot, nextRand]; split_ifs <;> rfl

@[simp] lemma enKillFx_player_invulnerable (inp : TickInput) (e : Enemy)
    (s : St) :
    (enKillFx inp e s).player.invulnerable = s.player.invulnerable := by
  simp only [enKillFx, createExplosion, bossCoinBurst, unlockIn,
    spawnPowerUpAt, nextRand]
  split_ifs <;> rfl

@[simp] lemma killCountAch_player_invulnerable (s : St) :
    (killCountAch s).player.invulnerable = s.player.invulnerable := by
  simp only [killCountAch, unlockIn]; split_ifs <;> rfl

@[simp] lemma enBulletBody_player_invulnerable (c : Cfg) (inp : TickInput)
    (b : Bullet) (it : EIter) :
    (enBulletBody c inp b it).2.s.player.invulnerable =
      it.s.player.invulnerable := by
  simp only [enBulletBody, spliceE]; split_ifs <;> simp

@[simp] lemma enemySpawnPhase_player_invulnerable (inp : TickInput)
    (level : ℤ) (s : St) :
    (enemySpawnPhase inp level s).player.invulnerable =
      s.player.invulnerable := by
  simp only [enemySpawnPhase, spawnEnemy, nextRand]
  split_ifs <;> rfl

/-- The within-tick lives invariant: either a life to spare, or the session
already flagged over (by a loss or by the guardian escape transition) with
an invulnerability window still open, which gates every further loss site
this tick. -/
def LInv (s : St) : Prop :=
  1 ≤ s.lives ∨
  (0 ≤ s.lives ∧
    (s.gameState = GState.GAMEOVER ∨ s.gameState = GState.GUARDIAN_RESULT) ∧
    0 < s.player.invulnerable)

/-- The end-of-tick weakening of `LInv` (the invulnerability timer may
already have ticked down). -/
def WInv (s : St) : Prop :=
  1 ≤ s.lives ∨
  (0 ≤ s.lives ∧
    (s.gameState = GState.GAMEOVER ∨ s.gameState = GState.GUARDIAN_RESULT))

lemma LInv.toW {s : St} (h : LInv s) : WInv s := by
  rcases h with h1 | ⟨h0, hgs, _⟩
  · exact Or.inl h1
  · exact Or.inr ⟨h0, hgs⟩

lemma LInv.of_eq_lives {s s' : St} (h : LInv s) (hl : s'.lives = s.lives)
    (hg : s'.gameState = s.gameState)
    (hi : s'.player.invulnerable = s.player.invulnerable) : LInv s' := by
  rcases h with h1 | ⟨h0, hgs, hinv⟩
  · exact Or.inl (by rw [hl]; exact h1)
  · exact Or.inr ⟨by rw [hl]; exact h0, by rw [hg]; exact hgs,
      by rw [hi]; exact hinv⟩

lemma WInv.of_eq_weak {s s' : St} (h : WInv s) (hl : s'.lives = s.lives)
    (hg : s'.gameState = s.gameState) : WInv s' := by
  rcases h with h1 | ⟨h0, hgs⟩
  · exact Or.inl (by rw [hl]; exact h1)
  · exact Or.inr ⟨by rw [hl]; exact h0, by rw [hg]; exact hgs⟩

/-- One enemy bullet preserves the lives invariant: a hit needs
`invulnerable ≤ 0` (impossible in the flagged disjunct), and a loss either
leaves a life or flags `GAMEOVER` while opening the 60-frame window. -/
lemma ebBody_linv (c : Cfg) (inp : TickInput) (b : Bullet)
    (rest : List Bullet) (s : St) (h : LInv s) :
    LInv (ebBody c inp b rest s).2.2 := by
  by_cases hcol : s.player.invulnerable ≤ 0 ∧
      distLt (s.player.x - (b.x + b.vx)) (s.player.y - (b.y + b.vy))
        (s.player.width / 2)
  · rcases h with hl | ⟨h0, hgs, hinv⟩
    · simp only [ebBody, resolveBulletHitPlayer, createExplosion]
      rw [if_pos hcol]
      split_ifs <;>
        first
          | exact Or.inl hl
          | (by_cases h2 : 2 ≤ s.lives
             · refine Or.inl ?_
               show 1 ≤ s.lives - 1
               omega
             · refine Or.inr ⟨?_, Or.inl ?_, ?_⟩
               · show 0 ≤ s.lives - 1
                 omega
               · show (if s.lives ≤ 1 then GState.GAMEOVER else s.gameState) =
                   GState.GAMEOVER
                 rw [if_pos (by omega)]
               · show (0:ℤ) < 60
                 norm_num)
    · simp only [ebBody]
      rw [if_neg (fun hc => absurd hc.1 (not_le.mpr hinv))]
      split_ifs <;> exact Or.inr ⟨h0, hgs, hinv⟩
  · simp only [ebBody]
    rw [if_neg hcol]
    split_ifs <;> exact h

/-- Direct contact preserves the lives invariant (cases as for the
bullet). -/
lemma enContact_linv (c : Cfg) (inp : TickInput) (it : EIter)
    (h : LInv it.s) : LInv (enContact c inp it).s := by
  by_cases hcol : it.s.player.invulnerable ≤ 0 ∧
      distLt (it.s.player.x - it.e.x) (it.s.player.y - it.e.y)
        ((it.s.player.width + it.e.width) / (5/2))
  · rcases h with hl | ⟨h0, hgs, hinv⟩
    · simp only [enContact, createExplosion, spliceE]
      rw [if_pos hcol]
      split_ifs <;>
        first
          | exact Or.inl hl
          | (by_cases h2 : 2 ≤ it.s.lives
             · refine Or.inl ?_
               show 1 ≤ it.s.lives - 1
               omega
             · refine Or.inr ⟨?_, Or.inl ?_, ?_⟩
               · show 0 ≤ it.s.lives - 1
                 omega
               · show (if it.s.lives ≤ 1 then GState.GAMEOVER
                     else it.s.gameState) = GState.GAMEOVER
                 rw [if_pos (by omega)]
               · show (0:ℤ) < 120
                 norm_num)
    · simp only [enContact]
      rw [if_neg (fun hc => absurd hc.1 (not_le.mpr hinv))]
      exact Or.inr ⟨h0, hgs, hinv⟩
  · simp only [enContact]
    rw [if_neg hcol]
    exact h

/-- The escape check preserves the lives invariant: only the guardian
transition touches the state, flagging `GUARDIAN_RESULT`. -/
lemma enEscape_linv (c : Cfg) (it : EIter) (h : LInv it.s) :
    LInv (enEscape c it).s := by
  simp only [enEscape, spliceE]
  split_ifs <;>
    first
      | exact h
      | (rcases h with hl | ⟨h0, hgs, hinv⟩
         · exact Or.inl hl
         · exact Or.inr ⟨h0, Or.inr rfl, hinv⟩)

/-- One whole enemy body preserves the lives invariant. -/
lemma enBody_linv (c : Cfg) (inp : TickInput) (level : ℤ) (e : Enemy)
    (rest : List Enemy) (s : St) (h : LInv s) :
    LInv (enBody c inp level e rest s).s := by
  simp only [enBody]
  apply enEscape_linv
  refine enBulletLoop_pres c inp (fun it => LInv it.s) (fun it l hq => hq)
    (fun b it hq => ?_) _ _ _ _ ?_
  · exact hq.of_eq_lives (enBulletBody_lives c inp b it)
      (enBulletBody_gameState c inp b it)
      (enBulletBody_player_invulnerable c inp b it)
  · refine enContact_linv c inp _ ?_
    refine (h.of_eq_lives ?_ ?_ ?_)
    · simp
    · simp
    · simp

lemma linv_shoot (c : Cfg) (inp : TickInput) {s : St} (h : LInv s) :
    LInv (shootPhase c inp s) :=
  h.of_eq_lives (by simp) (by simp) (by simp)

lemma linv_ebLoop (c : Cfg) (inp : TickInput) (fuel : ℕ)
    (done todo : List Bullet) {s : St} (h : LInv s) :
    LInv (ebLoop c inp fuel done todo s) :=
  ebLoop_pres c inp LInv (fun s l hq => hq)
    (fun b rest s hq => ebBody_linv c inp b rest s hq) fuel done todo s h

lemma linv_enSpawn (inp : TickInput) (level : ℤ) {s : St} (h : LInv s) :
    LInv (enemySpawnPhase inp level s) :=
  h.of_eq_lives (by simp) (by simp) (by simp)

lemma linv_enLoop (c : Cfg) (inp : TickInput) (level : ℤ) (fuel : ℕ)
    (done todo : List Enemy) {s : St} (h : LInv s) :
    LInv (enLoop c inp level fuel done todo s) :=
  enLoop_pres c inp level LInv (fun s l hq => hq)
    (fun e rest s hq => enBody_linv c inp level e rest s hq) fuel done todo s h

lemma linv_pbWrite {s : St} (h : LInv s) :
    LInv ({ s with bullets := pbLoop (s.bullets.length + 1) [] s.bullets } : St) :=
  h.of_eq_lives rfl rfl rfl

lemma linv_starsWrite {s : St} (h : LInv s) :
    LInv ({ s with stars := s.stars.map starStep } : St) :=
  h.of_eq_lives rfl rfl rfl

lemma winv_partWrite {s : St} (h : WInv s) :
    WInv ({ s with particles := partLoop (s.particles.length + 1) [] s.particles } : St) :=
  h.of_eq_weak rfl rfl

lemma winv_puSpawn (inp : TickInput) {s : St} (h : WInv s) :
    WInv (powerUpSpawnPhase inp s) :=
  h.of_eq_weak (by simp) (by simp)

lemma winv_puLoop (fuel : ℕ) (done todo : List PowerUp) {s : St}
    (h : WInv s) : WInv (puLoop fuel done todo s) :=
  h.of_eq_weak (puLoop_lives fuel done todo s) (puLoop_gameState fuel done todo s)

lemma winv_levelUp (sc lv : ℤ) {s : St} (h : WInv s) :
    WInv (levelUpPhase sc lv s) :=
  h.of_eq_weak (by simp) (by simp)

lemma winv_survivor (inp : TickInput) {s : St} (h : WInv s) :
    WInv (survivorPhase inp s) :=
  h.of_eq_weak (by simp) (by simp)

lemma winv_tickEnd {s : St} (h : WInv s) : WInv (tickEndPhase s) :=
  h.of_eq_weak (by simp) (by simp)

set_option maxHeartbeats 4000000 in
/-- One whole tick from a state with a life to spare ends with
non-negative lives, and with the session flagged over whenever the last
life was lost. -/
lemma update_c4 (c : Cfg) (inp : TickInput) (g : St) (hl : 1 ≤ g.lives) :
    WInv (update c inp g) := by
  unfold update
  have l1 : LInv (movePlayerPhase inp g) :=
    Or.inl (by rw [movePlayerPhase_lives]; exact hl)
  exact winv_tickEnd (winv_survivor inp (winv_levelUp _ _
    (winv_partWrite (winv_puLoop _ _ _ (winv_puSpawn inp
      ((linv_enLoop c inp _ _ _ _ (linv_enSpawn inp _
        (linv_starsWrite (linv_ebLoop c inp _ _ _
          (linv_pbWrite (linv_shoot c inp l1)))))).toW))))))

/-- The reachable-state lives invariant. -/
def C4Inv (g : St) : Prop :=
  0 ≤ g.lives ∧
  ((g.gameState = GState.PLAYING ∨ g.gameState = GState.PAUSED) → 1 ≤ g.lives)

/-- Lives stay in range in every reachable session state (the upgraded
maximum is at least one). -/
lemma reachable_c4Inv (c : Cfg) (hml : 1 ≤ c.up.maxLives) (g : St)
    (h : Reachable c g) : C4Inv g := by
  induction h with
  | start prev t hfee =>
    constructor
    · show (0:ℤ) ≤ if c.guardian then 999999 else c.up.maxLives
      split_ifs <;> omega
    · intro _
      show (1:ℤ) ≤ if c.guardian then 999999 else c.up.maxLives
      split_ifs <;> omega
  | tick g inp hplay hr ih =>
    have hl : 1 ≤ g.lives := ih.2 (Or.inl hplay)
    have hw := update_c4 c inp g hl
    rcases hw with h1 | ⟨h0, hgs⟩
    · exact ⟨by omega, fun _ => h1⟩
    · refine ⟨h0, fun hpp => ?_⟩
      rcases hgs with hg | hg <;> rcases hpp with hp | hp <;>
        (rw [hg] at hp; cases hp)
  | pause g hplay hr ih =>
    exact ⟨ih.1, fun _ => ih.2 (Or.inl hplay)⟩
  | unpause g hpause hr ih =>
    exact ⟨ih.1, fun _ => ih.2 (Or.inr hpause)⟩

/-- C4: lives are never negative in any reachable state (and any state
still `PLAYING` or `PAUSED` has a life to spare, so a tick never starts at
zero); and the shared `setLives` updater of both life-loss sites
decrements by exactly one and flags `GAMEOVER` in the same step whenever
the loss starts from `lives ≤ 1`, i.e. would take lives below 1. -/
theorem C4_lives (c : Cfg) (g s : St) (hml : 1 ≤ c.up.maxLives)
    (hr : Reachable c g) :
    0 ≤ g.lives ∧
    (g.gameState = GState.PLAYING → 1 ≤ g.lives) ∧
    (loseLife s).lives = s.lives - 1 ∧
    (s.lives ≤ 1 → (loseLife s).gameState = GState.GAMEOVER) := by
  have hi := reachable_c4Inv c hml g hr
  refine ⟨hi.1, fun hp => hi.2 (Or.inl hp), rfl, ?_⟩
  intro hle
  show (if s.lives ≤ 1 then GState.GAMEOVER else s.gameState) =
    GState.GAMEOVER
  rw [if_pos hle]

/-- A concrete instance of C4: a fresh normal session with the default
3-life upgrade, probed together with a one-life state for the updater. -/
theorem C4_witness :
    0 ≤ (startGame cfgNormal 0 baseSt).lives ∧
    ((startGame cfgNormal 0 baseSt).gameState = GState.PLAYING →
      1 ≤ (startGame cfgNormal 0 baseSt).lives) ∧
    (loseLife { baseSt with lives := 1 }).lives =
      ({ baseSt with lives := 1 } : St).lives - 1 ∧
    (({ baseSt with lives := 1 } : St).lives ≤ 1 →
      (loseLife { baseSt with lives := 1 }).gameState = GState.GAMEOVER) :=
  C4_lives cfgNormal (startGame cfgNormal 0 baseSt) { baseSt with lives := 1 }
    (by decide) (Reachable.start baseSt 0 (by decide))

/-- A concrete instance of C2 at the state right after starting a normal
session. -/
theorem C2_witness :
    (∀ e ∈ (startGame cfgNormal 0 baseSt).enemies, 0 < e.hp ∧ e.hp ≤ e.maxHp) ∧
    (∀ (b : Bullet) (it : EIter),
      distLt (b.x - it.e.x) (b.y - it.e.y) (it.e.width / 2 + 5) →
      it.e.hp - b.power * cfgNormal.up.bulletPower ≤ 0 →
      (enBulletBody cfgNormal steadyInput b it).2.present = false) :=
  C2_enemy_hp cfgNormal steadyInput (startGame cfgNormal 0 baseSt)
    (by norm_num [cfgNormal, defaultUpgrades])
    (Reachable.start baseSt 0 (by decide))

/-!
## C1: removal mid-scan re-processes and skips entities

A concrete tick refuting the no-re-processing guarantee: the shielded
player sits on enemy A, so the contact step removes A from the array; but
the `forEach` keeps iterating with the removed object, the bullet pass
still hits it, awards its score and kill, and the death branch's
`splice(i, 1)` at the stale index removes the shifted-in neighbour B
instead — B leaves the list without ever being hit.
-/

def c1EnemyA : Enemy :=
  { id := 1, x := 400, y := 500, type := .BASIC, hp := 1, maxHp := 1,
    speed := 2, score := 100, width := 40, height := 40 }

def c1EnemyB : Enemy :=
  { id := 2, x := 100, y := 100, type := .BASIC, hp := 1, maxHp := 1,
    speed := 2, score := 100, width := 40, height := 40 }

def c1St : St :=
  { baseSt with
    player := { x := 400, y := 500, width := 40, height := 40, speed := 6,
                invulnerable := 0, shield := true, tripleShot := 0 },
    bullets := [{ x := 400, y := 514, vx := 0, vy := -12, power := 1,
                  isEnemy := false }],
    enemies := [c1EnemyA, c1EnemyB] }

section
attribute [local semireducible] Rat.add Rat.sub Rat.mul Rat.inv

/-- C1: code-bug evidence.  In `c1St`, enemy A is removed by the direct
contact step (the shield absorbs the hit and the non-boss enemy is
spliced), yet the same tick's bullet pass still processes the removed
object: the bullet overlapping A's position kills it, adds its 100 score
and one kill, and the death branch's `splice(i, 1)` at the stale index
removes the untouched neighbour B (far away at (100, 100)).  After the
tick the enemy list is empty with score 100 and one kill, while the claim
requires the contact-removed A not to be re-processed by the bullet pass
(so score 0 and no kill) and the never-hit B to survive the scan. -/
theorem C1_counterexample :
    (update cfgNormal steadyInput c1St).enemies = [] ∧
    (update cfgNormal steadyInput c1St).score = 100 ∧
    (update cfgNormal steadyInput c1St).enemiesKilled = 1 := by
  refine ⟨?_, ?_, ?_⟩ <;> decide

end

end KarlSV
